import Mathlib

/-!
# Penalty-kick physics core (`src/main.js`)

A shallow embedding of the projectile physics, collision and prediction code
of `src/main.js`.

Numbers are elements of an arbitrary linearly ordered field `K` (the JavaScript
doubles are read as real numbers; every definition is computable and can be
run at `K := ℚ`).  `Math.sqrt` is a parameter `sqrt : K → K` of the functions
that call it; theorems that depend on what a square root is assume `IsSqrt sqrt`,
and the concrete examples are stated at `K := ℝ` with `Real.sqrt`.
Where a claim is about exact equality of computed numbers, the force model is
also embedded in binary64 arithmetic (`F64`, round to nearest, ties to even).
`Math.sin` / `Math.cos` of the wind direction are read from the input record.

The classes of the rendering library that the physics uses (`Vector3`, `Box3`,
`Sphere`) are embedded with the library's method names.  Rendering-only
effects (mesh rotation, animation mixer, line geometry bookkeeping) are left
out; the position attribute of the prediction line and of the trail line are
kept as the flat scalar arrays the code builds.
-/

namespace Wadaa

/-! ## Vectors and boxes -/

/-- Vector3 of the rendering library: a triple of scalars. -/
structure Vec3 (K : Type) where
  x : K
  y : K
  z : K
deriving DecidableEq, Repr

namespace Vec3

variable {K : Type} [LinearOrderedField K]

/-- The vector made by `new THREE.Vector3()`. -/
def zero : Vec3 K := ⟨0, 0, 0⟩

/-- Componentwise sum (`add`, `addVectors`). -/
def add (a b : Vec3 K) : Vec3 K := ⟨a.x + b.x, a.y + b.y, a.z + b.z⟩

/-- Componentwise difference (`subVectors`). -/
def subVectors (a b : Vec3 K) : Vec3 K := ⟨a.x - b.x, a.y - b.y, a.z - b.z⟩

/-- Scaling by a scalar (`multiplyScalar`). -/
def multiplyScalar (a : Vec3 K) (s : K) : Vec3 K := ⟨a.x * s, a.y * s, a.z * s⟩

/-- Division by a scalar: the library multiplies by `1 / s`. -/
def divideScalar (a : Vec3 K) (s : K) : Vec3 K := multiplyScalar a (1 / s)

/-- Cross product `a × b` (`crossVectors(a, b)`). -/
def crossVectors (a b : Vec3 K) : Vec3 K :=
  ⟨a.y * b.z - a.z * b.y, a.z * b.x - a.x * b.z, a.x * b.y - a.y * b.x⟩

/-- Squared length (`lengthSq`). -/
def lengthSq (a : Vec3 K) : K := a.x * a.x + a.y * a.y + a.z * a.z

/-- Euclidean length (`length`): `Math.sqrt` of the squared length. -/
def length (sqrt : K → K) (a : Vec3 K) : K := sqrt (lengthSq a)

/-- Normalisation (`normalize`): `divideScalar(length() || 1)`. -/
def normalize (sqrt : K → K) (a : Vec3 K) : Vec3 K :=
  divideScalar a (if length sqrt a = 0 then 1 else length sqrt a)

/-- Squared distance between two points (`distanceToSquared`). -/
def distanceToSquared (a b : Vec3 K) : K :=
  (a.x - b.x) * (a.x - b.x) + (a.y - b.y) * (a.y - b.y) + (a.z - b.z) * (a.z - b.z)

/-- Componentwise clamp (`clamp(min, max)`): `max(min, min(max, value))`. -/
def clamp (a lo hi : Vec3 K) : Vec3 K :=
  ⟨max lo.x (min hi.x a.x), max lo.y (min hi.y a.y), max lo.z (min hi.z a.z)⟩

end Vec3

/-- Box3 of the rendering library: an axis-aligned box given by two corners. -/
structure Box3 (K : Type) where
  min : Vec3 K
  max : Vec3 K
deriving DecidableEq, Repr

namespace Box3

variable {K : Type} [LinearOrderedField K]

/-- The library test `containsPoint`: the point lies within the box, faces included. -/
def containsPoint (b : Box3 K) (p : Vec3 K) : Bool :=
  decide (b.min.x ≤ p.x ∧ p.x ≤ b.max.x ∧ b.min.y ≤ p.y ∧ p.y ≤ b.max.y ∧
    b.min.z ≤ p.z ∧ p.z ≤ b.max.z)

/-- The library test `intersectsSphere`: the point of the box closest to the
sphere centre is within the radius of the centre. -/
def intersectsSphere (b : Box3 K) (center : Vec3 K) (radius : K) : Bool :=
  decide (Vec3.distanceToSquared (Vec3.clamp center b.min b.max) center ≤ radius * radius)

end Box3

/-! ## Constants and planets -/

section Constants

variable {K : Type} [LinearOrderedField K]

/-- The ball radius, `BALL_RADIUS = 0.35`. -/
def BALL_RADIUS : K := 35 / 100

/-- The depth of the goal plane, `GOAL_Z = -30`. -/
def GOAL_Z : K := -30

/-- The keeper patrol limit, `KEEPER_LIMIT = 5.5`. -/
def KEEPER_LIMIT : K := 55 / 10

/-- The keeper patrol speed, `keeperSpeed = 4.0`. -/
def keeperSpeed : K := 4

end Constants

/-- A planet record `{g, density, name}`. -/
structure Planet (K : Type) where
  g : K
  density : K
  name : String
deriving DecidableEq, Repr

namespace planets

variable {K : Type} [LinearOrderedField K]

/-- Earth: `{g:-9.8, density:1, name:"Bumi"}`. -/
def earth : Planet K := ⟨-(98 / 10), 1, "Bumi"⟩

/-- Moon: `{g:-1.6, density:0, name:"Bulan"}`. -/
def moon : Planet K := ⟨-(16 / 10), 0, "Bulan"⟩

/-- Mars: `{g:-3.7, density:0.02, name:"Mars"}`. -/
def mars : Planet K := ⟨-(37 / 10), 2 / 100, "Mars"⟩

end planets

/-! ## Force model -/

section Force

variable {K : Type} [LinearOrderedField K]

/-- The ball mass used by `calculateAcceleration`, `mass = 0.45`. -/
def mass : K := 45 / 100

/-- The gravity force `F_gravity = (0, g * mass, 0)`. -/
def F_gravity (planetData : Planet K) : Vec3 K := ⟨0, planetData.g * mass, 0⟩

/-- The Magnus force `F_magnus = cross(angVel, vel) * (0.002 * density)`. -/
def F_magnus (vel angVel : Vec3 K) (planetData : Planet K) : Vec3 K :=
  (Vec3.crossVectors angVel vel).multiplyScalar (2 / 1000 * planetData.density)

/-- The wind force `F_wind = windVector * (0.05 * density)`. -/
def F_wind (planetData : Planet K) (windVector : Vec3 K) : Vec3 K :=
  windVector.multiplyScalar (5 / 100 * planetData.density)

/-- Net acceleration: `(F_gravity + F_magnus + F_wind) / mass`. -/
def calculateAcceleration (vel angVel : Vec3 K) (planetData : Planet K)
    (windVector : Vec3 K) : Vec3 K :=
  (((F_gravity planetData).add (F_magnus vel angVel planetData)).add
    (F_wind planetData windVector)).divideScalar mass

end Force

/-! ## Game state -/

/-- The text and colour that `updateGameStatus` writes to the status element. -/
structure Status where
  text : String
  color : String
deriving DecidableEq, Repr

/-- The values read from the page controls.  `windSin` and `windCos` are
`Math.sin(wDirRad)` and `Math.cos(wDirRad)` of the wind direction slider. -/
structure Inputs (K : Type) where
  speed : K
  spin : K
  targetX : K
  targetY : K
  windSpeed : K
  windSin : K
  windCos : K
deriving DecidableEq, Repr

/-- The numbers that `updateStatsPanel` prints (before `toFixed`). -/
structure Stats (K : Type) where
  planet : String
  kecAwal : K
  spinY : K
  angin : K
  gayaMagnusAwal : K
deriving DecidableEq, Repr

/-- The script's global variables.  `ballMesh` and `keeperMesh` hold the mesh
position once the asset is loaded; `predPoints` is the position attribute of
the prediction line, `stats` the content of the stats panel. -/
structure Game (K : Type) where
  ballMesh : Option (Vec3 K)
  keeperMesh : Option (Vec3 K)
  goalColliders : List (Box3 K)
  goalAreaBox : Option (Box3 K)
  startPos : Vec3 K
  trailPoints : List K
  predPoints : List K
  predVisible : Bool
  isFlying : Bool
  gameEnded : Bool
  velocity : Vec3 K
  angularVelocity : Vec3 K
  position : Vec3 K
  aimAssistEnabled : Bool
  keeperDir : K
  currentPlanet : Planet K
  status : Status
  stats : Option (Stats K)
deriving DecidableEq, Repr

section Model

variable {K : Type} [LinearOrderedField K]

/-- The globals as the script initialises them, before any asset has loaded
(the status and stats elements still hold the page's own text). -/
def init : Game K where
  ballMesh := none
  keeperMesh := none
  goalColliders := []
  goalAreaBox := none
  startPos := ⟨0, BALL_RADIUS, 25⟩
  trailPoints := []
  predPoints := []
  predVisible := true
  isFlying := false
  gameEnded := false
  velocity := Vec3.zero
  angularVelocity := Vec3.zero
  position := Vec3.zero
  aimAssistEnabled := true
  keeperDir := 1
  currentPlanet := planets.earth
  status := ⟨"", ""⟩
  stats := none

/-- The left post hitbox. -/
def leftPost : Box3 K := ⟨⟨-(72 / 10), 0, -34⟩, ⟨-7, 5, -30⟩⟩

/-- The right post hitbox. -/
def rightPost : Box3 K := ⟨⟨7, 0, -34⟩, ⟨72 / 10, 5, -30⟩⟩

/-- The crossbar hitbox. -/
def crossbar : Box3 K := ⟨⟨-(65 / 10), 46 / 10, -34⟩, ⟨6, 48 / 10, -30⟩⟩

/-- The goal-mouth box `goalAreaBox`. -/
def goalArea : Box3 K := ⟨⟨-(65 / 10), 0, -34⟩, ⟨65 / 10, 4, -(325 / 10)⟩⟩

/-- The keeper hitbox built each step from the keeper position `kPos`. -/
def keeperHitbox (kPos : Vec3 K) : Box3 K :=
  ⟨⟨kPos.x - 1, kPos.y, kPos.z - 5 / 10⟩, ⟨kPos.x + 1, kPos.y + 4, kPos.z + 5 / 10⟩⟩

/-- The wind vector `(sin, 0, -cos) * wSpeed`. -/
def windVec (ui : Inputs K) : Vec3 K :=
  (⟨ui.windSin, 0, -ui.windCos⟩ : Vec3 K).multiplyScalar ui.windSpeed

/-! ## Keeper patrol -/

/-- The function `updateKeeper(dt)`. -/
def updateKeeper (dt : K) (s : Game K) : Game K :=
  match s.keeperMesh with
  | none => s
  | some kPos =>
    if s.gameEnded then s
    else
      let x := kPos.x + keeperSpeed * s.keeperDir * dt
      if x > KEEPER_LIMIT then
        { s with keeperMesh := some { kPos with x := KEEPER_LIMIT }, keeperDir := -1 }
      else if x < -KEEPER_LIMIT then
        { s with keeperMesh := some { kPos with x := -KEEPER_LIMIT }, keeperDir := 1 }
      else
        { s with keeperMesh := some { kPos with x := x } }

/-! ## Live integrator -/

/-- The velocity after `velocity.add(accel.multiplyScalar(dt))`. -/
def integrateVelocity (vel angVel : Vec3 K) (planetData : Planet K) (wind : Vec3 K)
    (dt : K) : Vec3 K :=
  vel.add ((calculateAcceleration vel angVel planetData wind).multiplyScalar dt)

/-- The tentative position `position + velocity * dt`. -/
def integratePosition (pos vel : Vec3 K) (dt : K) : Vec3 K :=
  pos.add (vel.multiplyScalar dt)

/-- The ground block of `updatePhysics`, on the tentative position, the
integrated velocity and `isFlying`; it returns the three updated values. -/
def groundContact (sqrt : K → K) (dt : K) (nextPos velocity : Vec3 K) (isFlying : Bool) :
    Vec3 K × Vec3 K × Bool :=
  if nextPos.y ≤ BALL_RADIUS then
    let nextPos : Vec3 K := { nextPos with y := BALL_RADIUS }
    if velocity.y < -(6 / 10) then
      (nextPos, ⟨velocity.x * (9 / 10), velocity.y * -(6 / 10), velocity.z * (9 / 10)⟩, isFlying)
    else
      let frictionFactor : K := 1 - 35 / 100 * dt
      let v : Vec3 K := ⟨velocity.x * frictionFactor, 0, velocity.z * frictionFactor⟩
      let horizontalSpeed := sqrt (v.x * v.x + v.z * v.z)
      if horizontalSpeed < 1 / 10 then (nextPos, ⟨0, 0, 0⟩, false)
      else (nextPos, v, isFlying)
  else (nextPos, velocity, isFlying)

/-- The status written on a post hit. -/
def statusTiang : Status := ⟨"TIANG!", "#FFFF00"⟩

/-- The status written on a keeper block. -/
def statusDiblokir : Status := ⟨"DIBLOKIR!", "#FF0000"⟩

/-- The status written on a goal. -/
def statusGol : Status := ⟨"GOOOOL!!!", "#00FF00"⟩

/-- The status written by `shootBall`. -/
def statusTerbang : Status := ⟨"BOLA TERBANG...", "#fff"⟩

/-- The status written by `resetBall`. -/
def statusSiap : Status := ⟨"SIAP!", "#00ff00"⟩

/-- One iteration of the loop over `goalColliders`. -/
def postHit (center : Vec3 K) (acc : Vec3 K × Status) (box : Box3 K) : Vec3 K × Status :=
  if box.intersectsSphere center BALL_RADIUS then
    (⟨acc.1.x * (5 / 10), acc.1.y, acc.1.z * -(5 / 10)⟩, statusTiang)
  else acc

/-- The loop `for (let box of goalColliders)` on velocity and status. -/
def postPass (colliders : List (Box3 K)) (center : Vec3 K) (acc : Vec3 K × Status) :
    Vec3 K × Status :=
  colliders.foldl (postHit center) acc

/-- The keeper block of `updatePhysics` on velocity, `gameEnded` and status. -/
def keeperPass (keeperMesh : Option (Vec3 K)) (center : Vec3 K)
    (acc : Vec3 K × Bool × Status) : Vec3 K × Bool × Status :=
  match keeperMesh with
  | none => acc
  | some kPos =>
    if (keeperHitbox kPos).intersectsSphere center BALL_RADIUS then
      (⟨acc.1.x, acc.1.y * (8 / 10), acc.1.z * -(5 / 10)⟩, true, statusDiblokir)
    else acc

/-- The goal block of `updatePhysics` on `gameEnded` and status. -/
def goalPass (goalAreaBox : Option (Box3 K)) (nextPos : Vec3 K) (acc : Bool × Status) :
    Bool × Status :=
  match goalAreaBox with
  | none => acc
  | some box => if box.containsPoint nextPos then (true, statusGol) else acc

/-- The trail update: push the three coordinates, drop the oldest point
once the array holds more than 600 scalars. -/
def pushTrail (trailPoints : List K) (p : Vec3 K) : List K :=
  let t := trailPoints ++ [p.x, p.y, p.z]
  if t.length > 600 then t.drop 3 else t

/-- The velocity of a step after `velocity.add(accel.multiplyScalar(dt))`. -/
def steppedVelocity (ui : Inputs K) (dt : K) (s : Game K) : Vec3 K :=
  integrateVelocity s.velocity s.angularVelocity s.currentPlanet (windVec ui) dt

/-- The tentative position `nextPos` of a step, before the ground test. -/
def tentativePos (ui : Inputs K) (dt : K) (s : Game K) : Vec3 K :=
  integratePosition s.position (steppedVelocity ui dt s) dt

/-- The result of the ground block in a step: `nextPos` after the ground test
(the centre of `ballSphere`), the velocity and `isFlying`. -/
def groundStage (sqrt : K → K) (ui : Inputs K) (dt : K) (s : Game K) :
    Vec3 K × Vec3 K × Bool :=
  groundContact sqrt dt (tentativePos ui dt s) (steppedVelocity ui dt s) s.isFlying

/-- The function `updatePhysics(dt)`; the wind is read from the controls `ui`. -/
def updatePhysics (sqrt : K → K) (ui : Inputs K) (dt : K) (s : Game K) : Game K :=
  if !s.isFlying || s.ballMesh.isNone || s.gameEnded then s
  else
    let g := groundStage sqrt ui dt s
    let nextPos := g.1
    let p := postPass s.goalColliders nextPos (g.2.1, s.status)
    let k := keeperPass s.keeperMesh nextPos (p.1, s.gameEnded, p.2)
    let e := goalPass s.goalAreaBox nextPos (k.2.1, k.2.2)
    { s with
      velocity := k.1
      isFlying := g.2.2
      gameEnded := e.1
      status := e.2
      position := nextPos
      ballMesh := some nextPos
      trailPoints := pushTrail s.trailPoints nextPos }

/-! ## Trajectory predictor -/

/-- The predictor's fixed step, `dt = 0.05`. -/
def predDt : K := 5 / 100

/-- The ground block of the prediction loop on the simulated position and
velocity; the third component tells that the loop hits its `break`. -/
def predGroundContact (sqrt : K → K) (simPos simVel : Vec3 K) : Vec3 K × Vec3 K × Bool :=
  if simPos.y ≤ BALL_RADIUS then
    let simPos : Vec3 K := { simPos with y := BALL_RADIUS }
    let frictionFactor : K := 1 - 25 / 10 * predDt
    let simVel : Vec3 K := ⟨simVel.x * frictionFactor, 0, simVel.z * frictionFactor⟩
    let horizontalSpeed := sqrt (simVel.x * simVel.x + simVel.z * simVel.z)
    (simPos, simVel, decide (horizontalSpeed < 1 / 10))
  else (simPos, simVel, false)

/-- The loop `for (let i = 0; i < 50; i++)` of `updatePredictionPath`, with the
number of iterations left as first argument; it returns the flat array
`points` and the final `simVel`. -/
def predLoop (sqrt : K → K) (planetData : Planet K) (simAngVel simWind : Vec3 K) :
    Nat → Vec3 K → Vec3 K → List K → List K × Vec3 K
  | 0, _, simVel, points => (points, simVel)
  | n + 1, simPos, simVel, points =>
    let points := points ++ [simPos.x, simPos.y, simPos.z]
    let simVel := integrateVelocity simVel simAngVel planetData simWind predDt
    let simPos := integratePosition simPos simVel predDt
    let g := predGroundContact sqrt simPos simVel
    if g.2.2 then (points, g.2.1)
    else if g.1.y ≤ 0 then (points, g.2.1)
    else predLoop sqrt planetData simAngVel simWind n g.1 g.2.1 points

/-- The launch velocity `normalize(target - startPos) * speed`. -/
def launchVelocity (sqrt : K → K) (ui : Inputs K) (startPos : Vec3 K) : Vec3 K :=
  ((Vec3.subVectors ⟨ui.targetX, ui.targetY, GOAL_Z⟩ startPos).normalize sqrt).multiplyScalar
    ui.speed

/-- The launch spin `(10, -spin, 0)`. -/
def launchSpin (ui : Inputs K) : Vec3 K := ⟨10, -ui.spin, 0⟩

/-- The function `updateStatsPanel(v, w, wind, F_magnus)`. -/
def updateStatsPanel (sqrt : K → K) (planetData : Planet K) (v w wind F : Vec3 K) : Stats K :=
  ⟨planetData.name, v.length sqrt, w.y, wind.length sqrt, F.length sqrt⟩

/-- The function `updatePredictionPath()`.  `simVel` is one object that the
loop mutates, so the vector handed to `updateStatsPanel` is the loop's final
velocity. -/
def updatePredictionPath (sqrt : K → K) (ui : Inputs K) (s : Game K) : Game K :=
  if !s.aimAssistEnabled || s.isFlying then s
  else
    let simVel := launchVelocity sqrt ui s.startPos
    let simAngVel := launchSpin ui
    let simWind := windVec ui
    let airDensity := 2 / 1000 * s.currentPlanet.density
    let F_magnus_initial := (Vec3.crossVectors simAngVel simVel).multiplyScalar airDensity
    let r := predLoop sqrt s.currentPlanet simAngVel simWind 50 s.startPos simVel []
    { s with
      predPoints := r.1
      stats := some (updateStatsPanel sqrt s.currentPlanet r.2 simAngVel simWind
        F_magnus_initial) }

/-! ## Page actions -/

/-- The function `resetBall()`. -/
def resetBall (sqrt : K → K) (ui : Inputs K) (s : Game K) : Game K :=
  let s := { s with isFlying := false, gameEnded := false }
  let s := match s.ballMesh with
    | some _ => { s with position := s.startPos, ballMesh := some s.startPos }
    | none => s
  let s := { s with trailPoints := [], predVisible := s.aimAssistEnabled }
  let s := updatePredictionPath sqrt ui s
  { s with status := statusSiap }

/-- The function `shootBall()`. -/
def shootBall (sqrt : K → K) (ui : Inputs K) (s : Game K) : Game K :=
  if s.isFlying then s
  else
    let s := resetBall sqrt ui s
    { s with
      velocity := launchVelocity sqrt ui s.startPos
      angularVelocity := launchSpin ui
      isFlying := true
      gameEnded := false
      predVisible := false
      status := statusTerbang }

/-- The function `setStartPos(type)`. -/
def setStartPos (sqrt : K → K) (ui : Inputs K) (type : String) (s : Game K) : Game K :=
  let s := if type = "left" then { s with startPos := ⟨-15, BALL_RADIUS, 25⟩ } else s
  let s := if type = "center" then { s with startPos := ⟨0, BALL_RADIUS, 25⟩ } else s
  let s := if type = "right" then { s with startPos := ⟨15, BALL_RADIUS, 25⟩ } else s
  resetBall sqrt ui s

/-- The function `toggleAimAssist()`. -/
def toggleAimAssist (sqrt : K → K) (ui : Inputs K) (s : Game K) : Game K :=
  let s := { s with aimAssistEnabled := !s.aimAssistEnabled }
  let s := { s with predVisible := s.aimAssistEnabled }
  if s.aimAssistEnabled then updatePredictionPath sqrt ui s else s

/-- The options of the planet selector. -/
inductive PlanetKey where
  | earth
  | moon
  | mars
deriving DecidableEq, Repr

/-- The lookup `planets[val]`. -/
def PlanetKey.planet : PlanetKey → Planet K
  | .earth => planets.earth
  | .moon => planets.moon
  | .mars => planets.mars

/-- The change listener of the planet selector. -/
def selectPlanet (sqrt : K → K) (ui : Inputs K) (val : PlanetKey) (s : Game K) : Game K :=
  updatePredictionPath sqrt ui { s with currentPlanet := val.planet }

/-- The load callback of the goal model. -/
def loadGoal (s : Game K) : Game K :=
  { s with
    goalColliders := s.goalColliders ++ [leftPost, rightPost, crossbar]
    goalAreaBox := some goalArea }

/-- The load callback of the keeper model: the keeper stands at `(0, 0, GOAL_Z + 1.5)`. -/
def loadKeeper (s : Game K) : Game K :=
  { s with keeperMesh := some ⟨0, 0, GOAL_Z + 15 / 10⟩ }

/-- The load callback of the ball model. -/
def loadBall (sqrt : K → K) (ui : Inputs K) (s : Game K) : Game K :=
  resetBall sqrt ui { s with ballMesh := some Vec3.zero }

/-- One frame of `animate`: the keeper moves, then the ball. -/
def animate (sqrt : K → K) (ui : Inputs K) (dt : K) (s : Game K) : Game K :=
  updatePhysics sqrt ui dt (updateKeeper dt s)

/-- The events that drive the game; each carries the control values it reads. -/
inductive Op (K : Type) where
  | updateKeeper (dt : K)
  | updatePhysics (ui : Inputs K) (dt : K)
  | updatePredictionPath (ui : Inputs K)
  | shootBall (ui : Inputs K)
  | resetBall (ui : Inputs K)
  | setStartPos (ui : Inputs K) (type : String)
  | toggleAimAssist (ui : Inputs K)
  | selectPlanet (ui : Inputs K) (val : PlanetKey)
  | loadGoal
  | loadKeeper
  | loadBall (ui : Inputs K)

/-- The effect of one event. -/
def Op.apply (sqrt : K → K) : Op K → Game K → Game K
  | .updateKeeper dt, s => Wadaa.updateKeeper dt s
  | .updatePhysics ui dt, s => Wadaa.updatePhysics sqrt ui dt s
  | .updatePredictionPath ui, s => Wadaa.updatePredictionPath sqrt ui s
  | .shootBall ui, s => Wadaa.shootBall sqrt ui s
  | .resetBall ui, s => Wadaa.resetBall sqrt ui s
  | .setStartPos ui type, s => Wadaa.setStartPos sqrt ui type s
  | .toggleAimAssist ui, s => Wadaa.toggleAimAssist sqrt ui s
  | .selectPlanet ui val, s => Wadaa.selectPlanet sqrt ui val s
  | .loadGoal, s => Wadaa.loadGoal s
  | .loadKeeper, s => Wadaa.loadKeeper s
  | .loadBall ui, s => Wadaa.loadBall sqrt ui s

/-- The effect of a sequence of events, first event first. -/
def run (sqrt : K → K) (ops : List (Op K)) (s : Game K) : Game K :=
  ops.foldl (fun t op => op.apply sqrt t) s

/-- What a square root is: on non-negative numbers, the non-negative root. -/
def IsSqrt (sqrt : K → K) : Prop :=
  ∀ x : K, 0 ≤ x → 0 ≤ sqrt x ∧ sqrt x * sqrt x = x

/-- Control values used in the examples: speed 20, spin 3, target (1, 2),
wind speed 5 blowing towards the goal. -/
def sampleInputs : Inputs K := ⟨20, 3, 1, 2, 5, 0, 1⟩

/-- Control values used in the examples: speed 20, no spin, target (0, 2), no wind. -/
def calmInputs : Inputs K := ⟨20, 0, 0, 2, 0, 0, 1⟩

/-- A state used in the examples: everything loaded, the ball rolling slowly
on the ground on Earth. -/
def rollingSample : Game K :=
  { (init : Game K) with
    ballMesh := some ⟨0, BALL_RADIUS, 20⟩
    keeperMesh := some ⟨0, 0, GOAL_Z + 15 / 10⟩
    goalColliders := [leftPost, rightPost, crossbar]
    goalAreaBox := some goalArea
    isFlying := true
    position := ⟨0, BALL_RADIUS, 20⟩
    velocity := ⟨3 / 100, 0, -(4 / 100)⟩
    angularVelocity := ⟨10, 0, 0⟩ }

/-- A state used in the examples: everything loaded, the ball in flight on the
Moon just in front of the goal mouth. -/
def goalSample : Game K :=
  { (init : Game K) with
    ballMesh := some ⟨0, 1, -(324 / 10)⟩
    keeperMesh := some ⟨3, 0, GOAL_Z + 15 / 10⟩
    goalColliders := [leftPost, rightPost, crossbar]
    goalAreaBox := some goalArea
    isFlying := true
    position := ⟨0, 1, -(324 / 10)⟩
    velocity := ⟨0, 1 / 2, -20⟩
    angularVelocity := ⟨10, 0, 0⟩
    currentPlanet := planets.moon }

/-- A state used in the examples: everything loaded, the ball in flight on the
Moon towards the upper left corner of the goal frame. -/
def cornerSample : Game K :=
  { (init : Game K) with
    ballMesh := some ⟨-(655 / 100), 47 / 10, -29⟩
    keeperMesh := some ⟨3, 0, GOAL_Z + 15 / 10⟩
    goalColliders := [leftPost, rightPost, crossbar]
    goalAreaBox := some goalArea
    isFlying := true
    position := ⟨-(655 / 100), 47 / 10, -29⟩
    velocity := ⟨-2, 16 / 100, -30⟩
    angularVelocity := ⟨10, 0, 0⟩
    currentPlanet := planets.moon }

/-- A state used in the examples: everything loaded, the ball in flight on the
Moon towards the right post. -/
def postSample : Game K :=
  { (init : Game K) with
    ballMesh := some ⟨69 / 10, 2, -29⟩
    keeperMesh := some ⟨3, 0, GOAL_Z + 15 / 10⟩
    goalColliders := [leftPost, rightPost, crossbar]
    goalAreaBox := some goalArea
    isFlying := true
    position := ⟨69 / 10, 2, -29⟩
    velocity := ⟨1, 16 / 100, -30⟩
    angularVelocity := ⟨10, 0, 0⟩
    currentPlanet := planets.moon }

/-- The k-th point of a flat position array `[x0, y0, z0, x1, y1, z1, ...]`. -/
def pointAt : List K → Nat → Option (Vec3 K)
  | x :: y :: z :: _, 0 => some ⟨x, y, z⟩
  | _ :: _ :: _ :: rest, k + 1 => pointAt rest k
  | _, _ => none

/-- The flat position array of a list of points. -/
def flatten3 : List (Vec3 K) → List K
  | [] => []
  | p :: ps => p.x :: p.y :: p.z :: flatten3 ps

/-- The prediction loop read as a function to the list of sampled points (the
array `points` is `flatten3` of that list, see `predLoop_eq`) and the final
`simVel`. -/
def predPath (sqrt : K → K) (planetData : Planet K) (simAngVel simWind : Vec3 K) :
    Nat → Vec3 K → Vec3 K → List (Vec3 K) × Vec3 K
  | 0, _, simVel => ([], simVel)
  | n + 1, simPos, simVel =>
    let g := predGroundContact sqrt
      (integratePosition simPos (integrateVelocity simVel simAngVel planetData simWind predDt)
        predDt)
      (integrateVelocity simVel simAngVel planetData simWind predDt)
    if g.2.2 then ([simPos], g.2.1)
    else if g.1.y ≤ 0 then ([simPos], g.2.1)
    else (simPos :: (predPath sqrt planetData simAngVel simWind n g.1 g.2.1).1,
      (predPath sqrt planetData simAngVel simWind n g.1 g.2.1).2)

/-- Whether a step from state `s` meets a goal box, the keeper hitbox or the
goal mouth. -/
def stepEvent (sqrt : K → K) (ui : Inputs K) (dt : K) (s : Game K) : Bool :=
  (s.goalColliders.any fun box =>
      box.intersectsSphere (groundStage sqrt ui dt s).1 BALL_RADIUS) ||
    (match s.keeperMesh with
      | none => false
      | some kPos =>
        (keeperHitbox kPos).intersectsSphere (groundStage sqrt ui dt s).1 BALL_RADIUS) ||
    (match s.goalAreaBox with
      | none => false
      | some box => box.containsPoint (groundStage sqrt ui dt s).1)

/-- The live game `k` frames of 0.05 s after `shootBall` in state `s`. -/
def liveAfter (sqrt : K → K) (ui : Inputs K) (s : Game K) (k : Nat) : Game K :=
  (animate sqrt ui predDt)^[k] (shootBall sqrt ui s)

/-- Control values used in the examples: speed 0.1, no spin, a target on the
ground at the centre of the goal, no wind. -/
def slowInputs : Inputs K := ⟨1 / 10, 0, 0, 35 / 100, 0, 0, 1⟩

/-- Control values used in the examples: speed 20, no spin, a target on the
ground at the centre of the goal, no wind. -/
def lowInputs : Inputs K := ⟨20, 0, 0, 35 / 100, 0, 0, 1⟩

/-- A state used in the examples: everything loaded, the ball at rest on the
centre start position, on the Moon. -/
def readySample : Game K :=
  { (init : Game K) with
    ballMesh := some ⟨0, BALL_RADIUS, 25⟩
    keeperMesh := some ⟨0, 0, GOAL_Z + 15 / 10⟩
    goalColliders := [leftPost, rightPost, crossbar]
    goalAreaBox := some goalArea
    position := ⟨0, BALL_RADIUS, 25⟩
    currentPlanet := planets.moon }

/-- The state in which the physics step of frame `j + 1` after `shootBall`
runs: the keeper has already made its move of that frame. -/
def frameState (sqrt : K → K) (ui : Inputs K) (s : Game K) (j : Nat) : Game K :=
  updateKeeper predDt (liveAfter sqrt ui s j)

/-- Control values used in the examples: speed 73, no spin, a target 48 above
the ball at the centre of the goal plane (the launch direction is
`(0, 48, -55) / 73`), no wind. -/
def highInputs : Inputs K := ⟨73, 0, 0, 4835 / 100, 0, 0, 1⟩

/-- The events that call `resetBall` outright. -/
def Op.isReset : Op K → Bool
  | .resetBall _ => true
  | .setStartPos _ _ => true
  | .loadBall _ => true
  | _ => false

/-- Whether, along the run of `ops` from `s`, every event that calls
`resetBall` outright finds the ball not flying. -/
def resetsAtRest (sqrt : K → K) : List (Op K) → Game K → Bool
  | [], _ => true
  | op :: ops, s =>
    (!op.isReset || !s.isFlying) && resetsAtRest sqrt ops (op.apply sqrt s)

/-- The events of a flight in still air: keeper moves, physics steps whose
wind speed is 0, and planet changes. -/
def Op.calmTick : Op K → Bool
  | .updateKeeper _ => true
  | .updatePhysics ui _ => decide (ui.windSpeed = 0)
  | .selectPlanet _ _ => true
  | _ => false

/-- Whether `updatePhysics` passes its guard in state `s`. -/
def running (s : Game K) : Bool :=
  s.isFlying && s.ballMesh.isSome && !s.gameEnded

/-- The ball positions committed by the executed `updatePhysics` steps along
the run of `ops` from `s`, oldest first. -/
def committed (sqrt : K → K) : List (Op K) → Game K → List (Vec3 K)
  | [], _ => []
  | op :: ops, s =>
    (match op with
      | .updatePhysics _ _ => if running s then [(op.apply sqrt s).position] else []
      | _ => []) ++ committed sqrt ops (op.apply sqrt s)

/-- The last `n` elements of a list, in order. -/
def lastN {α : Type} (n : Nat) (l : List α) : List α :=
  l.drop (l.length - n)

/-- The ground block of `updatePhysics` with its friction coefficient 0.35
replaced by `mu`, for the comparison with the predictor's ground block. -/
def groundContactWith (mu : K) (sqrt : K → K) (dt : K) (nextPos velocity : Vec3 K)
    (isFlying : Bool) : Vec3 K × Vec3 K × Bool :=
  if nextPos.y ≤ BALL_RADIUS then
    let nextPos : Vec3 K := { nextPos with y := BALL_RADIUS }
    if velocity.y < -(6 / 10) then
      (nextPos, ⟨velocity.x * (9 / 10), velocity.y * -(6 / 10), velocity.z * (9 / 10)⟩, isFlying)
    else
      let frictionFactor : K := 1 - mu * dt
      let v : Vec3 K := ⟨velocity.x * frictionFactor, 0, velocity.z * frictionFactor⟩
      let horizontalSpeed := sqrt (v.x * v.x + v.z * v.z)
      if horizontalSpeed < 1 / 10 then (nextPos, ⟨0, 0, 0⟩, false)
      else (nextPos, v, isFlying)
  else (nextPos, velocity, isFlying)

/-- The events other than `shootBall`. -/
def Op.notShoot : Op K → Bool
  | .shootBall _ => false
  | _ => true

/-- The per-frame events `updateKeeper` and `updatePhysics`. -/
def Op.isTick : Op K → Bool
  | .updateKeeper _ => true
  | .updatePhysics _ _ => true
  | _ => false

end Model

/-! ## Double arithmetic

The numbers of the script are IEEE binary64 values.  `F64` models them by sign,
significand and exponent: `⟨neg, mant, ex⟩` stands for
`(-1)^neg * mant * 2^(ex - 1074)`, with `2^52 ≤ mant < 2^53` for normal numbers,
`ex = 0` for subnormal numbers and `mant = 0` for the two zeros.  Every
operation is the exact operation followed by rounding to nearest, ties to
even.  Overflow, infinities, NaN and division by zero are outside the model. -/

/-- A binary64 value `(-1)^neg * mant * 2^(ex - 1074)`. -/
structure F64 where
  neg : Bool
  mant : Nat
  ex : Nat
deriving DecidableEq, Repr

namespace F64

/-- The number of binary digits of `n`, by halving; the first argument bounds
the number of halvings. -/
def bitLengthAux : Nat → Nat → Nat
  | 0, _ => 0
  | fuel + 1, n => if n = 0 then 0 else bitLengthAux fuel (n / 2) + 1

/-- The number of binary digits of `n`. -/
def bitLength (n : Nat) : Nat := bitLengthAux n n

/-- The binary64 value nearest to `(-1)^neg * (N / D) * 2^(-1074)`, ties to the
even significand. -/
def round (neg : Bool) (N D : Nat) : F64 :=
  let E := bitLength (N / D) - 53
  let D2 := D <<< E
  let m0 := N / D2
  let r := N % D2
  let m := if D2 < 2 * r ∨ (2 * r = D2 ∧ m0 % 2 = 1) then m0 + 1 else m0
  if m = 9007199254740992 then ⟨neg, 4503599627370496, E + 1⟩ else ⟨neg, m, E⟩

/-- The value of a decimal literal `n / d` (with a minus sign when `neg`). -/
def ofDecimal (neg : Bool) (n d : Nat) : F64 := round neg (n <<< 1074) d

/-- The literal `0`. -/
def zero : F64 := ⟨false, 0, 0⟩

/-- The product `a * b`. -/
def mul (a b : F64) : F64 :=
  round (a.neg != b.neg) ((a.mant * b.mant) <<< (a.ex + b.ex)) (1 <<< 1074)

/-- The quotient `a / b`. -/
def div (a b : F64) : F64 :=
  round (a.neg != b.neg) (a.mant <<< (a.ex + 1074)) (b.mant <<< b.ex)

/-- The sum `a + b`. -/
def add (a b : F64) : F64 :=
  let x := a.mant <<< a.ex
  let y := b.mant <<< b.ex
  if a.neg = b.neg then round a.neg (x + y) 1
  else if x = y then zero
  else if y < x then round a.neg (x - y) 1
  else round b.neg (y - x) 1

/-- The difference `a - b`. -/
def sub (a b : F64) : F64 := add a ⟨!b.neg, b.mant, b.ex⟩

end F64

/-- The library's `crossVectors(a, b)` in double arithmetic. -/
def crossVectors64 (a b : Vec3 F64) : Vec3 F64 :=
  ⟨F64.sub (F64.mul a.y b.z) (F64.mul a.z b.y), F64.sub (F64.mul a.z b.x) (F64.mul a.x b.z),
    F64.sub (F64.mul a.x b.y) (F64.mul a.y b.x)⟩

/-- The library's `multiplyScalar(s)` in double arithmetic. -/
def multiplyScalar64 (a : Vec3 F64) (s : F64) : Vec3 F64 :=
  ⟨F64.mul a.x s, F64.mul a.y s, F64.mul a.z s⟩

/-- The library's `add` / `addVectors` in double arithmetic. -/
def add64 (a b : Vec3 F64) : Vec3 F64 :=
  ⟨F64.add a.x b.x, F64.add a.y b.y, F64.add a.z b.z⟩

/-- The constant `mass = 0.45` as a double. -/
def mass64 : F64 := F64.ofDecimal false 45 100

/-- The force `F_gravity` in double arithmetic. -/
def F_gravity64 (planetData : Planet F64) : Vec3 F64 :=
  ⟨F64.zero, F64.mul planetData.g mass64, F64.zero⟩

/-- The force `F_magnus` in double arithmetic. -/
def F_magnus64 (vel angVel : Vec3 F64) (planetData : Planet F64) : Vec3 F64 :=
  multiplyScalar64 (crossVectors64 angVel vel)
    (F64.mul (F64.ofDecimal false 2 1000) planetData.density)

/-- The force `F_wind` in double arithmetic. -/
def F_wind64 (planetData : Planet F64) (windVector : Vec3 F64) : Vec3 F64 :=
  multiplyScalar64 windVector (F64.mul (F64.ofDecimal false 5 100) planetData.density)

/-- The function `calculateAcceleration` in double arithmetic:
`divideScalar(mass)` multiplies by the rounded `1 / mass`. -/
def calculateAcceleration64 (vel angVel : Vec3 F64) (planetData : Planet F64)
    (windVector : Vec3 F64) : Vec3 F64 :=
  multiplyScalar64
    (add64 (add64 (F_gravity64 planetData) (F_magnus64 vel angVel planetData))
      (F_wind64 planetData windVector))
    (F64.div (F64.ofDecimal false 1 1) mass64)

/-- The Moon record `{g:-1.6, density:0, name:"Bulan"}` in doubles. -/
def moon64 : Planet F64 := ⟨F64.ofDecimal true 16 10, F64.zero, "Bulan"⟩

/-- A velocity used in the examples, `(3, 4, -20)`, in doubles. -/
def sampleVel64 : Vec3 F64 :=
  ⟨F64.ofDecimal false 3 1, F64.ofDecimal false 4 1, F64.ofDecimal true 20 1⟩

/-- An angular velocity used in the examples, `(10, -5, 0)`, in doubles. -/
def sampleSpin64 : Vec3 F64 := ⟨F64.ofDecimal false 10 1, F64.ofDecimal true 5 1, F64.zero⟩

/-- A wind vector used in the examples, `(2, 0, -7)`, in doubles. -/
def sampleWind64 : Vec3 F64 := ⟨F64.ofDecimal false 2 1, F64.zero, F64.ofDecimal true 7 1⟩

/-! ## Force model: theorems -/

section ForceTheorems

variable {K : Type} [LinearOrderedField K]

/-- C1: for every velocity, angular velocity, wind and planet record,
`calculateAcceleration` is `((0, g*0.45, 0) + cross(w, v)*(0.002*density) +
wind*(0.05*density)) / 0.45`, which is
`(0, g, 0) + (0.002*density/0.45)*cross(w, v) + (0.05*density/0.45)*wind`. -/
theorem calculateAcceleration_formula (v w wind : Vec3 K) (planet : Planet K) :
    calculateAcceleration v w planet wind
        = ((((⟨0, planet.g * (45 / 100), 0⟩ : Vec3 K).add
            ((Vec3.crossVectors w v).multiplyScalar (2 / 1000 * planet.density))).add
            (wind.multiplyScalar (5 / 100 * planet.density))).divideScalar (45 / 100))
      ∧ calculateAcceleration v w planet wind
        = ((⟨0, planet.g, 0⟩ : Vec3 K).add
            ((Vec3.crossVectors w v).multiplyScalar (2 / 1000 * planet.density / (45 / 100)))).add
            (wind.multiplyScalar (5 / 100 * planet.density / (45 / 100))) := by
  refine ⟨rfl, ?_⟩
  simp only [calculateAcceleration, F_gravity, F_magnus, F_wind, mass, Vec3.add,
    Vec3.multiplyScalar, Vec3.divideScalar, Vec3.crossVectors, Vec3.mk.injEq]
  refine ⟨?_, ?_, ?_⟩ <;> ring

lemma F64.round_zero (neg : Bool) (D : Nat) : (F64.round neg 0 D).mant = 0 := by
  simp [F64.round, F64.bitLength, F64.bitLengthAux]

lemma F64.mul_zero_right (a b : F64) (h : b.mant = 0) : (F64.mul a b).mant = 0 := by
  unfold F64.mul
  rw [h, Nat.mul_zero, Nat.zero_shiftLeft]
  exact F64.round_zero _ _

lemma F64.mul_zero_left (a b : F64) (h : a.mant = 0) : (F64.mul a b).mant = 0 := by
  unfold F64.mul
  rw [h, Nat.zero_mul, Nat.zero_shiftLeft]
  exact F64.round_zero _ _

lemma F64.add_zero_zero (a b : F64) (ha : a.mant = 0) (hb : b.mant = 0) :
    (F64.add a b).mant = 0 := by
  unfold F64.add
  simp only [ha, hb, Nat.zero_shiftLeft, Nat.add_zero]
  split_ifs
  · exact F64.round_zero _ _
  · rfl

/-- C2 (amended): on a planet record with density 0 the Magnus force and the
wind force computed by `calculateAcceleration` are zero vectors for every
velocity, angular velocity and wind, in exact arithmetic and in double
arithmetic alike; the acceleration has `x = 0` and `z = 0` in both, and its `y`
is `g` in exact arithmetic, while in double arithmetic it is the rounded
product of the rounded `g * 0.45` (plus the two zero forces) and the rounded
`1 / 0.45`. -/
theorem vacuum_forces_zero (v w wind : Vec3 K) (planet : Planet K)
    (hd : planet.density = 0)
    (v64 w64 wind64 : Vec3 F64) (planet64 : Planet F64) (hd64 : planet64.density.mant = 0) :
    (F_magnus v w planet = ⟨0, 0, 0⟩ ∧ F_wind planet wind = ⟨0, 0, 0⟩ ∧
        calculateAcceleration v w planet wind = ⟨0, planet.g, 0⟩) ∧
      ((F_magnus64 v64 w64 planet64).x.mant = 0 ∧ (F_magnus64 v64 w64 planet64).y.mant = 0 ∧
        (F_magnus64 v64 w64 planet64).z.mant = 0) ∧
      ((F_wind64 planet64 wind64).x.mant = 0 ∧ (F_wind64 planet64 wind64).y.mant = 0 ∧
        (F_wind64 planet64 wind64).z.mant = 0) ∧
      (calculateAcceleration64 v64 w64 planet64 wind64).x.mant = 0 ∧
      (calculateAcceleration64 v64 w64 planet64 wind64).z.mant = 0 ∧
      (calculateAcceleration64 v64 w64 planet64 wind64).y
        = F64.mul
            (F64.add (F64.add (F64.mul planet64.g mass64) (F_magnus64 v64 w64 planet64).y)
              (F_wind64 planet64 wind64).y)
            (F64.div (F64.ofDecimal false 1 1) mass64) := by
  have hm : ∀ c : F64, (F64.mul c planet64.density).mant = 0 :=
    fun c => F64.mul_zero_right c _ hd64
  have hM : (F_magnus64 v64 w64 planet64).x.mant = 0 ∧
      (F_magnus64 v64 w64 planet64).y.mant = 0 ∧ (F_magnus64 v64 w64 planet64).z.mant = 0 := by
    simp only [F_magnus64, multiplyScalar64]
    exact ⟨F64.mul_zero_right _ _ (hm _), F64.mul_zero_right _ _ (hm _),
      F64.mul_zero_right _ _ (hm _)⟩
  have hW : (F_wind64 planet64 wind64).x.mant = 0 ∧ (F_wind64 planet64 wind64).y.mant = 0 ∧
      (F_wind64 planet64 wind64).z.mant = 0 := by
    simp only [F_wind64, multiplyScalar64]
    exact ⟨F64.mul_zero_right _ _ (hm _), F64.mul_zero_right _ _ (hm _),
      F64.mul_zero_right _ _ (hm _)⟩
  have hz : F64.zero.mant = 0 := rfl
  refine ⟨?_, hM, hW, ?_, ?_, ?_⟩
  · simp [calculateAcceleration, F_gravity, F_magnus, F_wind, mass, Vec3.add,
      Vec3.multiplyScalar, Vec3.divideScalar, Vec3.crossVectors, hd]
    ring
  · simp only [calculateAcceleration64, multiplyScalar64, add64, F_gravity64]
    exact F64.mul_zero_left _ _
      (F64.add_zero_zero _ _ (F64.add_zero_zero _ _ hz hM.1) hW.1)
  · simp only [calculateAcceleration64, multiplyScalar64, add64, F_gravity64]
    exact F64.mul_zero_left _ _
      (F64.add_zero_zero _ _ (F64.add_zero_zero _ _ hz hM.2.2) hW.2.2)
  · simp only [calculateAcceleration64, multiplyScalar64, add64, F_gravity64]

/-- C2 (amended) at the Moon record, with a concrete velocity, spin and
wind, in exact and in double arithmetic. -/
theorem vacuum_forces_zero_witness :
    (planets.moon : Planet ℝ).density = 0 ∧ moon64.density.mant = 0 ∧
      F_magnus (⟨3, 4, -20⟩ : Vec3 ℝ) ⟨10, -5, 0⟩ planets.moon = ⟨0, 0, 0⟩ ∧
      (F_magnus64 sampleVel64 sampleSpin64 moon64).y.mant = 0 ∧
      (calculateAcceleration64 sampleVel64 sampleSpin64 moon64 sampleWind64).x.mant = 0 :=
  have h := vacuum_forces_zero (⟨3, 4, -20⟩ : Vec3 ℝ) ⟨10, -5, 0⟩ ⟨2, 0, -7⟩ planets.moon rfl
    sampleVel64 sampleSpin64 sampleWind64 moon64 rfl
  ⟨rfl, rfl, h.1.1, h.2.1.2.1, h.2.2.2.1⟩

set_option maxRecDepth 1000000 in
/-- C2 as stated fails in the code's double arithmetic: on the Moon, with
velocity `(3, 4, -20)`, spin `(10, -5, 0)` and wind `(2, 0, -7)`, the returned
acceleration has `y = -7205759403792795 * 2^-52 = -1.6000000000000003`, while
`g = -1.6` is the double `-7205759403792794 * 2^-52`. -/
theorem vacuum_acceleration_rounding :
    moon64.density = F64.zero ∧
      (calculateAcceleration64 sampleVel64 sampleSpin64 moon64 sampleWind64).y
        = ⟨true, 7205759403792795, 1022⟩ ∧
      moon64.g = ⟨true, 7205759403792794, 1022⟩ ∧
      (calculateAcceleration64 sampleVel64 sampleSpin64 moon64 sampleWind64).y ≠ moon64.g := by
  decide

end ForceTheorems

/-! ## Frame lemmas -/

section Frame

variable {K : Type} [LinearOrderedField K]

@[simp] lemma updatePredictionPath_ballMesh (sqrt : K → K) (ui : Inputs K) (s : Game K) :
    (updatePredictionPath sqrt ui s).ballMesh = s.ballMesh := by
  unfold updatePredictionPath; split <;> rfl

@[simp] lemma updatePredictionPath_keeperMesh (sqrt : K → K) (ui : Inputs K) (s : Game K) :
    (updatePredictionPath sqrt ui s).keeperMesh = s.keeperMesh := by
  unfold updatePredictionPath; split <;> rfl

@[simp] lemma updatePredictionPath_goalColliders (sqrt : K → K) (ui : Inputs K) (s : Game K) :
    (updatePredictionPath sqrt ui s).goalColliders = s.goalColliders := by
  unfold updatePredictionPath; split <;> rfl

@[simp] lemma updatePredictionPath_goalAreaBox (sqrt : K → K) (ui : Inputs K) (s : Game K) :
    (updatePredictionPath sqrt ui s).goalAreaBox = s.goalAreaBox := by
  unfold updatePredictionPath; split <;> rfl

@[simp] lemma updatePredictionPath_startPos (sqrt : K → K) (ui : Inputs K) (s : Game K) :
    (updatePredictionPath sqrt ui s).startPos = s.startPos := by
  unfold updatePredictionPath; split <;> rfl

@[simp] lemma updatePredictionPath_trailPoints (sqrt : K → K) (ui : Inputs K) (s : Game K) :
    (updatePredictionPath sqrt ui s).trailPoints = s.trailPoints := by
  unfold updatePredictionPath; split <;> rfl

@[simp] lemma updatePredictionPath_predVisible (sqrt : K → K) (ui : Inputs K) (s : Game K) :
    (updatePredictionPath sqrt ui s).predVisible = s.predVisible := by
  unfold updatePredictionPath; split <;> rfl

@[simp] lemma updatePredictionPath_isFlying (sqrt : K → K) (ui : Inputs K) (s : Game K) :
    (updatePredictionPath sqrt ui s).isFlying = s.isFlying := by
  unfold updatePredictionPath; split <;> rfl

@[simp] lemma updatePredictionPath_gameEnded (sqrt : K → K) (ui : Inputs K) (s : Game K) :
    (updatePredictionPath sqrt ui s).gameEnded = s.gameEnded := by
  unfold updatePredictionPath; split <;> rfl

@[simp] lemma updatePredictionPath_velocity (sqrt : K → K) (ui : Inputs K) (s : Game K) :
    (updatePredictionPath sqrt ui s).velocity = s.velocity := by
  unfold updatePredictionPath; split <;> rfl

@[simp] lemma updatePredictionPath_angularVelocity (sqrt : K → K) (ui : Inputs K) (s : Game K) :
    (updatePredictionPath sqrt ui s).angularVelocity = s.angularVelocity := by
  unfold updatePredictionPath; split <;> rfl

@[simp] lemma updatePredictionPath_position (sqrt : K → K) (ui : Inputs K) (s : Game K) :
    (updatePredictionPath sqrt ui s).position = s.position := by
  unfold updatePredictionPath; split <;> rfl

@[simp] lemma updatePredictionPath_aimAssistEnabled (sqrt : K → K) (ui : Inputs K) (s : Game K) :
    (updatePredictionPath sqrt ui s).aimAssistEnabled = s.aimAssistEnabled := by
  unfold updatePredictionPath; split <;> rfl

@[simp] lemma updatePredictionPath_keeperDir (sqrt : K → K) (ui : Inputs K) (s : Game K) :
    (updatePredictionPath sqrt ui s).keeperDir = s.keeperDir := by
  unfold updatePredictionPath; split <;> rfl

@[simp] lemma updatePredictionPath_currentPlanet (sqrt : K → K) (ui : Inputs K) (s : Game K) :
    (updatePredictionPath sqrt ui s).currentPlanet = s.currentPlanet := by
  unfold updatePredictionPath; split <;> rfl

@[simp] lemma updatePredictionPath_status (sqrt : K → K) (ui : Inputs K) (s : Game K) :
    (updatePredictionPath sqrt ui s).status = s.status := by
  unfold updatePredictionPath; split <;> rfl

end Frame

/-! ## Ground invariant -/

section Ground

variable {K : Type} [LinearOrderedField K]

@[simp] lemma resetBall_isFlying (sqrt : K → K) (ui : Inputs K) (s : Game K) :
    (resetBall sqrt ui s).isFlying = false := by
  unfold resetBall; cases s.ballMesh <;> simp

@[simp] lemma resetBall_gameEnded (sqrt : K → K) (ui : Inputs K) (s : Game K) :
    (resetBall sqrt ui s).gameEnded = false := by
  unfold resetBall; cases s.ballMesh <;> simp

@[simp] lemma resetBall_velocity (sqrt : K → K) (ui : Inputs K) (s : Game K) :
    (resetBall sqrt ui s).velocity = s.velocity := by
  unfold resetBall; cases s.ballMesh <;> simp

@[simp] lemma resetBall_startPos (sqrt : K → K) (ui : Inputs K) (s : Game K) :
    (resetBall sqrt ui s).startPos = s.startPos := by
  unfold resetBall; cases s.ballMesh <;> simp

lemma resetBall_position (sqrt : K → K) (ui : Inputs K) (s : Game K) :
    (resetBall sqrt ui s).position = if s.ballMesh.isSome then s.startPos else s.position := by
  unfold resetBall; cases s.ballMesh <;> simp

lemma groundContact_fst_y (sqrt : K → K) (dt : K) (p v : Vec3 K) (f : Bool) :
    BALL_RADIUS ≤ (groundContact sqrt dt p v f).1.y := by
  unfold groundContact
  by_cases h1 : p.y ≤ BALL_RADIUS
  · simp only [h1, if_true]
    split_ifs <;> exact le_refl _
  · simp only [h1, if_false]
    exact le_of_lt (not_le.mp h1)

lemma updatePhysics_position_y (sqrt : K → K) (ui : Inputs K) (dt : K) (s : Game K)
    (h : BALL_RADIUS ≤ s.position.y) :
    BALL_RADIUS ≤ (updatePhysics sqrt ui dt s).position.y := by
  unfold updatePhysics
  split
  · exact h
  · exact groundContact_fst_y _ _ _ _ _


lemma setStartPos_eq (sqrt : K → K) (ui : Inputs K) (type : String) (s : Game K) :
    ∃ p : Vec3 K, (p = s.startPos ∨ p.y = BALL_RADIUS) ∧
      setStartPos sqrt ui type s = resetBall sqrt ui { s with startPos := p } := by
  unfold setStartPos
  by_cases h1 : type = "left"
  · subst h1
    exact ⟨⟨-15, BALL_RADIUS, 25⟩, Or.inr rfl, by simp⟩
  · by_cases h2 : type = "center"
    · subst h2
      exact ⟨⟨0, BALL_RADIUS, 25⟩, Or.inr rfl, by simp⟩
    · by_cases h3 : type = "right"
      · subst h3
        exact ⟨⟨15, BALL_RADIUS, 25⟩, Or.inr rfl, by simp⟩
      · exact ⟨s.startPos, Or.inl rfl, by simp [h1, h2, h3]⟩

/-- The ground invariant of one event: the ball is not below the ground level
and the start position lies on it. -/
lemma ground_inv_step (sqrt : K → K) (op : Op K) (s : Game K)
    (h : BALL_RADIUS ≤ s.position.y ∧ s.startPos.y = BALL_RADIUS) :
    BALL_RADIUS ≤ (op.apply sqrt s).position.y ∧ (op.apply sqrt s).startPos.y = BALL_RADIUS := by
  obtain ⟨hp, hs⟩ := h
  cases op with
  | updateKeeper dt =>
    simp only [Op.apply, updateKeeper]
    split
    · exact ⟨hp, hs⟩
    · split_ifs <;> exact ⟨hp, hs⟩
  | updatePhysics ui dt =>
    refine ⟨updatePhysics_position_y sqrt ui dt s hp, ?_⟩
    simp only [Op.apply, updatePhysics]
    split <;> exact hs
  | updatePredictionPath ui => simpa [Op.apply] using ⟨hp, hs⟩
  | shootBall ui =>
    simp only [Op.apply, shootBall]
    split
    · exact ⟨hp, hs⟩
    · simp only [resetBall_position, resetBall_startPos]
      refine ⟨?_, hs⟩
      split_ifs
      · exact le_of_eq hs.symm
      · exact hp
  | resetBall ui =>
    simp only [Op.apply, resetBall_position, resetBall_startPos]
    refine ⟨?_, hs⟩
    split_ifs
    · exact le_of_eq hs.symm
    · exact hp
  | setStartPos ui type =>
    obtain ⟨p, hp2, heq⟩ := setStartPos_eq sqrt ui type s
    have hy : p.y = BALL_RADIUS := by
      rcases hp2 with h | h
      · rw [h]; exact hs
      · exact h
    simp only [Op.apply, heq, resetBall_position, resetBall_startPos]
    refine ⟨?_, hy⟩
    split_ifs
    · exact le_of_eq hy.symm
    · exact hp
  | toggleAimAssist ui =>
    simp only [Op.apply, toggleAimAssist]
    split_ifs <;> simpa using ⟨hp, hs⟩
  | selectPlanet ui val => simpa [Op.apply, selectPlanet] using ⟨hp, hs⟩
  | loadGoal => exact ⟨hp, hs⟩
  | loadKeeper => exact ⟨hp, hs⟩
  | loadBall ui =>
    simp only [Op.apply, loadBall, resetBall_position, resetBall_startPos]
    simpa using ⟨le_of_eq hs.symm, hs⟩

lemma ground_inv_run (sqrt : K → K) (ops : List (Op K)) (s : Game K)
    (h : BALL_RADIUS ≤ s.position.y ∧ s.startPos.y = BALL_RADIUS) :
    BALL_RADIUS ≤ (run sqrt ops s).position.y ∧ (run sqrt ops s).startPos.y = BALL_RADIUS := by
  induction ops generalizing s with
  | nil => exact h
  | cons op ops ih => exact ih _ (ground_inv_step sqrt op s h)

/-- C3: from a reset state (the ball at the start position, whose height is
`BALL_RADIUS`), after any sequence of events (`updatePhysics` steps with any
`dt`, wind and planet, keeper moves, `shootBall`, `resetBall`, `setStartPos`,
and the other page events) the ball height is at least `BALL_RADIUS`. -/
theorem ground_invariant (sqrt : K → K) (ops : List (Op K)) (s : Game K)
    (hpos : s.position = s.startPos) (hstart : s.startPos.y = BALL_RADIUS) :
    BALL_RADIUS ≤ (run sqrt ops s).position.y :=
  (ground_inv_run sqrt ops s ⟨by rw [hpos, hstart], hstart⟩).1

/-- C3 on a concrete run: the ball model loads, a shot is fired and three
frames of different length are played, the last two after a change of start
position. -/
theorem ground_invariant_witness :
    (loadBall Real.sqrt sampleInputs (init : Game ℝ)).position
        = (loadBall Real.sqrt sampleInputs (init : Game ℝ)).startPos ∧
      (loadBall Real.sqrt sampleInputs (init : Game ℝ)).startPos.y = BALL_RADIUS ∧
      BALL_RADIUS ≤ (run Real.sqrt
        [Op.shootBall sampleInputs, Op.updatePhysics sampleInputs (1 / 60),
          Op.setStartPos sampleInputs "left", Op.shootBall sampleInputs,
          Op.updateKeeper (1 / 60), Op.updatePhysics sampleInputs (1 / 30)]
        (loadBall Real.sqrt sampleInputs (init : Game ℝ))).position.y :=
  ⟨by simp [loadBall, resetBall_position], by simp [loadBall, init],
    ground_invariant Real.sqrt _ _ (by simp [loadBall, resetBall_position])
      (by simp [loadBall, init])⟩

end Ground

/-! ## Stop condition and terminal events -/

section Stop

variable {K : Type} [LinearOrderedField K]

lemma postPass_cons (b : Box3 K) (cs : List (Box3 K)) (c : Vec3 K) (acc : Vec3 K × Status) :
    postPass (b :: cs) c acc = postPass cs c (postHit c acc b) := rfl

lemma postPass_zero (cs : List (Box3 K)) (c : Vec3 K) (st : Status) :
    (postPass cs c (⟨0, 0, 0⟩, st)).1 = ⟨0, 0, 0⟩ := by
  induction cs generalizing st with
  | nil => rfl
  | cons b cs ih =>
    rw [postPass_cons]
    unfold postHit
    split_ifs
    · simpa using ih statusTiang
    · exact ih st

lemma keeperPass_zero (km : Option (Vec3 K)) (c : Vec3 K) (e : Bool) (st : Status) :
    (keeperPass km c (⟨0, 0, 0⟩, e, st)).1 = ⟨0, 0, 0⟩ := by
  unfold keeperPass
  cases km with
  | none => rfl
  | some kPos =>
    simp only
    split_ifs <;> simp

lemma updatePhysics_of_run (sqrt : K → K) (ui : Inputs K) (dt : K) (s : Game K)
    (hfly : s.isFlying = true) (hball : s.ballMesh.isSome = true) (hend : s.gameEnded = false) :
    updatePhysics sqrt ui dt s =
      { s with
        velocity := (keeperPass s.keeperMesh (groundStage sqrt ui dt s).1
          ((postPass s.goalColliders (groundStage sqrt ui dt s).1
            ((groundStage sqrt ui dt s).2.1, s.status)).1, s.gameEnded,
            (postPass s.goalColliders (groundStage sqrt ui dt s).1
              ((groundStage sqrt ui dt s).2.1, s.status)).2)).1
        isFlying := (groundStage sqrt ui dt s).2.2
        gameEnded := (goalPass s.goalAreaBox (groundStage sqrt ui dt s).1
          (keeperPass s.keeperMesh (groundStage sqrt ui dt s).1
            ((postPass s.goalColliders (groundStage sqrt ui dt s).1
              ((groundStage sqrt ui dt s).2.1, s.status)).1, s.gameEnded,
              (postPass s.goalColliders (groundStage sqrt ui dt s).1
                ((groundStage sqrt ui dt s).2.1, s.status)).2)).2).1
        status := (goalPass s.goalAreaBox (groundStage sqrt ui dt s).1
          (keeperPass s.keeperMesh (groundStage sqrt ui dt s).1
            ((postPass s.goalColliders (groundStage sqrt ui dt s).1
              ((groundStage sqrt ui dt s).2.1, s.status)).1, s.gameEnded,
              (postPass s.goalColliders (groundStage sqrt ui dt s).1
                ((groundStage sqrt ui dt s).2.1, s.status)).2)).2).2
        position := (groundStage sqrt ui dt s).1
        ballMesh := some (groundStage sqrt ui dt s).1
        trailPoints := pushTrail s.trailPoints (groundStage sqrt ui dt s).1 } := by
  have hb : s.ballMesh.isNone = false := by
    cases h : s.ballMesh with
    | none => rw [h] at hball; cases hball
    | some _ => rfl
  unfold updatePhysics
  rw [if_neg (by simp [hfly, hb, hend])]

lemma updatePhysics_of_idle (sqrt : K → K) (ui : Inputs K) (dt : K) (s : Game K)
    (h : s.isFlying = false ∨ s.gameEnded = true) : updatePhysics sqrt ui dt s = s := by
  unfold updatePhysics
  rcases h with h | h <;> simp [h]

/-- A ball at rest stays at rest under every event other than `shootBall`. -/
lemma rest_step (sqrt : K → K) (op : Op K) (hop : op.notShoot = true) (s : Game K)
    (h : s.velocity = ⟨0, 0, 0⟩ ∧ s.isFlying = false) :
    (op.apply sqrt s).velocity = ⟨0, 0, 0⟩ ∧ (op.apply sqrt s).isFlying = false := by
  obtain ⟨hv, hf⟩ := h
  cases op with
  | updateKeeper dt =>
    simp only [Op.apply, updateKeeper]
    split
    · exact ⟨hv, hf⟩
    · split_ifs <;> exact ⟨hv, hf⟩
  | updatePhysics ui dt =>
    simp only [Op.apply, updatePhysics_of_idle sqrt ui dt s (Or.inl hf)]
    exact ⟨hv, hf⟩
  | updatePredictionPath ui => simpa [Op.apply] using ⟨hv, hf⟩
  | shootBall ui => cases hop
  | resetBall ui => simpa [Op.apply] using hv
  | setStartPos ui type =>
    obtain ⟨p, -, heq⟩ := setStartPos_eq sqrt ui type s
    simpa [Op.apply, heq] using hv
  | toggleAimAssist ui =>
    simp only [Op.apply, toggleAimAssist]
    split_ifs <;> simpa using ⟨hv, hf⟩
  | selectPlanet ui val => simpa [Op.apply, selectPlanet] using ⟨hv, hf⟩
  | loadGoal => exact ⟨hv, hf⟩
  | loadKeeper => exact ⟨hv, hf⟩
  | loadBall ui => simpa [Op.apply, loadBall] using hv

lemma rest_run (sqrt : K → K) (ops : List (Op K)) (hops : ∀ op ∈ ops, op.notShoot = true)
    (s : Game K) (h : s.velocity = ⟨0, 0, 0⟩ ∧ s.isFlying = false) :
    (run sqrt ops s).velocity = ⟨0, 0, 0⟩ ∧ (run sqrt ops s).isFlying = false := by
  induction ops generalizing s with
  | nil => exact h
  | cons op ops ih =>
    exact ih (fun o ho => hops o (List.mem_cons_of_mem _ ho)) _
      (rest_step sqrt op (hops op (List.mem_cons_self _ _)) s h)

/-- C4: in an `updatePhysics` step that runs, whose tentative position is at
or below `BALL_RADIUS`, whose integrated vertical velocity is not below -0.6
and whose horizontal speed after friction damping is below 0.1, the step ends
with velocity `(0,0,0)` and `isFlying = false`; both stay so under every
sequence of later events that contains no `shootBall`. -/
theorem stop_condition (sqrt : K → K) (ui : Inputs K) (dt : K) (s : Game K)
    (hfly : s.isFlying = true) (hball : s.ballMesh.isSome = true) (hend : s.gameEnded = false)
    (hground : (tentativePos ui dt s).y ≤ BALL_RADIUS)
    (hroll : ¬ (steppedVelocity ui dt s).y < -(6 / 10))
    (hslow : sqrt ((steppedVelocity ui dt s).x * (1 - 35 / 100 * dt) *
        ((steppedVelocity ui dt s).x * (1 - 35 / 100 * dt)) +
        (steppedVelocity ui dt s).z * (1 - 35 / 100 * dt) *
        ((steppedVelocity ui dt s).z * (1 - 35 / 100 * dt))) < 1 / 10) :
    (updatePhysics sqrt ui dt s).velocity = ⟨0, 0, 0⟩ ∧
      (updatePhysics sqrt ui dt s).isFlying = false ∧
      ∀ ops : List (Op K), (∀ op ∈ ops, op.notShoot = true) →
        (run sqrt ops (updatePhysics sqrt ui dt s)).velocity = ⟨0, 0, 0⟩ ∧
        (run sqrt ops (updatePhysics sqrt ui dt s)).isFlying = false := by
  have hg : (groundStage sqrt ui dt s).2 = (⟨0, 0, 0⟩, false) := by
    unfold groundStage groundContact
    simp only [hground, if_true, hroll, if_false, hslow]
  have h1 : (updatePhysics sqrt ui dt s).velocity = ⟨0, 0, 0⟩ ∧
      (updatePhysics sqrt ui dt s).isFlying = false := by
    rw [updatePhysics_of_run sqrt ui dt s hfly hball hend]
    simp only [hg]
    exact ⟨by rw [postPass_zero, keeperPass_zero], trivial⟩
  exact ⟨h1.1, h1.2, fun ops hops => rest_run sqrt ops hops _ h1⟩

/-- C4 on a concrete step: a ball rolling on Earth with horizontal speed 0.05
comes to rest in a frame of 1/60 s, and is still at rest after a keeper move,
a further physics step and a reset. -/
theorem stop_condition_witness :
    (rollingSample : Game ℝ).isFlying = true ∧
      (updatePhysics Real.sqrt calmInputs (1 / 60) (rollingSample : Game ℝ)).velocity
        = ⟨0, 0, 0⟩ ∧
      (updatePhysics Real.sqrt calmInputs (1 / 60) (rollingSample : Game ℝ)).isFlying = false ∧
      (run Real.sqrt [Op.updateKeeper (1 / 60), Op.updatePhysics calmInputs (1 / 60),
          Op.resetBall calmInputs]
        (updatePhysics Real.sqrt calmInputs (1 / 60) (rollingSample : Game ℝ))).isFlying
        = false := by
  have h := stop_condition Real.sqrt calmInputs (1 / 60) (rollingSample : Game ℝ) rfl rfl rfl
    (by norm_num [tentativePos, steppedVelocity, integratePosition, integrateVelocity,
      calculateAcceleration, F_gravity, F_magnus, F_wind, mass, windVec, calmInputs,
      rollingSample, init, planets.earth, Vec3.add, Vec3.multiplyScalar, Vec3.divideScalar,
      Vec3.crossVectors, BALL_RADIUS])
    (by norm_num [steppedVelocity, integrateVelocity,
      calculateAcceleration, F_gravity, F_magnus, F_wind, mass, windVec, calmInputs,
      rollingSample, init, planets.earth, Vec3.add, Vec3.multiplyScalar, Vec3.divideScalar,
      Vec3.crossVectors])
    (by
      rw [Real.sqrt_lt' (by norm_num)]
      norm_num [steppedVelocity, integrateVelocity,
        calculateAcceleration, F_gravity, F_magnus, F_wind, mass, windVec, calmInputs,
        rollingSample, init, planets.earth, Vec3.add, Vec3.multiplyScalar, Vec3.divideScalar,
        Vec3.crossVectors])
  exact ⟨rfl, h.1, h.2.1, (h.2.2 _ (by simp [Op.notShoot])).2⟩

lemma keeperPass_hit (kPos c : Vec3 K) (acc : Vec3 K × Bool × Status)
    (h : (keeperHitbox kPos).intersectsSphere c BALL_RADIUS = true) :
    (keeperPass (some kPos) c acc).2.1 = true := by
  simp [keeperPass, h]

lemma goalPass_keep (box : Option (Box3 K)) (p : Vec3 K) (acc : Bool × Status)
    (h : acc.1 = true) : (goalPass box p acc).1 = true := by
  unfold goalPass
  cases box with
  | none => exact h
  | some b =>
    simp only
    split_ifs
    · rfl
    · exact h

lemma goalPass_hit (b : Box3 K) (p : Vec3 K) (acc : Bool × Status)
    (h : b.containsPoint p = true) : (goalPass (some b) p acc).1 = true := by
  simp [goalPass, h]

/-- After a terminal event the per-frame events change nothing. -/
lemma tick_frozen (sqrt : K → K) (op : Op K) (hop : op.isTick = true) (s : Game K)
    (h : s.gameEnded = true) : op.apply sqrt s = s := by
  cases op with
  | updateKeeper dt =>
    simp only [Op.apply, updateKeeper]
    split
    · rfl
    · simp [h]
  | updatePhysics ui dt => exact updatePhysics_of_idle sqrt ui dt s (Or.inr h)
  | updatePredictionPath ui => cases hop
  | shootBall ui => cases hop
  | resetBall ui => cases hop
  | setStartPos ui type => cases hop
  | toggleAimAssist ui => cases hop
  | selectPlanet ui val => cases hop
  | loadGoal => cases hop
  | loadKeeper => cases hop
  | loadBall ui => cases hop

lemma tick_frozen_run (sqrt : K → K) (ops : List (Op K)) (hops : ∀ op ∈ ops, op.isTick = true)
    (s : Game K) (h : s.gameEnded = true) : run sqrt ops s = s := by
  induction ops with
  | nil => rfl
  | cons op ops ih =>
    have h1 := tick_frozen sqrt op (hops op (List.mem_cons_self _ _)) s h
    have h2 := ih (fun o ho => hops o (List.mem_cons_of_mem _ ho))
    simp only [run, List.foldl_cons] at h2 ⊢
    rw [h1]
    exact h2

/-- A step that runs and meets the keeper hitbox or the goal mouth ends the round. -/
lemma gameEnded_of_event (sqrt : K → K) (ui : Inputs K) (dt : K) (s : Game K)
    (hfly : s.isFlying = true) (hball : s.ballMesh.isSome = true) (hend : s.gameEnded = false)
    (hevent : (∃ kPos, s.keeperMesh = some kPos ∧
        (keeperHitbox kPos).intersectsSphere (groundStage sqrt ui dt s).1 BALL_RADIUS = true) ∨
      (∃ box, s.goalAreaBox = some box ∧
        box.containsPoint (groundStage sqrt ui dt s).1 = true)) :
    (updatePhysics sqrt ui dt s).gameEnded = true := by
  rw [updatePhysics_of_run sqrt ui dt s hfly hball hend]
  simp only
  rcases hevent with ⟨kPos, hk, hhit⟩ | ⟨box, hb, hin⟩
  · apply goalPass_keep
    rw [hk]
    exact keeperPass_hit kPos _ _ hhit
  · rw [hb]
    exact goalPass_hit box _ _ hin

/-- C7: an `updatePhysics` step that runs and in which the ball sphere
intersects the keeper hitbox, or the tentative position lies inside
`goalAreaBox`, ends with `gameEnded = true`; and from every state `t` with
`gameEnded = true`, every sequence of `updatePhysics(dt)` and `updateKeeper(dt)`
calls leaves the whole state (position, velocity, angular velocity, flags,
trail, keeper position and direction) unchanged. -/
theorem terminal_freeze (sqrt : K → K) (ui : Inputs K) (dt : K) (s : Game K)
    (hfly : s.isFlying = true) (hball : s.ballMesh.isSome = true) (hend : s.gameEnded = false)
    (hevent : (∃ kPos, s.keeperMesh = some kPos ∧
        (keeperHitbox kPos).intersectsSphere (groundStage sqrt ui dt s).1 BALL_RADIUS = true) ∨
      (∃ box, s.goalAreaBox = some box ∧
        box.containsPoint (groundStage sqrt ui dt s).1 = true))
    (t : Game K) (ht : t.gameEnded = true)
    (ops : List (Op K)) (hops : ∀ op ∈ ops, op.isTick = true) :
    (updatePhysics sqrt ui dt s).gameEnded = true ∧ run sqrt ops t = t :=
  ⟨gameEnded_of_event sqrt ui dt s hfly hball hend hevent, tick_frozen_run sqrt ops hops t ht⟩

lemma goalSample_steppedVelocity :
    steppedVelocity calmInputs (1 / 60) (goalSample : Game ℝ) = ⟨0, 71 / 150, -20⟩ := by
  norm_num [steppedVelocity, integrateVelocity, calculateAcceleration, F_gravity, F_magnus,
    F_wind, mass, windVec, calmInputs, goalSample, init, planets.moon, Vec3.add,
    Vec3.multiplyScalar, Vec3.divideScalar, Vec3.crossVectors]

lemma goalSample_tentativePos :
    tentativePos calmInputs (1 / 60) (goalSample : Game ℝ)
      = ⟨0, 9071 / 9000, -(491 / 15)⟩ := by
  rw [tentativePos, goalSample_steppedVelocity]
  norm_num [integratePosition, goalSample, init, Vec3.add, Vec3.multiplyScalar]

lemma goalSample_groundStage :
    groundStage Real.sqrt calmInputs (1 / 60) (goalSample : Game ℝ)
      = (⟨0, 9071 / 9000, -(491 / 15)⟩, ⟨0, 71 / 150, -20⟩, true) := by
  rw [groundStage, goalSample_tentativePos, goalSample_steppedVelocity]
  norm_num [groundContact, BALL_RADIUS, goalSample, init]

lemma goalSample_event :
    (goalArea : Box3 ℝ).containsPoint
      (groundStage Real.sqrt calmInputs (1 / 60) (goalSample : Game ℝ)).1 = true := by
  rw [goalSample_groundStage]
  norm_num [goalArea, Box3.containsPoint]

/-- C7 on a concrete step: a ball flying into the goal mouth ends the round,
and the next keeper move and physics step change nothing. -/
theorem terminal_freeze_witness :
    (goalArea : Box3 ℝ).containsPoint
        (groundStage Real.sqrt calmInputs (1 / 60) (goalSample : Game ℝ)).1 = true ∧
      (updatePhysics Real.sqrt calmInputs (1 / 60) (goalSample : Game ℝ)).gameEnded = true ∧
      run Real.sqrt [Op.updateKeeper (1 / 60), Op.updatePhysics calmInputs (1 / 60)]
          (updatePhysics Real.sqrt calmInputs (1 / 60) (goalSample : Game ℝ))
        = updatePhysics Real.sqrt calmInputs (1 / 60) (goalSample : Game ℝ) :=
  ⟨goalSample_event,
    terminal_freeze Real.sqrt calmInputs (1 / 60) (goalSample : Game ℝ) rfl rfl rfl
      (Or.inr ⟨goalArea, rfl, goalSample_event⟩)
      (updatePhysics Real.sqrt calmInputs (1 / 60) (goalSample : Game ℝ))
      (gameEnded_of_event Real.sqrt calmInputs (1 / 60) (goalSample : Game ℝ) rfl rfl rfl
        (Or.inr ⟨goalArea, rfl, goalSample_event⟩))
      [Op.updateKeeper (1 / 60), Op.updatePhysics calmInputs (1 / 60)]
      (by simp [Op.isTick])⟩

end Stop

/-! ## The predictor leaves the live state alone -/

section PredictorFrame

variable {K : Type} [LinearOrderedField K]

/-- C10: a call of `updatePredictionPath` leaves the live position, velocity,
angular velocity, `isFlying`, `gameEnded`, the trail, the start position, the
planet, the keeper position and direction (and the meshes, colliders, aim
assist flag and status) as they were; only the prediction polyline and the
stats text can change. -/
theorem updatePredictionPath_frame (sqrt : K → K) (ui : Inputs K) (s : Game K) :
    (updatePredictionPath sqrt ui s).position = s.position ∧
      (updatePredictionPath sqrt ui s).velocity = s.velocity ∧
      (updatePredictionPath sqrt ui s).angularVelocity = s.angularVelocity ∧
      (updatePredictionPath sqrt ui s).isFlying = s.isFlying ∧
      (updatePredictionPath sqrt ui s).gameEnded = s.gameEnded ∧
      (updatePredictionPath sqrt ui s).trailPoints = s.trailPoints ∧
      (updatePredictionPath sqrt ui s).startPos = s.startPos ∧
      (updatePredictionPath sqrt ui s).currentPlanet = s.currentPlanet ∧
      (updatePredictionPath sqrt ui s).keeperMesh = s.keeperMesh ∧
      (updatePredictionPath sqrt ui s).keeperDir = s.keeperDir ∧
      (updatePredictionPath sqrt ui s).ballMesh = s.ballMesh ∧
      (updatePredictionPath sqrt ui s).goalColliders = s.goalColliders ∧
      (updatePredictionPath sqrt ui s).goalAreaBox = s.goalAreaBox ∧
      (updatePredictionPath sqrt ui s).aimAssistEnabled = s.aimAssistEnabled ∧
      (updatePredictionPath sqrt ui s).predVisible = s.predVisible ∧
      (updatePredictionPath sqrt ui s).status = s.status := by
  simp

end PredictorFrame

/-! ## Goal geometry -/

section Geometry

variable {K : Type} [LinearOrderedField K]

lemma sq_le_bound {a r : K} (hr : 0 ≤ r) (h : a * a ≤ r * r) : a ≤ r ∧ -a ≤ r := by
  constructor
  · by_contra hc
    push_neg at hc
    nlinarith
  · by_contra hc
    push_neg at hc
    nlinarith

/-- A sphere that meets a box has its centre within the radius of the box
in every coordinate. -/
lemma intersectsSphere_bounds (b : Box3 K) (c : Vec3 K) (r : K) (hr : 0 ≤ r)
    (h : b.intersectsSphere c r = true) :
    (b.min.x - r ≤ c.x ∧ b.min.y - r ≤ c.y ∧ b.min.z - r ≤ c.z) ∧
      (b.min.x ≤ b.max.x → c.x ≤ b.max.x + r) ∧
      (b.min.y ≤ b.max.y → c.y ≤ b.max.y + r) ∧
      (b.min.z ≤ b.max.z → c.z ≤ b.max.z + r) := by
  simp only [Box3.intersectsSphere, Vec3.distanceToSquared, Vec3.clamp, decide_eq_true_eq] at h
  have hx := mul_self_nonneg (max b.min.x (min b.max.x c.x) - c.x)
  have hy := mul_self_nonneg (max b.min.y (min b.max.y c.y) - c.y)
  have hz := mul_self_nonneg (max b.min.z (min b.max.z c.z) - c.z)
  have bx := sq_le_bound hr (a := max b.min.x (min b.max.x c.x) - c.x) (by linarith)
  have by' := sq_le_bound hr (a := max b.min.y (min b.max.y c.y) - c.y) (by linarith)
  have bz := sq_le_bound hr (a := max b.min.z (min b.max.z c.z) - c.z) (by linarith)
  have lx := le_max_left b.min.x (min b.max.x c.x)
  have ly := le_max_left b.min.y (min b.max.y c.y)
  have lz := le_max_left b.min.z (min b.max.z c.z)
  refine ⟨⟨by linarith, by linarith, by linarith⟩, ?_, ?_, ?_⟩
  · intro hle
    have := max_le hle (min_le_left b.max.x c.x)
    linarith [bx.2]
  · intro hle
    have := max_le hle (min_le_left b.max.y c.y)
    linarith [by'.2]
  · intro hle
    have := max_le hle (min_le_left b.max.z c.z)
    linarith [bz.2]

lemma radius_nonneg : (0 : K) ≤ BALL_RADIUS := by
  unfold BALL_RADIUS; norm_num

lemma leftPost_hit_bounds (c : Vec3 K) (h : leftPost.intersectsSphere c BALL_RADIUS = true) :
    c.x ≤ -(665 / 100) ∧ c.z ≤ -(2965 / 100) := by
  have hb := intersectsSphere_bounds leftPost c BALL_RADIUS radius_nonneg h
  have h1 := hb.2.1 (by norm_num [leftPost])
  have h2 := hb.2.2.2 (by norm_num [leftPost])
  simp only [leftPost, BALL_RADIUS] at h1 h2
  constructor <;> linarith

lemma rightPost_hit_bounds (c : Vec3 K) (h : rightPost.intersectsSphere c BALL_RADIUS = true) :
    665 / 100 ≤ c.x ∧ c.z ≤ -(2965 / 100) := by
  have hb := intersectsSphere_bounds rightPost c BALL_RADIUS radius_nonneg h
  have h1 := hb.1.1
  have h2 := hb.2.2.2 (by norm_num [rightPost])
  simp only [rightPost, BALL_RADIUS] at h1 h2
  constructor <;> linarith

lemma crossbar_hit_bounds (c : Vec3 K) (h : crossbar.intersectsSphere c BALL_RADIUS = true) :
    c.x ≤ 635 / 100 ∧ 425 / 100 ≤ c.y ∧ c.z ≤ -(2965 / 100) := by
  have hb := intersectsSphere_bounds crossbar c BALL_RADIUS radius_nonneg h
  have h1 := hb.2.1 (by norm_num [crossbar])
  have h2 := hb.1.2.1
  have h3 := hb.2.2.2 (by norm_num [crossbar])
  simp only [crossbar, BALL_RADIUS] at h1 h2 h3
  refine ⟨?_, ?_, ?_⟩ <;> linarith

/-- A keeper on the patrol line (`z = GOAL_Z + 1.5`) is out of reach of a ball
whose centre has `z ≤ -29.65`. -/
lemma keeper_miss (kPos c : Vec3 K) (hz : kPos.z = GOAL_Z + 15 / 10)
    (hc : c.z ≤ -(2965 / 100)) :
    (keeperHitbox kPos).intersectsSphere c BALL_RADIUS = false := by
  by_contra hne
  have h : (keeperHitbox kPos).intersectsSphere c BALL_RADIUS = true := by
    cases hh : (keeperHitbox kPos).intersectsSphere c BALL_RADIUS
    · exact absurd hh hne
    · rfl
  have hb := (intersectsSphere_bounds (keeperHitbox kPos) c BALL_RADIUS radius_nonneg h).1.2.2
  simp only [keeperHitbox, BALL_RADIUS, hz, GOAL_Z] at hb
  linarith

lemma goalArea_miss (c : Vec3 K)
    (h : leftPost.intersectsSphere c BALL_RADIUS = true ∨
      rightPost.intersectsSphere c BALL_RADIUS = true ∨
      crossbar.intersectsSphere c BALL_RADIUS = true) :
    goalArea.containsPoint c = false := by
  simp only [Box3.containsPoint, goalArea, decide_eq_false_iff_not]
  rintro ⟨h1, h2, -, h4, -, -⟩
  rcases h with h | h | h
  · linarith [(leftPost_hit_bounds c h).1]
  · linarith [(rightPost_hit_bounds c h).1]
  · linarith [(crossbar_hit_bounds c h).2.1]

lemma hit_z_bound (c : Vec3 K)
    (h : leftPost.intersectsSphere c BALL_RADIUS = true ∨
      rightPost.intersectsSphere c BALL_RADIUS = true ∨
      crossbar.intersectsSphere c BALL_RADIUS = true) :
    c.z ≤ -(2965 / 100) := by
  rcases h with h | h | h
  · exact (leftPost_hit_bounds c h).2
  · exact (rightPost_hit_bounds c h).2
  · exact (crossbar_hit_bounds c h).2.2

lemma keeperPass_miss (km : Option (Vec3 K)) (c : Vec3 K) (acc : Vec3 K × Bool × Status)
    (h : ∀ kPos, km = some kPos → (keeperHitbox kPos).intersectsSphere c BALL_RADIUS = false) :
    keeperPass km c acc = acc := by
  cases km with
  | none => rfl
  | some kPos => simp [keeperPass, h kPos rfl]

lemma goalPass_miss (b : Box3 K) (c : Vec3 K) (acc : Bool × Status)
    (h : b.containsPoint c = false) : goalPass (some b) c acc = acc := by
  simp [goalPass, h]

lemma postPass_goal (c : Vec3 K) (acc : Vec3 K × Status) :
    postPass [leftPost, rightPost, crossbar] c acc
      = postHit c (postHit c (postHit c acc leftPost) rightPost) crossbar := rfl

/-- The state after a step that runs with the goal loaded and in which a goal
box is hit while the keeper stands on the patrol line: only the post pass
touches velocity and status. -/
lemma updatePhysics_post_hit (sqrt : K → K) (ui : Inputs K) (dt : K) (s : Game K)
    (hfly : s.isFlying = true) (hball : s.ballMesh.isSome = true) (hend : s.gameEnded = false)
    (hcol : s.goalColliders = [leftPost, rightPost, crossbar])
    (hbox : s.goalAreaBox = some goalArea)
    (hkeeper : ∀ kPos, s.keeperMesh = some kPos → kPos.z = GOAL_Z + 15 / 10)
    (hhit : leftPost.intersectsSphere (groundStage sqrt ui dt s).1 BALL_RADIUS = true ∨
      rightPost.intersectsSphere (groundStage sqrt ui dt s).1 BALL_RADIUS = true ∨
      crossbar.intersectsSphere (groundStage sqrt ui dt s).1 BALL_RADIUS = true) :
    (updatePhysics sqrt ui dt s).velocity
        = (postPass [leftPost, rightPost, crossbar] (groundStage sqrt ui dt s).1
            ((groundStage sqrt ui dt s).2.1, s.status)).1 ∧
      (updatePhysics sqrt ui dt s).status
        = (postPass [leftPost, rightPost, crossbar] (groundStage sqrt ui dt s).1
            ((groundStage sqrt ui dt s).2.1, s.status)).2 ∧
      (updatePhysics sqrt ui dt s).gameEnded = false := by
  have hk : ∀ kPos, s.keeperMesh = some kPos →
      (keeperHitbox kPos).intersectsSphere (groundStage sqrt ui dt s).1 BALL_RADIUS = false :=
    fun kPos h => keeper_miss kPos _ (hkeeper kPos h) (hit_z_bound _ hhit)
  rw [updatePhysics_of_run sqrt ui dt s hfly hball hend]
  simp only [hcol, hbox, keeperPass_miss _ _ _ hk, goalPass_miss _ _ _ (goalArea_miss _ hhit),
    hend, and_self]

/-- C6: in a step that runs with the goal loaded and the keeper (if loaded) on
its patrol line `z = GOAL_Z + 1.5`, if the ball sphere at the tentative
position intersects the left post, the right post or the crossbar, then it
does not intersect the keeper hitbox, the tentative position is not in
`goalAreaBox`, `gameEnded` is still false after the step and the status left
by the step is the post-hit status. -/
theorem post_hit_not_terminal (sqrt : K → K) (ui : Inputs K) (dt : K) (s : Game K)
    (hfly : s.isFlying = true) (hball : s.ballMesh.isSome = true) (hend : s.gameEnded = false)
    (hcol : s.goalColliders = [leftPost, rightPost, crossbar])
    (hbox : s.goalAreaBox = some goalArea)
    (hkeeper : ∀ kPos, s.keeperMesh = some kPos → kPos.z = GOAL_Z + 15 / 10)
    (hhit : leftPost.intersectsSphere (groundStage sqrt ui dt s).1 BALL_RADIUS = true ∨
      rightPost.intersectsSphere (groundStage sqrt ui dt s).1 BALL_RADIUS = true ∨
      crossbar.intersectsSphere (groundStage sqrt ui dt s).1 BALL_RADIUS = true) :
    (∀ kPos, s.keeperMesh = some kPos →
        (keeperHitbox kPos).intersectsSphere (groundStage sqrt ui dt s).1 BALL_RADIUS = false) ∧
      goalArea.containsPoint (groundStage sqrt ui dt s).1 = false ∧
      (updatePhysics sqrt ui dt s).gameEnded = false ∧
      (updatePhysics sqrt ui dt s).status = statusTiang := by
  refine ⟨fun kPos h => keeper_miss kPos _ (hkeeper kPos h) (hit_z_bound _ hhit),
    goalArea_miss _ hhit, ?_, ?_⟩
  · exact (updatePhysics_post_hit sqrt ui dt s hfly hball hend hcol hbox hkeeper hhit).2.2
  · rw [(updatePhysics_post_hit sqrt ui dt s hfly hball hend hcol hbox hkeeper hhit).2.1,
      postPass_goal]
    unfold postHit
    rcases hhit with h | h | h
    · split_ifs <;> rfl
    · split_ifs <;> rfl
    · split_ifs <;> rfl

/-- C5 (amended): in a step that runs with the goal loaded and the keeper on
its patrol line, if the ball sphere intersects the goal structure, the post
pass is the only edit of the velocity after the ground block; it multiplies
`velocity.z` by -0.5 and `velocity.x` by 0.5 once per intersected box: the
factors are -0.5 and 0.5 unless the left post and the crossbar are both
intersected, and then they are 0.25 and 0.25. -/
theorem post_hit_velocity (sqrt : K → K) (ui : Inputs K) (dt : K) (s : Game K)
    (hfly : s.isFlying = true) (hball : s.ballMesh.isSome = true) (hend : s.gameEnded = false)
    (hcol : s.goalColliders = [leftPost, rightPost, crossbar])
    (hbox : s.goalAreaBox = some goalArea)
    (hkeeper : ∀ kPos, s.keeperMesh = some kPos → kPos.z = GOAL_Z + 15 / 10)
    (hhit : leftPost.intersectsSphere (groundStage sqrt ui dt s).1 BALL_RADIUS = true ∨
      rightPost.intersectsSphere (groundStage sqrt ui dt s).1 BALL_RADIUS = true ∨
      crossbar.intersectsSphere (groundStage sqrt ui dt s).1 BALL_RADIUS = true) :
    (¬ (leftPost.intersectsSphere (groundStage sqrt ui dt s).1 BALL_RADIUS = true ∧
          crossbar.intersectsSphere (groundStage sqrt ui dt s).1 BALL_RADIUS = true) →
        (updatePhysics sqrt ui dt s).velocity.z = -(1 / 2) * (groundStage sqrt ui dt s).2.1.z ∧
        (updatePhysics sqrt ui dt s).velocity.x = 1 / 2 * (groundStage sqrt ui dt s).2.1.x) ∧
      (leftPost.intersectsSphere (groundStage sqrt ui dt s).1 BALL_RADIUS = true ∧
          crossbar.intersectsSphere (groundStage sqrt ui dt s).1 BALL_RADIUS = true →
        (updatePhysics sqrt ui dt s).velocity.z = 1 / 4 * (groundStage sqrt ui dt s).2.1.z ∧
        (updatePhysics sqrt ui dt s).velocity.x = 1 / 4 * (groundStage sqrt ui dt s).2.1.x) := by
  rw [(updatePhysics_post_hit sqrt ui dt s hfly hball hend hcol hbox hkeeper hhit).1,
    postPass_goal]
  have hLR : ¬ (leftPost.intersectsSphere (groundStage sqrt ui dt s).1 BALL_RADIUS = true ∧
      rightPost.intersectsSphere (groundStage sqrt ui dt s).1 BALL_RADIUS = true) := by
    rintro ⟨h1, h2⟩
    linarith [(leftPost_hit_bounds _ h1).1, (rightPost_hit_bounds _ h2).1]
  have hRC : ¬ (rightPost.intersectsSphere (groundStage sqrt ui dt s).1 BALL_RADIUS = true ∧
      crossbar.intersectsSphere (groundStage sqrt ui dt s).1 BALL_RADIUS = true) := by
    rintro ⟨h1, h2⟩
    linarith [(rightPost_hit_bounds _ h1).1, (crossbar_hit_bounds _ h2).1]
  unfold postHit
  cases hL : leftPost.intersectsSphere (groundStage sqrt ui dt s).1 BALL_RADIUS <;>
    cases hR : rightPost.intersectsSphere (groundStage sqrt ui dt s).1 BALL_RADIUS <;>
    cases hC : crossbar.intersectsSphere (groundStage sqrt ui dt s).1 BALL_RADIUS <;>
    simp only [hL, hR, hC] at hhit hLR hRC ⊢ <;>
    first
    | (exfalso; simp at hhit; done)
    | (exfalso; simp at hLR; done)
    | (exfalso; simp at hRC; done)
    | (simp; constructor <;> ring)

lemma cornerSample_groundStage :
    groundStage Real.sqrt calmInputs (1 / 10) (cornerSample : Game ℝ)
      = (⟨-(27 / 4), 47 / 10, -32⟩, ⟨-2, 0, -30⟩, true) := by
  have hv : steppedVelocity calmInputs (1 / 10) (cornerSample : Game ℝ) = ⟨-2, 0, -30⟩ := by
    norm_num [steppedVelocity, integrateVelocity, calculateAcceleration, F_gravity, F_magnus,
      F_wind, mass, windVec, calmInputs, cornerSample, init, planets.moon, Vec3.add,
      Vec3.multiplyScalar, Vec3.divideScalar, Vec3.crossVectors]
  have hp : tentativePos calmInputs (1 / 10) (cornerSample : Game ℝ)
      = ⟨-(27 / 4), 47 / 10, -32⟩ := by
    rw [tentativePos, hv]
    norm_num [integratePosition, cornerSample, init, Vec3.add, Vec3.multiplyScalar]
  rw [groundStage, hp, hv]
  norm_num [groundContact, BALL_RADIUS, cornerSample, init]

lemma cornerSample_hits :
    (leftPost : Box3 ℝ).intersectsSphere ⟨-(27 / 4), 47 / 10, -32⟩ BALL_RADIUS = true ∧
      (rightPost : Box3 ℝ).intersectsSphere ⟨-(27 / 4), 47 / 10, -32⟩ BALL_RADIUS = false ∧
      (crossbar : Box3 ℝ).intersectsSphere ⟨-(27 / 4), 47 / 10, -32⟩ BALL_RADIUS = true := by
  refine ⟨?_, ?_, ?_⟩ <;>
    norm_num [Box3.intersectsSphere, Vec3.distanceToSquared, Vec3.clamp, leftPost, rightPost,
      crossbar, BALL_RADIUS, max_def, min_def]

lemma postSample_groundStage :
    groundStage Real.sqrt calmInputs (1 / 10) (postSample : Game ℝ)
      = (⟨7, 2, -32⟩, ⟨1, 0, -30⟩, true) := by
  have hv : steppedVelocity calmInputs (1 / 10) (postSample : Game ℝ) = ⟨1, 0, -30⟩ := by
    norm_num [steppedVelocity, integrateVelocity, calculateAcceleration, F_gravity, F_magnus,
      F_wind, mass, windVec, calmInputs, postSample, init, planets.moon, Vec3.add,
      Vec3.multiplyScalar, Vec3.divideScalar, Vec3.crossVectors]
  have hp : tentativePos calmInputs (1 / 10) (postSample : Game ℝ) = ⟨7, 2, -32⟩ := by
    rw [tentativePos, hv]
    norm_num [integratePosition, postSample, init, Vec3.add, Vec3.multiplyScalar]
  rw [groundStage, hp, hv]
  norm_num [groundContact, BALL_RADIUS, postSample, init]

lemma postSample_hits :
    (leftPost : Box3 ℝ).intersectsSphere ⟨7, 2, -32⟩ BALL_RADIUS = false ∧
      (rightPost : Box3 ℝ).intersectsSphere ⟨7, 2, -32⟩ BALL_RADIUS = true := by
  refine ⟨?_, ?_⟩ <;>
    norm_num [Box3.intersectsSphere, Vec3.distanceToSquared, Vec3.clamp, leftPost, rightPost,
      BALL_RADIUS, max_def, min_def]

/-- C6 on a concrete step: a ball that meets the left post and the crossbar
leaves the round open with the post-hit status. -/
theorem post_hit_not_terminal_witness :
    (leftPost : Box3 ℝ).intersectsSphere
        (groundStage Real.sqrt calmInputs (1 / 10) (cornerSample : Game ℝ)).1 BALL_RADIUS = true ∧
      (updatePhysics Real.sqrt calmInputs (1 / 10) (cornerSample : Game ℝ)).gameEnded = false ∧
      (updatePhysics Real.sqrt calmInputs (1 / 10) (cornerSample : Game ℝ)).status
        = statusTiang := by
  have hL : (leftPost : Box3 ℝ).intersectsSphere
      (groundStage Real.sqrt calmInputs (1 / 10) (cornerSample : Game ℝ)).1 BALL_RADIUS = true := by
    rw [cornerSample_groundStage]; exact cornerSample_hits.1
  have h := post_hit_not_terminal Real.sqrt calmInputs (1 / 10) (cornerSample : Game ℝ)
    rfl rfl rfl rfl rfl (by intro kPos hk; cases hk; rfl) (Or.inl hL)
  exact ⟨hL, h.2.2.1, h.2.2.2⟩

/-- C5 as stated fails: a ball that meets the left post and the crossbar in
one step has its `velocity.z` multiplied by 0.25 (from -30 to -7.5), not by
-0.5, and its sign is not flipped. -/
theorem post_hit_counterexample :
    (leftPost : Box3 ℝ).intersectsSphere
        (groundStage Real.sqrt calmInputs (1 / 10) (cornerSample : Game ℝ)).1 BALL_RADIUS = true ∧
      (groundStage Real.sqrt calmInputs (1 / 10) (cornerSample : Game ℝ)).2.1.z = -30 ∧
      (updatePhysics Real.sqrt calmInputs (1 / 10) (cornerSample : Game ℝ)).velocity.z
        = -(15 / 2) ∧
      (updatePhysics Real.sqrt calmInputs (1 / 10) (cornerSample : Game ℝ)).velocity.z
        ≠ -(1 / 2) * (groundStage Real.sqrt calmInputs (1 / 10) (cornerSample : Game ℝ)).2.1.z := by
  have hL : (leftPost : Box3 ℝ).intersectsSphere
      (groundStage Real.sqrt calmInputs (1 / 10) (cornerSample : Game ℝ)).1 BALL_RADIUS = true := by
    rw [cornerSample_groundStage]; exact cornerSample_hits.1
  have hv := (updatePhysics_post_hit Real.sqrt calmInputs (1 / 10) (cornerSample : Game ℝ)
    rfl rfl rfl rfl rfl (by intro kPos hk; cases hk; rfl) (Or.inl hL)).1
  rw [postPass_goal, cornerSample_groundStage] at hv
  simp only [postHit, cornerSample_hits.1, cornerSample_hits.2.1, cornerSample_hits.2.2,
    if_true] at hv
  refine ⟨hL, ?_, ?_, ?_⟩
  · rw [cornerSample_groundStage]
  · rw [hv]; norm_num
  · rw [hv, cornerSample_groundStage]; norm_num

/-- C5 (amended) on a concrete step: a ball that meets the right post only
has `velocity.z` multiplied by -0.5 and `velocity.x` by 0.5. -/
theorem post_hit_velocity_witness :
    (rightPost : Box3 ℝ).intersectsSphere
        (groundStage Real.sqrt calmInputs (1 / 10) (postSample : Game ℝ)).1 BALL_RADIUS = true ∧
      (updatePhysics Real.sqrt calmInputs (1 / 10) (postSample : Game ℝ)).velocity.z
        = -(1 / 2) * (groundStage Real.sqrt calmInputs (1 / 10) (postSample : Game ℝ)).2.1.z ∧
      (updatePhysics Real.sqrt calmInputs (1 / 10) (postSample : Game ℝ)).velocity.x
        = 1 / 2 * (groundStage Real.sqrt calmInputs (1 / 10) (postSample : Game ℝ)).2.1.x := by
  have hR : (rightPost : Box3 ℝ).intersectsSphere
      (groundStage Real.sqrt calmInputs (1 / 10) (postSample : Game ℝ)).1 BALL_RADIUS = true := by
    rw [postSample_groundStage]; exact postSample_hits.2
  have hL : ¬ ((leftPost : Box3 ℝ).intersectsSphere
      (groundStage Real.sqrt calmInputs (1 / 10) (postSample : Game ℝ)).1 BALL_RADIUS = true ∧
      (crossbar : Box3 ℝ).intersectsSphere
      (groundStage Real.sqrt calmInputs (1 / 10) (postSample : Game ℝ)).1 BALL_RADIUS = true) := by
    rw [postSample_groundStage, postSample_hits.1]
    simp
  have h := (post_hit_velocity Real.sqrt calmInputs (1 / 10) (postSample : Game ℝ)
    rfl rfl rfl rfl rfl (by intro kPos hk; cases hk; rfl) (Or.inr (Or.inl hR))).1 hL
  exact ⟨hR, h.1, h.2⟩

end Geometry

/-! ## Flat position arrays -/

section Flat

variable {K : Type}

lemma flatten3_append (ps qs : List (Vec3 K)) :
    flatten3 (ps ++ qs) = flatten3 ps ++ flatten3 qs := by
  induction ps with
  | nil => rfl
  | cons p ps ih => simp [flatten3, ih]

lemma length_flatten3 (ps : List (Vec3 K)) : (flatten3 ps).length = 3 * ps.length := by
  induction ps with
  | nil => rfl
  | cons p ps ih => simp [flatten3, ih]; ring

lemma pointAt_flatten3 (ps : List (Vec3 K)) (k : Nat) : pointAt (flatten3 ps) k = ps[k]? := by
  induction ps generalizing k with
  | nil => cases k <;> rfl
  | cons p ps ih =>
    cases k with
    | zero => simp [flatten3, pointAt]
    | succ k => simpa [flatten3, pointAt] using ih k

end Flat

/-! ## The prediction polyline -/

section Predictor

variable {K : Type} [LinearOrderedField K]

/-- The array `points` built by the loop is the flat array of the sampled points. -/
lemma predLoop_eq (sqrt : K → K) (planetData : Planet K) (a w : Vec3 K) (n : Nat)
    (p v : Vec3 K) (ps : List (Vec3 K)) :
    predLoop sqrt planetData a w n p v (flatten3 ps)
      = (flatten3 (ps ++ (predPath sqrt planetData a w n p v).1),
          (predPath sqrt planetData a w n p v).2) := by
  induction n generalizing p v ps with
  | zero => simp [predLoop, predPath]
  | succ n ih =>
    have hpush : flatten3 ps ++ [p.x, p.y, p.z] = flatten3 (ps ++ [p]) := by
      rw [flatten3_append]; rfl
    simp only [predLoop, predPath, hpush]
    split_ifs
    · rfl
    · rfl
    · rw [ih]
      simp

lemma predGroundContact_fst (sqrt : K → K) (p v : Vec3 K) :
    (predGroundContact sqrt p v).1 = if p.y ≤ BALL_RADIUS then { p with y := BALL_RADIUS } else p := by
  unfold predGroundContact
  split_ifs <;> rfl

lemma groundContact_fst (sqrt : K → K) (dt : K) (p v : Vec3 K) (f : Bool) :
    (groundContact sqrt dt p v f).1 = if p.y ≤ BALL_RADIUS then { p with y := BALL_RADIUS } else p := by
  unfold groundContact
  by_cases h1 : p.y ≤ BALL_RADIUS
  · simp only [h1, if_true]
    split_ifs <;> rfl
  · simp only [h1, if_false]

lemma predGroundContact_fst_pos (sqrt : K → K) (p v : Vec3 K) :
    ¬ (predGroundContact sqrt p v).1.y ≤ 0 := by
  rw [predGroundContact_fst]
  have hr : (0 : K) < BALL_RADIUS := by unfold BALL_RADIUS; norm_num
  split_ifs with h
  · simpa using hr
  · push_neg at h ⊢
    exact lt_trans hr h

/-- One iteration of the prediction loop: the loop ends only on the slow-ball
`break`; the test `simPos.y <= 0` never fires. -/
lemma predPath_succ (sqrt : K → K) (planetData : Planet K) (a w : Vec3 K) (n : Nat)
    (p v : Vec3 K) :
    predPath sqrt planetData a w (n + 1) p v
      = if (predGroundContact sqrt
            (integratePosition p (integrateVelocity v a planetData w predDt) predDt)
            (integrateVelocity v a planetData w predDt)).2.2 = true
        then ([p], (predGroundContact sqrt
            (integratePosition p (integrateVelocity v a planetData w predDt) predDt)
            (integrateVelocity v a planetData w predDt)).2.1)
        else (p :: (predPath sqrt planetData a w n
            (predGroundContact sqrt
              (integratePosition p (integrateVelocity v a planetData w predDt) predDt)
              (integrateVelocity v a planetData w predDt)).1
            (predGroundContact sqrt
              (integratePosition p (integrateVelocity v a planetData w predDt) predDt)
              (integrateVelocity v a planetData w predDt)).2.1).1,
          (predPath sqrt planetData a w n
            (predGroundContact sqrt
              (integratePosition p (integrateVelocity v a planetData w predDt) predDt)
              (integrateVelocity v a planetData w predDt)).1
            (predGroundContact sqrt
              (integratePosition p (integrateVelocity v a planetData w predDt) predDt)
              (integrateVelocity v a planetData w predDt)).2.1).2) := by
  simp only [predPath, predGroundContact_fst_pos, if_false]

lemma predPath_head (sqrt : K → K) (planetData : Planet K) (a w : Vec3 K) (n : Nat)
    (p v : Vec3 K) : (predPath sqrt planetData a w (n + 1) p v).1[0]? = some p := by
  rw [predPath_succ]
  split_ifs <;> simp

lemma predPath_length (sqrt : K → K) (planetData : Planet K) (a w : Vec3 K) (n : Nat)
    (p v : Vec3 K) : (predPath sqrt planetData a w n p v).1.length ≤ n := by
  induction n generalizing p v with
  | zero => simp [predPath]
  | succ n ih =>
    rw [predPath_succ]
    split_ifs
    · simp
    · simpa using ih _ _

lemma updatePredictionPath_predPoints (sqrt : K → K) (ui : Inputs K) (s : Game K)
    (haim : s.aimAssistEnabled = true) (hidle : s.isFlying = false) :
    (updatePredictionPath sqrt ui s).predPoints
      = flatten3 (predPath sqrt s.currentPlanet (launchSpin ui) (windVec ui) 50 s.startPos
          (launchVelocity sqrt ui s.startPos)).1 := by
  unfold updatePredictionPath
  rw [if_neg (by simp [haim, hidle])]
  have h := predLoop_eq sqrt s.currentPlanet (launchSpin ui) (windVec ui) 50 s.startPos
    (launchVelocity sqrt ui s.startPos) []
  simp only [flatten3, List.nil_append] at h
  simp only [h]

/-- C11: when the predictor runs (aim assist enabled, ball not flying) the
polyline it produces is a flat array of 3 to 150 scalars whose length is a
multiple of 3, that is, it has between 1 and 50 points, and its first point is
the start position. -/
theorem prediction_bounded (sqrt : K → K) (ui : Inputs K) (s : Game K)
    (haim : s.aimAssistEnabled = true) (hidle : s.isFlying = false) :
    3 ≤ (updatePredictionPath sqrt ui s).predPoints.length ∧
      (updatePredictionPath sqrt ui s).predPoints.length ≤ 150 ∧
      (updatePredictionPath sqrt ui s).predPoints.length % 3 = 0 ∧
      pointAt (updatePredictionPath sqrt ui s).predPoints 0 = some s.startPos ∧
      pointAt (updatePredictionPath sqrt ui s).predPoints 50 = none := by
  rw [updatePredictionPath_predPoints sqrt ui s haim hidle]
  have hlen := predPath_length sqrt s.currentPlanet (launchSpin ui) (windVec ui) 50 s.startPos
    (launchVelocity sqrt ui s.startPos)
  have hhead := predPath_head sqrt s.currentPlanet (launchSpin ui) (windVec ui) 49 s.startPos
    (launchVelocity sqrt ui s.startPos)
  have hpos : 1 ≤ (predPath sqrt s.currentPlanet (launchSpin ui) (windVec ui) 50 s.startPos
      (launchVelocity sqrt ui s.startPos)).1.length := by
    by_contra hc
    push_neg at hc
    have h0 := List.getElem?_eq_none (l := (predPath sqrt s.currentPlanet (launchSpin ui)
      (windVec ui) 50 s.startPos (launchVelocity sqrt ui s.startPos)).1) (n := 0) (by omega)
    rw [h0] at hhead
    cases hhead
  rw [length_flatten3, pointAt_flatten3, pointAt_flatten3]
  refine ⟨by omega, by omega, by omega, hhead, List.getElem?_eq_none (by omega)⟩

/-- C11 on a concrete state: the prediction for the ready ball on the Moon. -/
theorem prediction_bounded_witness :
    3 ≤ (updatePredictionPath Real.sqrt calmInputs (readySample : Game ℝ)).predPoints.length ∧
      (updatePredictionPath Real.sqrt calmInputs (readySample : Game ℝ)).predPoints.length
        ≤ 150 ∧
      pointAt (updatePredictionPath Real.sqrt calmInputs (readySample : Game ℝ)).predPoints 0
        = some ⟨0, BALL_RADIUS, 25⟩ :=
  have h := prediction_bounded Real.sqrt calmInputs (readySample : Game ℝ) rfl rfl
  ⟨h.1, h.2.1, h.2.2.2.1⟩

end Predictor

/-! ## Prediction against the live shot -/

section Refinement

variable {K : Type} [LinearOrderedField K]

@[simp] lemma updateKeeper_ballMesh (dt : K) (s : Game K) :
    (updateKeeper dt s).ballMesh = s.ballMesh := by
  unfold updateKeeper
  split
  · rfl
  · dsimp only
    split_ifs <;> rfl

@[simp] lemma updateKeeper_goalColliders (dt : K) (s : Game K) :
    (updateKeeper dt s).goalColliders = s.goalColliders := by
  unfold updateKeeper
  split
  · rfl
  · dsimp only
    split_ifs <;> rfl

@[simp] lemma updateKeeper_goalAreaBox (dt : K) (s : Game K) :
    (updateKeeper dt s).goalAreaBox = s.goalAreaBox := by
  unfold updateKeeper
  split
  · rfl
  · dsimp only
    split_ifs <;> rfl

@[simp] lemma updateKeeper_startPos (dt : K) (s : Game K) :
    (updateKeeper dt s).startPos = s.startPos := by
  unfold updateKeeper
  split
  · rfl
  · dsimp only
    split_ifs <;> rfl

@[simp] lemma updateKeeper_trailPoints (dt : K) (s : Game K) :
    (updateKeeper dt s).trailPoints = s.trailPoints := by
  unfold updateKeeper
  split
  · rfl
  · dsimp only
    split_ifs <;> rfl

@[simp] lemma updateKeeper_predPoints (dt : K) (s : Game K) :
    (updateKeeper dt s).predPoints = s.predPoints := by
  unfold updateKeeper
  split
  · rfl
  · dsimp only
    split_ifs <;> rfl

@[simp] lemma updateKeeper_predVisible (dt : K) (s : Game K) :
    (updateKeeper dt s).predVisible = s.predVisible := by
  unfold updateKeeper
  split
  · rfl
  · dsimp only
    split_ifs <;> rfl

@[simp] lemma updateKeeper_isFlying (dt : K) (s : Game K) :
    (updateKeeper dt s).isFlying = s.isFlying := by
  unfold updateKeeper
  split
  · rfl
  · dsimp only
    split_ifs <;> rfl

@[simp] lemma updateKeeper_gameEnded (dt : K) (s : Game K) :
    (updateKeeper dt s).gameEnded = s.gameEnded := by
  unfold updateKeeper
  split
  · rfl
  · dsimp only
    split_ifs <;> rfl

@[simp] lemma updateKeeper_velocity (dt : K) (s : Game K) :
    (updateKeeper dt s).velocity = s.velocity := by
  unfold updateKeeper
  split
  · rfl
  · dsimp only
    split_ifs <;> rfl

@[simp] lemma updateKeeper_angularVelocity (dt : K) (s : Game K) :
    (updateKeeper dt s).angularVelocity = s.angularVelocity := by
  unfold updateKeeper
  split
  · rfl
  · dsimp only
    split_ifs <;> rfl

@[simp] lemma updateKeeper_position (dt : K) (s : Game K) :
    (updateKeeper dt s).position = s.position := by
  unfold updateKeeper
  split
  · rfl
  · dsimp only
    split_ifs <;> rfl

@[simp] lemma updateKeeper_aimAssistEnabled (dt : K) (s : Game K) :
    (updateKeeper dt s).aimAssistEnabled = s.aimAssistEnabled := by
  unfold updateKeeper
  split
  · rfl
  · dsimp only
    split_ifs <;> rfl

@[simp] lemma updateKeeper_currentPlanet (dt : K) (s : Game K) :
    (updateKeeper dt s).currentPlanet = s.currentPlanet := by
  unfold updateKeeper
  split
  · rfl
  · dsimp only
    split_ifs <;> rfl

@[simp] lemma updateKeeper_status (dt : K) (s : Game K) :
    (updateKeeper dt s).status = s.status := by
  unfold updateKeeper
  split
  · rfl
  · dsimp only
    split_ifs <;> rfl

@[simp] lemma updateKeeper_stats (dt : K) (s : Game K) :
    (updateKeeper dt s).stats = s.stats := by
  unfold updateKeeper
  split
  · rfl
  · dsimp only
    split_ifs <;> rfl

@[simp] lemma steppedVelocity_updateKeeper (ui : Inputs K) (dt dt2 : K) (s : Game K) :
    steppedVelocity ui dt (updateKeeper dt2 s) = steppedVelocity ui dt s := by
  simp [steppedVelocity]

@[simp] lemma tentativePos_updateKeeper (ui : Inputs K) (dt dt2 : K) (s : Game K) :
    tentativePos ui dt (updateKeeper dt2 s) = tentativePos ui dt s := by
  simp [tentativePos]

@[simp] lemma groundStage_updateKeeper (sqrt : K → K) (ui : Inputs K) (dt dt2 : K) (s : Game K) :
    groundStage sqrt ui dt (updateKeeper dt2 s) = groundStage sqrt ui dt s := by
  simp [groundStage]

lemma postPass_miss (cs : List (Box3 K)) (c : Vec3 K) (acc : Vec3 K × Status)
    (h : ∀ box ∈ cs, box.intersectsSphere c BALL_RADIUS = false) : postPass cs c acc = acc := by
  induction cs with
  | nil => rfl
  | cons b cs ih =>
    rw [postPass_cons]
    have hb : postHit c acc b = acc := by
      simp [postHit, h b (List.mem_cons_self _ _)]
    rw [hb]
    exact ih (fun box hbox => h box (List.mem_cons_of_mem _ hbox))

/-- What `shootBall` leaves when the ball is not flying. -/
lemma shootBall_of_idle (sqrt : K → K) (ui : Inputs K) (s : Game K) (hidle : s.isFlying = false) :
    (shootBall sqrt ui s).velocity = launchVelocity sqrt ui s.startPos ∧
      (shootBall sqrt ui s).angularVelocity = launchSpin ui ∧
      (shootBall sqrt ui s).isFlying = true ∧
      (shootBall sqrt ui s).gameEnded = false ∧
      (shootBall sqrt ui s).position = (if s.ballMesh.isSome then s.startPos else s.position) ∧
      (shootBall sqrt ui s).currentPlanet = s.currentPlanet ∧
      (shootBall sqrt ui s).ballMesh.isSome = s.ballMesh.isSome ∧
      (shootBall sqrt ui s).startPos = s.startPos := by
  unfold shootBall
  rw [if_neg (by simp [hidle])]
  simp only [resetBall_startPos, resetBall_position, true_and]
  unfold resetBall
  cases s.ballMesh <;> simp

/-- A step that runs and meets nothing: only the ground block acts. -/
lemma updatePhysics_no_event (sqrt : K → K) (ui : Inputs K) (dt : K) (s : Game K)
    (hfly : s.isFlying = true) (hball : s.ballMesh.isSome = true) (hend : s.gameEnded = false)
    (hev : stepEvent sqrt ui dt s = false) :
    (updatePhysics sqrt ui dt s).velocity = (groundStage sqrt ui dt s).2.1 ∧
      (updatePhysics sqrt ui dt s).gameEnded = false := by
  simp only [stepEvent, Bool.or_eq_false_iff, List.any_eq_false] at hev
  obtain ⟨⟨hposts, hkeeper⟩, hgoal⟩ := hev
  have hp : ∀ acc, postPass s.goalColliders (groundStage sqrt ui dt s).1 acc = acc :=
    fun acc => postPass_miss _ _ acc (fun box hbox => by simpa using hposts box hbox)
  have hk : ∀ acc, keeperPass s.keeperMesh (groundStage sqrt ui dt s).1 acc = acc := by
    intro acc
    apply keeperPass_miss
    intro kPos hkp
    rw [hkp] at hkeeper
    exact hkeeper
  have hg : ∀ acc, goalPass s.goalAreaBox (groundStage sqrt ui dt s).1 acc = acc := by
    intro acc
    cases hb : s.goalAreaBox with
    | none => rfl
    | some box =>
      rw [hb] at hgoal
      exact goalPass_miss box _ acc hgoal
  rw [updatePhysics_of_run sqrt ui dt s hfly hball hend]
  simp only [hp, hk, hg, hend, and_self]

lemma updatePhysics_position (sqrt : K → K) (ui : Inputs K) (dt : K) (s : Game K)
    (hfly : s.isFlying = true) (hball : s.ballMesh.isSome = true) (hend : s.gameEnded = false) :
    (updatePhysics sqrt ui dt s).position = (groundStage sqrt ui dt s).1 ∧
      (updatePhysics sqrt ui dt s).isFlying = (groundStage sqrt ui dt s).2.2 ∧
      (updatePhysics sqrt ui dt s).angularVelocity = s.angularVelocity ∧
      (updatePhysics sqrt ui dt s).currentPlanet = s.currentPlanet ∧
      (updatePhysics sqrt ui dt s).ballMesh.isSome = true := by
  rw [updatePhysics_of_run sqrt ui dt s hfly hball hend]
  simp

lemma predGroundContact_airborne (sqrt : K → K) (p v : Vec3 K) (h : BALL_RADIUS < p.y) :
    predGroundContact sqrt p v = (p, v, false) := by
  unfold predGroundContact
  rw [if_neg (not_le.mpr h)]

lemma groundStage_airborne (sqrt : K → K) (ui : Inputs K) (dt : K) (s : Game K)
    (h : BALL_RADIUS < (tentativePos ui dt s).y) :
    groundStage sqrt ui dt s = (tentativePos ui dt s, steppedVelocity ui dt s, s.isFlying) := by
  unfold groundStage groundContact
  rw [if_neg (not_le.mpr h)]

/-- An airborne frame without event: the live ball makes exactly the
predictor's integration step. -/
lemma animate_airborne (sqrt : K → K) (ui : Inputs K) (t : Game K)
    (hfly : t.isFlying = true) (hball : t.ballMesh.isSome = true) (hend : t.gameEnded = false)
    (hair : BALL_RADIUS < (tentativePos ui predDt (updateKeeper predDt t)).y)
    (hev : stepEvent sqrt ui predDt (updateKeeper predDt t) = false) :
    (animate sqrt ui predDt t).isFlying = true ∧
      (animate sqrt ui predDt t).ballMesh.isSome = true ∧
      (animate sqrt ui predDt t).gameEnded = false ∧
      (animate sqrt ui predDt t).position = tentativePos ui predDt t ∧
      (animate sqrt ui predDt t).velocity = steppedVelocity ui predDt t ∧
      (animate sqrt ui predDt t).angularVelocity = t.angularVelocity ∧
      (animate sqrt ui predDt t).currentPlanet = t.currentPlanet := by
  have h1 := updatePhysics_no_event sqrt ui predDt (updateKeeper predDt t)
    (by simpa using hfly) (by simpa using hball) (by simpa using hend) hev
  have h2 := updatePhysics_position sqrt ui predDt (updateKeeper predDt t)
    (by simpa using hfly) (by simpa using hball) (by simpa using hend)
  have hg := groundStage_airborne sqrt ui predDt (updateKeeper predDt t) hair
  simp only [hg, tentativePos_updateKeeper, steppedVelocity_updateKeeper, updateKeeper_isFlying,
    updateKeeper_angularVelocity, updateKeeper_currentPlanet] at h1 h2
  unfold animate
  exact ⟨by rw [h2.2.1, hfly], h2.2.2.2.2, h1.2, h2.1, h1.1, h2.2.2.1, h2.2.2.2.1⟩

/-- Along airborne frames without event the predictor's samples from the
start of the flight are the ones it would take from the current live state. -/
lemma airborne_chain (sqrt : K → K) (ui : Inputs K) (k : Nat) :
    ∀ (t : Game K) (n : Nat), t.isFlying = true → t.ballMesh.isSome = true →
      t.gameEnded = false →
      (∀ j, j < k →
        BALL_RADIUS < (tentativePos ui predDt
          (updateKeeper predDt ((animate sqrt ui predDt)^[j] t))).y ∧
        stepEvent sqrt ui predDt (updateKeeper predDt ((animate sqrt ui predDt)^[j] t)) = false) →
      ((animate sqrt ui predDt)^[k] t).isFlying = true ∧
        ((animate sqrt ui predDt)^[k] t).ballMesh.isSome = true ∧
        ((animate sqrt ui predDt)^[k] t).gameEnded = false ∧
        ((animate sqrt ui predDt)^[k] t).angularVelocity = t.angularVelocity ∧
        ((animate sqrt ui predDt)^[k] t).currentPlanet = t.currentPlanet ∧
        ∀ i, (predPath sqrt t.currentPlanet t.angularVelocity (windVec ui) (k + n)
            t.position t.velocity).1[k + i]?
          = (predPath sqrt t.currentPlanet t.angularVelocity (windVec ui) n
            ((animate sqrt ui predDt)^[k] t).position
            ((animate sqrt ui predDt)^[k] t).velocity).1[i]? := by
  induction k with
  | zero =>
    intro t n hfly hball hend _
    simp [hfly, hball, hend]
  | succ k ih =>
    intro t n hfly hball hend hyp
    obtain ⟨hair, hev⟩ := hyp 0 (Nat.succ_pos k)
    simp only [Function.iterate_zero, id_eq] at hair hev
    obtain ⟨f1, b1, e1, p1, v1, a1, c1⟩ := animate_airborne sqrt ui t hfly hball hend hair hev
    have hyp1 : ∀ j, j < k →
        BALL_RADIUS < (tentativePos ui predDt (updateKeeper predDt
          ((animate sqrt ui predDt)^[j] (animate sqrt ui predDt t)))).y ∧
        stepEvent sqrt ui predDt (updateKeeper predDt
          ((animate sqrt ui predDt)^[j] (animate sqrt ui predDt t))) = false := by
      intro j hj
      have := hyp (j + 1) (Nat.succ_lt_succ hj)
      simpa only [Function.iterate_succ_apply] using this
    obtain ⟨f2, b2, e2, a2, c2, hpath⟩ := ih (animate sqrt ui predDt t) n f1 b1 e1 hyp1
    simp only [Function.iterate_succ_apply]
    refine ⟨f2, b2, e2, a2.trans a1, c2.trans c1, ?_⟩
    intro i
    have hstep : predPath sqrt t.currentPlanet t.angularVelocity (windVec ui) (k + 1 + n)
        t.position t.velocity
        = (t.position :: (predPath sqrt t.currentPlanet t.angularVelocity (windVec ui) (k + n)
              (tentativePos ui predDt t) (steppedVelocity ui predDt t)).1,
            (predPath sqrt t.currentPlanet t.angularVelocity (windVec ui) (k + n)
              (tentativePos ui predDt t) (steppedVelocity ui predDt t)).2) := by
      have hn : k + 1 + n = (k + n) + 1 := by omega
      rw [hn, predPath_succ]
      have hair2 : BALL_RADIUS < (tentativePos ui predDt t).y := by simpa using hair
      have hg := predGroundContact_airborne sqrt (tentativePos ui predDt t)
        (steppedVelocity ui predDt t) hair2
      simp only [tentativePos, steppedVelocity] at hg
      simp only [hg, tentativePos, steppedVelocity]
      simp
    have hidx : k + 1 + i = (k + i) + 1 := by omega
    rw [hstep, hidx, List.getElem?_cons_succ]
    have := hpath i
    rw [p1, v1, a1, c1] at this
    exact this

/-- C8 (amended): for identical inputs and the live loop stepped with
`dt = 0.05`, for every `k ≤ 49` such that the live steps before the `k`-th are
airborne and without goal-box, keeper or goal-mouth event, and such that the
predictor's loop does not break at its `k`-th step (it breaks only when that
step reaches the ground with a horizontal speed, after the predictor's own
friction, below 0.1), the predictor's `k`-th polyline point is the live
position after `k` frames following `shootBall`. -/
theorem prediction_matches_live (sqrt : K → K) (ui : Inputs K) (s : Game K) (k : Nat)
    (hidle : s.isFlying = false) (hball : s.ballMesh.isSome = true)
    (haim : s.aimAssistEnabled = true) (hk : k < 50)
    (hair : ∀ j, j + 1 < k →
      BALL_RADIUS < (tentativePos ui predDt (frameState sqrt ui s j)).y ∧
      stepEvent sqrt ui predDt (frameState sqrt ui s j) = false)
    (hlast : ∀ j, j + 1 = k →
      (predGroundContact sqrt (tentativePos ui predDt (frameState sqrt ui s j))
        (steppedVelocity ui predDt (frameState sqrt ui s j))).2.2 = false) :
    pointAt (updatePredictionPath sqrt ui s).predPoints k
      = some (liveAfter sqrt ui s k).position := by
  obtain ⟨sv, sa, sf, se, sp, sc, sb, -⟩ := shootBall_of_idle sqrt ui s hidle
  rw [hball, if_pos rfl] at sp
  rw [hball] at sb
  rw [updatePredictionPath_predPoints sqrt ui s haim hidle, pointAt_flatten3]
  cases k with
  | zero =>
    rw [predPath_head]
    simp [liveAfter, sp]
  | succ k =>
    have hchain := airborne_chain sqrt ui k (shootBall sqrt ui s) (50 - k) sf sb se
      (fun j hj => hair j (Nat.succ_lt_succ hj))
    obtain ⟨f2, b2, e2, a2, c2, hpath⟩ := hchain
    have h50 : k + (50 - k) = 50 := by omega
    have hp1 := hpath 1
    rw [h50, sc, sa, sp, sv] at hp1
    rw [hp1]
    obtain ⟨m, hm⟩ : ∃ m, 50 - k = m + 1 + 1 := ⟨48 - k, by omega⟩
    have hl := hlast k rfl
    simp only [frameState, liveAfter, tentativePos_updateKeeper,
      steppedVelocity_updateKeeper] at hl
    have hpos := (updatePhysics_position sqrt ui predDt
      (updateKeeper predDt ((animate sqrt ui predDt)^[k] (shootBall sqrt ui s)))
      (by simpa using f2) (by simpa using b2) (by simpa using e2)).1
    simp only [groundStage_updateKeeper] at hpos
    have hlive : (liveAfter sqrt ui s (k + 1)).position
        = (predGroundContact sqrt
            (tentativePos ui predDt ((animate sqrt ui predDt)^[k] (shootBall sqrt ui s)))
            (steppedVelocity ui predDt
              ((animate sqrt ui predDt)^[k] (shootBall sqrt ui s)))).1 := by
      simp only [liveAfter, Function.iterate_succ_apply']
      show (updatePhysics sqrt ui predDt (updateKeeper predDt _)).position = _
      rw [hpos, predGroundContact_fst, groundStage, groundContact_fst]
    rw [hlive, hm, predPath_succ]
    simp only [tentativePos, steppedVelocity, a2, c2, sa, sc] at hl ⊢
    rw [if_neg (by simp [hl])]
    simp only [List.getElem?_cons_succ]
    exact predPath_head _ _ _ _ _ _ _

lemma updatePredictionPath_stats (sqrt : K → K) (ui : Inputs K) (s : Game K)
    (haim : s.aimAssistEnabled = true) (hidle : s.isFlying = false) :
    (updatePredictionPath sqrt ui s).stats
      = some (updateStatsPanel sqrt s.currentPlanet
          (predPath sqrt s.currentPlanet (launchSpin ui) (windVec ui) 50 s.startPos
            (launchVelocity sqrt ui s.startPos)).2
          (launchSpin ui) (windVec ui)
          ((Vec3.crossVectors (launchSpin ui) (launchVelocity sqrt ui s.startPos)).multiplyScalar
            (2 / 1000 * s.currentPlanet.density))) := by
  unfold updatePredictionPath
  rw [if_neg (by simp [haim, hidle])]
  have h := predLoop_eq sqrt s.currentPlanet (launchSpin ui) (windVec ui) 50 s.startPos
    (launchVelocity sqrt ui s.startPos) []
  simp only [flatten3, List.nil_append] at h
  simp only [h]

lemma shootBall_scene (sqrt : K → K) (ui : Inputs K) (s : Game K) :
    (shootBall sqrt ui s).goalColliders = s.goalColliders ∧
      (shootBall sqrt ui s).keeperMesh = s.keeperMesh ∧
      (shootBall sqrt ui s).goalAreaBox = s.goalAreaBox ∧
      (shootBall sqrt ui s).keeperDir = s.keeperDir := by
  unfold shootBall
  split
  · simp
  · unfold resetBall
    cases s.ballMesh <;> simp

lemma sqrt_3025 : Real.sqrt 3025 = 55 := by
  rw [show (3025 : ℝ) = 55 * 55 by norm_num]
  exact Real.sqrt_mul_self (by norm_num)

lemma sqrt_5329 : Real.sqrt 5329 = 73 := by
  rw [show (5329 : ℝ) = 73 * 73 by norm_num]
  exact Real.sqrt_mul_self (by norm_num)

lemma slow_launchVelocity :
    launchVelocity Real.sqrt slowInputs (⟨0, BALL_RADIUS, 25⟩ : Vec3 ℝ) = ⟨0, 0, -(1 / 10)⟩ := by
  norm_num [launchVelocity, Vec3.normalize, Vec3.length, Vec3.lengthSq, Vec3.subVectors,
    Vec3.divideScalar, Vec3.multiplyScalar, slowInputs, BALL_RADIUS, GOAL_Z, sqrt_3025]

lemma low_launchVelocity :
    launchVelocity Real.sqrt lowInputs (⟨0, BALL_RADIUS, 25⟩ : Vec3 ℝ) = ⟨0, 0, -20⟩ := by
  norm_num [launchVelocity, Vec3.normalize, Vec3.length, Vec3.lengthSq, Vec3.subVectors,
    Vec3.divideScalar, Vec3.multiplyScalar, lowInputs, BALL_RADIUS, GOAL_Z, sqrt_3025]

lemma high_launchVelocity :
    launchVelocity Real.sqrt highInputs (⟨0, BALL_RADIUS, 25⟩ : Vec3 ℝ) = ⟨0, 48, -55⟩ := by
  norm_num [launchVelocity, Vec3.normalize, Vec3.length, Vec3.lengthSq, Vec3.subVectors,
    Vec3.divideScalar, Vec3.multiplyScalar, highInputs, BALL_RADIUS, GOAL_Z, sqrt_5329]

lemma slow_first_step :
    predGroundContact Real.sqrt
        (integratePosition (⟨0, BALL_RADIUS, 25⟩ : Vec3 ℝ)
          (integrateVelocity ⟨0, 0, -(1 / 10)⟩ (launchSpin slowInputs) planets.moon
            (windVec slowInputs) predDt) predDt)
        (integrateVelocity ⟨0, 0, -(1 / 10)⟩ (launchSpin slowInputs) planets.moon
          (windVec slowInputs) predDt)
      = (⟨0, BALL_RADIUS, 4999 / 200⟩, ⟨0, 0, -(7 / 80)⟩, true) := by
  have hv : integrateVelocity (⟨0, 0, -(1 / 10)⟩ : Vec3 ℝ) (launchSpin slowInputs) planets.moon
      (windVec slowInputs) predDt = ⟨0, -(2 / 25), -(1 / 10)⟩ := by
    norm_num [integrateVelocity, calculateAcceleration, F_gravity, F_magnus, F_wind, mass,
      windVec, slowInputs, launchSpin, planets.moon, Vec3.add, Vec3.multiplyScalar,
      Vec3.divideScalar, Vec3.crossVectors, predDt]
  have hp : integratePosition (⟨0, BALL_RADIUS, 25⟩ : Vec3 ℝ) ⟨0, -(2 / 25), -(1 / 10)⟩ predDt
      = ⟨0, 173 / 500, 4999 / 200⟩ := by
    norm_num [integratePosition, Vec3.add, Vec3.multiplyScalar, predDt, BALL_RADIUS]
  rw [hv, hp]
  unfold predGroundContact
  rw [if_pos (by norm_num [BALL_RADIUS])]
  simp only [Prod.mk.injEq, Vec3.mk.injEq, decide_eq_true_eq, true_and]
  refine ⟨by norm_num [predDt], ?_⟩
  rw [Real.sqrt_lt' (by norm_num)]
  norm_num [predDt]

lemma slow_predPath :
    predPath Real.sqrt planets.moon (launchSpin slowInputs) (windVec slowInputs) 50
        (⟨0, BALL_RADIUS, 25⟩ : Vec3 ℝ) ⟨0, 0, -(1 / 10)⟩
      = ([⟨0, BALL_RADIUS, 25⟩], ⟨0, 0, -(7 / 80)⟩) := by
  rw [show (50 : ℕ) = 49 + 1 from rfl, predPath_succ, slow_first_step]
  simp

/-- C9: on the Moon, with launch speed 0.1 towards the foot of the goal, the
velocity handed to the stats readout as "Kec. Awal" has length 0.0875 (the
velocity after the predictor's only step), while the launch velocity has
length 0.1. -/
theorem stats_speed_not_initial :
    (updatePredictionPath Real.sqrt slowInputs (readySample : Game ℝ)).stats
        = some ⟨"Bulan", 7 / 80, 0, 0, 0⟩ ∧
      (launchVelocity Real.sqrt slowInputs (readySample : Game ℝ).startPos).length Real.sqrt
        = 1 / 10 := by
  have hstart : (readySample : Game ℝ).startPos = ⟨0, BALL_RADIUS, 25⟩ := rfl
  have hplanet : (readySample : Game ℝ).currentPlanet = planets.moon := rfl
  constructor
  · rw [updatePredictionPath_stats Real.sqrt slowInputs readySample rfl rfl, hstart, hplanet,
      slow_launchVelocity, slow_predPath]
    have h1 : Real.sqrt 49 = 7 := by
      rw [show (49 : ℝ) = 7 * 7 by norm_num]
      exact Real.sqrt_mul_self (by norm_num)
    have h2 : Real.sqrt 6400 = 80 := by
      rw [show (6400 : ℝ) = 80 * 80 by norm_num]
      exact Real.sqrt_mul_self (by norm_num)
    norm_num [updateStatsPanel, Vec3.length, Vec3.lengthSq, windVec, slowInputs, launchSpin,
      planets.moon, Vec3.multiplyScalar, Vec3.crossVectors, h1, h2]
  · rw [hstart, slow_launchVelocity]
    have h3 : Real.sqrt 100 = 10 := by
      rw [show (100 : ℝ) = 10 * 10 by norm_num]
      exact Real.sqrt_mul_self (by norm_num)
    norm_num [Vec3.length, Vec3.lengthSq, h3]

lemma updateKeeper_keeperMesh_yz (dt : K) (s : Game K) (kPos2 : Vec3 K)
    (h : (updateKeeper dt s).keeperMesh = some kPos2) :
    ∃ kPos, s.keeperMesh = some kPos ∧ kPos2.y = kPos.y ∧ kPos2.z = kPos.z := by
  unfold updateKeeper at h
  split at h
  · rename_i hn
    rw [hn] at h
    cases h
  · rename_i kPos hk
    refine ⟨kPos, hk, ?_⟩
    dsimp only at h
    split_ifs at h
    · rw [hk] at h; cases h; exact ⟨rfl, rfl⟩
    · cases h; exact ⟨rfl, rfl⟩
    · cases h; exact ⟨rfl, rfl⟩
    · cases h; exact ⟨rfl, rfl⟩

/-- Far in front of the goal line nothing is met: with the goal loaded and
the keeper on its patrol line, a step whose sphere centre has `z ≥ -27` has
no event. -/
lemma stepEvent_far (sqrt : K → K) (ui : Inputs K) (dt : K) (s : Game K)
    (hcol : s.goalColliders = [leftPost, rightPost, crossbar])
    (hbox : s.goalAreaBox = some goalArea)
    (hkeeper : ∀ kPos, s.keeperMesh = some kPos → kPos.z = GOAL_Z + 15 / 10)
    (hz : -27 ≤ (groundStage sqrt ui dt s).1.z) :
    stepEvent sqrt ui dt s = false := by
  have hpost : ∀ b : Box3 K, b = leftPost ∨ b = rightPost ∨ b = crossbar →
      b.intersectsSphere (groundStage sqrt ui dt s).1 BALL_RADIUS = false := by
    intro b hb
    cases hh : b.intersectsSphere (groundStage sqrt ui dt s).1 BALL_RADIUS
    · rfl
    · exfalso
      have := hit_z_bound (groundStage sqrt ui dt s).1 (by
        rcases hb with h | h | h <;> subst h
        · exact Or.inl hh
        · exact Or.inr (Or.inl hh)
        · exact Or.inr (Or.inr hh))
      linarith
  have hgoal : goalArea.containsPoint (groundStage sqrt ui dt s).1 = false := by
    simp only [Box3.containsPoint, goalArea, decide_eq_false_iff_not]
    rintro ⟨-, -, -, -, -, h6⟩
    linarith
  have hk : ∀ kPos, s.keeperMesh = some kPos →
      (keeperHitbox kPos).intersectsSphere (groundStage sqrt ui dt s).1 BALL_RADIUS = false := by
    intro kPos hkp
    cases hh : (keeperHitbox kPos).intersectsSphere (groundStage sqrt ui dt s).1 BALL_RADIUS
    · rfl
    · exfalso
      have hb := (intersectsSphere_bounds (keeperHitbox kPos) _ BALL_RADIUS radius_nonneg
        hh).2.2.2 (by simp only [keeperHitbox]; linarith)
      simp only [keeperHitbox, BALL_RADIUS, hkeeper kPos hkp, GOAL_Z] at hb
      linarith
  unfold stepEvent
  rw [hcol, hbox]
  simp only [List.any_cons, List.any_nil, hpost leftPost (Or.inl rfl),
    hpost rightPost (Or.inr (Or.inl rfl)), hpost crossbar (Or.inr (Or.inr rfl)), hgoal,
    Bool.or_false, Bool.false_or]
  cases hkm : s.keeperMesh with
  | none => rfl
  | some kPos => exact hk kPos hkm

lemma groundStage_fst (sqrt : K → K) (ui : Inputs K) (dt : K) (s : Game K) :
    (groundStage sqrt ui dt s).1
      = if (tentativePos ui dt s).y ≤ BALL_RADIUS
        then { tentativePos ui dt s with y := BALL_RADIUS } else tentativePos ui dt s := by
  unfold groundStage
  exact groundContact_fst _ _ _ _ _

/-- The state right after a shot from `readySample`. -/
lemma ready_shot (ui : Inputs ℝ) :
    (shootBall Real.sqrt ui (readySample : Game ℝ)).position = ⟨0, BALL_RADIUS, 25⟩ ∧
      (shootBall Real.sqrt ui (readySample : Game ℝ)).velocity
        = launchVelocity Real.sqrt ui ⟨0, BALL_RADIUS, 25⟩ ∧
      (shootBall Real.sqrt ui (readySample : Game ℝ)).angularVelocity = launchSpin ui ∧
      (shootBall Real.sqrt ui (readySample : Game ℝ)).currentPlanet = planets.moon ∧
      (shootBall Real.sqrt ui (readySample : Game ℝ)).isFlying = true ∧
      (shootBall Real.sqrt ui (readySample : Game ℝ)).ballMesh.isSome = true ∧
      (shootBall Real.sqrt ui (readySample : Game ℝ)).gameEnded = false := by
  obtain ⟨sv, sa, sf, se, sp, sc, sb, -⟩ :=
    shootBall_of_idle Real.sqrt ui (readySample : Game ℝ) rfl
  exact ⟨sp, sv, sa, sc, sf, sb, se⟩

/-- No event in a frame after a shot from `readySample` while the ball is
still far from the goal. -/
lemma ready_far (ui : Inputs ℝ) (j : Nat)
    (hz : -27 ≤ (groundStage Real.sqrt ui predDt
      (liveAfter Real.sqrt ui (readySample : Game ℝ) j)).1.z)
    (hscene : (liveAfter Real.sqrt ui (readySample : Game ℝ) j).goalColliders
        = [leftPost, rightPost, crossbar] ∧
      (liveAfter Real.sqrt ui (readySample : Game ℝ) j).goalAreaBox = some goalArea ∧
      ∀ kPos, (liveAfter Real.sqrt ui (readySample : Game ℝ) j).keeperMesh = some kPos →
        kPos.z = GOAL_Z + 15 / 10) :
    stepEvent Real.sqrt ui predDt (frameState Real.sqrt ui (readySample : Game ℝ) j) = false := by
  unfold frameState
  apply stepEvent_far
  · rw [updateKeeper_goalColliders]; exact hscene.1
  · rw [updateKeeper_goalAreaBox]; exact hscene.2.1
  · intro kPos2 h2
    obtain ⟨kPos, hk, -, hzz⟩ := updateKeeper_keeperMesh_yz _ _ _ h2
    rw [hzz]; exact hscene.2.2 kPos hk
  · rw [groundStage_updateKeeper]; exact hz

lemma ready_scene0 (ui : Inputs ℝ) :
    (liveAfter Real.sqrt ui (readySample : Game ℝ) 0).goalColliders
        = [leftPost, rightPost, crossbar] ∧
      (liveAfter Real.sqrt ui (readySample : Game ℝ) 0).goalAreaBox = some goalArea ∧
      ∀ kPos, (liveAfter Real.sqrt ui (readySample : Game ℝ) 0).keeperMesh = some kPos →
        kPos.z = GOAL_Z + 15 / 10 := by
  obtain ⟨h1, h2, h3, -⟩ := shootBall_scene Real.sqrt ui (readySample : Game ℝ)
  simp only [liveAfter, Function.iterate_zero, id_eq]
  refine ⟨h1, h3, ?_⟩
  intro kPos hk
  rw [h2] at hk
  cases hk
  rfl

lemma slow_tentativePos :
    tentativePos slowInputs predDt (shootBall Real.sqrt slowInputs (readySample : Game ℝ))
      = ⟨0, 173 / 500, 4999 / 200⟩ := by
  obtain ⟨hp, hv, ha, hc, -⟩ := ready_shot slowInputs
  unfold tentativePos steppedVelocity
  rw [hp, hv, ha, hc, slow_launchVelocity]
  norm_num [integratePosition, integrateVelocity, calculateAcceleration, F_gravity, F_magnus,
    F_wind, mass, windVec, slowInputs, launchSpin, planets.moon, Vec3.add, Vec3.multiplyScalar,
    Vec3.divideScalar, Vec3.crossVectors, predDt, BALL_RADIUS]

/-- C8 as stated fails at the first ground step when the ball is slow: on
the Moon with launch speed 0.1 the first live step (its tentative height is
at most `BALL_RADIUS`, and no event occurs) moves the ball to
`(0, 0.35, 24.995)`, but the predictor broke out of its loop in that step and
its polyline has no point 1. -/
theorem prediction_mismatch_slow :
    (tentativePos slowInputs predDt
        (frameState Real.sqrt slowInputs (readySample : Game ℝ) 0)).y ≤ BALL_RADIUS ∧
      stepEvent Real.sqrt slowInputs predDt
        (frameState Real.sqrt slowInputs (readySample : Game ℝ) 0) = false ∧
      pointAt (updatePredictionPath Real.sqrt slowInputs (readySample : Game ℝ)).predPoints 1
        = none ∧
      (liveAfter Real.sqrt slowInputs (readySample : Game ℝ) 1).position
        = ⟨0, BALL_RADIUS, 4999 / 200⟩ := by
  obtain ⟨-, -, -, -, hf, hb, he⟩ := ready_shot slowInputs
  have hg : (groundStage Real.sqrt slowInputs predDt
      (shootBall Real.sqrt slowInputs (readySample : Game ℝ))).1
      = ⟨0, BALL_RADIUS, 4999 / 200⟩ := by
    rw [groundStage_fst, slow_tentativePos, if_pos (by norm_num [BALL_RADIUS])]
  refine ⟨?_, ?_, ?_, ?_⟩
  · simp only [frameState, liveAfter, Function.iterate_zero, id_eq, tentativePos_updateKeeper]
    rw [slow_tentativePos]
    norm_num [BALL_RADIUS]
  · apply ready_far slowInputs 0 _ (ready_scene0 slowInputs)
    simp only [liveAfter, Function.iterate_zero, id_eq]
    rw [hg]
    norm_num
  · have hstart : (readySample : Game ℝ).startPos = ⟨0, BALL_RADIUS, 25⟩ := rfl
    have hplanet : (readySample : Game ℝ).currentPlanet = planets.moon := rfl
    rw [updatePredictionPath_predPoints Real.sqrt slowInputs readySample rfl rfl, hstart, hplanet,
      slow_launchVelocity, slow_predPath, pointAt_flatten3]
    rfl
  · simp only [liveAfter, Function.iterate_succ_apply', Function.iterate_zero, id_eq]
    unfold animate
    rw [(updatePhysics_position Real.sqrt slowInputs predDt _ (by simpa using hf)
      (by simpa using hb) (by simpa using he)).1, groundStage_updateKeeper, hg]

lemma high_first_step :
    steppedVelocity highInputs predDt (shootBall Real.sqrt highInputs (readySample : Game ℝ))
        = ⟨0, 1198 / 25, -55⟩ ∧
      tentativePos highInputs predDt (shootBall Real.sqrt highInputs (readySample : Game ℝ))
        = ⟨0, 1373 / 500, 89 / 4⟩ := by
  obtain ⟨hp, hv, ha, hc, -⟩ := ready_shot highInputs
  have h1 : steppedVelocity highInputs predDt
      (shootBall Real.sqrt highInputs (readySample : Game ℝ)) = ⟨0, 1198 / 25, -55⟩ := by
    unfold steppedVelocity
    rw [hv, ha, hc, high_launchVelocity]
    norm_num [integrateVelocity, calculateAcceleration, F_gravity, F_magnus, F_wind, mass,
      windVec, highInputs, launchSpin, planets.moon, Vec3.add, Vec3.multiplyScalar,
      Vec3.divideScalar, Vec3.crossVectors, predDt]
  refine ⟨h1, ?_⟩
  unfold tentativePos
  rw [h1, hp]
  norm_num [integratePosition, Vec3.add, Vec3.multiplyScalar, predDt, BALL_RADIUS]

/-- C8 (amended) on a concrete shot: on the Moon, a shot of speed 73 along
`(0, 48, -55)` is airborne and far from the goal in its first two frames, and
the predictor's point 2 is the live position after two frames. -/
theorem prediction_matches_live_witness :
    pointAt (updatePredictionPath Real.sqrt highInputs (readySample : Game ℝ)).predPoints 2
      = some (liveAfter Real.sqrt highInputs (readySample : Game ℝ) 2).position := by
  obtain ⟨hp, hv, ha, hc, hf, hb, he⟩ := ready_shot highInputs
  obtain ⟨hsv, htp⟩ := high_first_step
  have hair0 : BALL_RADIUS < (tentativePos highInputs predDt
      (frameState Real.sqrt highInputs (readySample : Game ℝ) 0)).y := by
    simp only [frameState, liveAfter, Function.iterate_zero, id_eq, tentativePos_updateKeeper]
    rw [htp]
    norm_num [BALL_RADIUS]
  have hev0 : stepEvent Real.sqrt highInputs predDt
      (frameState Real.sqrt highInputs (readySample : Game ℝ) 0) = false := by
    apply ready_far highInputs 0 _ (ready_scene0 highInputs)
    simp only [liveAfter, Function.iterate_zero, id_eq]
    rw [groundStage_fst, htp, if_neg (by norm_num [BALL_RADIUS])]
    norm_num
  have hlive1 := animate_airborne Real.sqrt highInputs
    (shootBall Real.sqrt highInputs (readySample : Game ℝ)) hf hb he
    (by simpa only [frameState, liveAfter, Function.iterate_zero, id_eq] using hair0)
    (by simpa only [frameState, liveAfter, Function.iterate_zero, id_eq] using hev0)
  obtain ⟨-, -, -, p1, v1, a1, c1⟩ := hlive1
  refine prediction_matches_live Real.sqrt highInputs (readySample : Game ℝ) 2 rfl rfl rfl
    (by norm_num) ?_ ?_
  · intro j hj
    have hj0 : j = 0 := by omega
    subst hj0
    exact ⟨hair0, hev0⟩
  · intro j hj
    have hj1 : j = 1 := by omega
    subst hj1
    apply congrArg (fun t : Vec3 ℝ × Vec3 ℝ × Bool => t.2.2)
      (predGroundContact_airborne Real.sqrt _ _ ?_)
    simp only [frameState, liveAfter, Function.iterate_succ_apply', Function.iterate_zero, id_eq,
      tentativePos_updateKeeper]
    unfold tentativePos steppedVelocity
    rw [p1, v1, a1, c1, htp, hsv, ha, hc]
    norm_num [integratePosition, integrateVelocity, calculateAcceleration, F_gravity, F_magnus,
      F_wind, mass, windVec, highInputs, launchSpin, planets.moon, Vec3.add, Vec3.multiplyScalar,
      Vec3.divideScalar, Vec3.crossVectors, predDt, BALL_RADIUS]

end Refinement

/-! ## Launch state -/

section Launch

variable {K : Type} [LinearOrderedField K]

lemma IsSqrt.sqrt_mul_self_eq_abs {sqrt : K → K} (hs : IsSqrt sqrt) (a : K) :
    sqrt (a * a) = |a| := by
  obtain ⟨h0, h1⟩ := hs (a * a) (mul_self_nonneg a)
  have h2 : |a| * |a| = a * a := abs_mul_abs_self a
  exact (mul_self_inj h0 (abs_nonneg a)).mp (by rw [h1, h2])

lemma IsSqrt.sqrt_zero {sqrt : K → K} (hs : IsSqrt sqrt) : sqrt 0 = 0 := by
  have h := hs.sqrt_mul_self_eq_abs 0
  simpa using h

lemma IsSqrt.sqrt_ne_zero {sqrt : K → K} (hs : IsSqrt sqrt) {x : K} (hx : 0 < x) :
    sqrt x ≠ 0 := by
  intro h
  have h1 := (hs x (le_of_lt hx)).2
  rw [h, mul_zero] at h1
  exact absurd h1.symm (ne_of_gt hx)

lemma real_isSqrt : IsSqrt Real.sqrt :=
  fun x hx => ⟨Real.sqrt_nonneg x, Real.mul_self_sqrt hx⟩

lemma launch_lengthSq_pos (ui : Inputs K) (start : Vec3 K) (hz : start.z = 25) :
    0 < (Vec3.subVectors ⟨ui.targetX, ui.targetY, GOAL_Z⟩ start).lengthSq := by
  simp only [Vec3.lengthSq, Vec3.subVectors, GOAL_Z, hz]
  nlinarith [mul_self_nonneg (ui.targetX - start.x), mul_self_nonneg (ui.targetY - start.y)]

lemma lengthSq_scaled (d : Vec3 K) (l c : K) (hl : l ≠ 0) (hsq : l * l = d.lengthSq) :
    ((d.divideScalar l).multiplyScalar c).lengthSq = c * c := by
  simp only [Vec3.lengthSq, Vec3.divideScalar, Vec3.multiplyScalar] at hsq ⊢
  field_simp
  rw [hsq]
  ring

/-- C12: for every target, speed and spin, and a start position with `z = 25`
(each of the three presets), `target - start` is not zero and has non-zero
length, `shootBall` sets `velocity = speed * (target - start) / |target - start|`
with `|velocity| = |speed|` and `angularVelocity = (10, -spin, 0)`, and the
predictor (when it runs) samples its loop from the start position with these
two vectors as `simVel` and `simAngVel`. -/
theorem launch_state (sqrt : K → K) (hs : IsSqrt sqrt) (ui : Inputs K) (s : Game K)
    (hidle : s.isFlying = false) (hz : s.startPos.z = 25) :
    Vec3.subVectors ⟨ui.targetX, ui.targetY, GOAL_Z⟩ s.startPos ≠ ⟨0, 0, 0⟩ ∧
      (Vec3.subVectors ⟨ui.targetX, ui.targetY, GOAL_Z⟩ s.startPos).length sqrt ≠ 0 ∧
      (shootBall sqrt ui s).velocity
        = ((Vec3.subVectors ⟨ui.targetX, ui.targetY, GOAL_Z⟩ s.startPos).divideScalar
            ((Vec3.subVectors ⟨ui.targetX, ui.targetY, GOAL_Z⟩ s.startPos).length sqrt)).multiplyScalar
            ui.speed ∧
      (shootBall sqrt ui s).velocity.length sqrt = |ui.speed| ∧
      (shootBall sqrt ui s).angularVelocity = ⟨10, -ui.spin, 0⟩ ∧
      (s.aimAssistEnabled = true →
        (updatePredictionPath sqrt ui s).predPoints
          = (predLoop sqrt s.currentPlanet (shootBall sqrt ui s).angularVelocity (windVec ui) 50
              s.startPos (shootBall sqrt ui s).velocity []).1) := by
  obtain ⟨sv, sa, -⟩ := shootBall_of_idle sqrt ui s hidle
  have hpos := launch_lengthSq_pos ui s.startPos hz
  have hlen : (Vec3.subVectors ⟨ui.targetX, ui.targetY, GOAL_Z⟩ s.startPos).length sqrt ≠ 0 :=
    hs.sqrt_ne_zero hpos
  have hsq := (hs _ (le_of_lt hpos)).2
  have hv : launchVelocity sqrt ui s.startPos
      = ((Vec3.subVectors ⟨ui.targetX, ui.targetY, GOAL_Z⟩ s.startPos).divideScalar
          ((Vec3.subVectors ⟨ui.targetX, ui.targetY, GOAL_Z⟩ s.startPos).length sqrt)).multiplyScalar
          ui.speed := by
    unfold launchVelocity Vec3.normalize
    rw [if_neg hlen]
  refine ⟨?_, hlen, by rw [sv, hv], ?_, by rw [sa]; rfl, ?_⟩
  · intro h0
    have hz0 := congrArg Vec3.z h0
    simp only [Vec3.subVectors, GOAL_Z, hz] at hz0
    norm_num at hz0
  · rw [sv, hv]
    have hl := lengthSq_scaled (Vec3.subVectors ⟨ui.targetX, ui.targetY, GOAL_Z⟩ s.startPos)
      ((Vec3.subVectors ⟨ui.targetX, ui.targetY, GOAL_Z⟩ s.startPos).length sqrt) ui.speed
      hlen hsq
    change sqrt (Vec3.lengthSq _) = _
    rw [hl]
    exact hs.sqrt_mul_self_eq_abs ui.speed
  · intro haim
    unfold updatePredictionPath
    rw [if_neg (by simp [haim, hidle]), sv, sa]

/-- C12 on a concrete state: a shot with speed 73 from the centre preset. -/
theorem launch_state_witness :
    (shootBall Real.sqrt highInputs (readySample : Game ℝ)).velocity.length Real.sqrt = |73| ∧
      (shootBall Real.sqrt highInputs (readySample : Game ℝ)).angularVelocity = ⟨10, -0, 0⟩ ∧
      (updatePredictionPath Real.sqrt highInputs (readySample : Game ℝ)).predPoints
        = (predLoop Real.sqrt (readySample : Game ℝ).currentPlanet
            (shootBall Real.sqrt highInputs (readySample : Game ℝ)).angularVelocity
            (windVec highInputs) 50 (readySample : Game ℝ).startPos
            (shootBall Real.sqrt highInputs (readySample : Game ℝ)).velocity []).1 :=
  have h := launch_state Real.sqrt real_isSqrt highInputs (readySample : Game ℝ) rfl rfl
  ⟨h.2.2.2.1, h.2.2.2.2.1, h.2.2.2.2.2 rfl⟩

end Launch

/-! ## Velocity of a ball that is not flying -/

section Idle

variable {K : Type} [LinearOrderedField K]

lemma groundContact_stop (sqrt : K → K) (dt : K) (p v : Vec3 K)
    (h : (groundContact sqrt dt p v true).2.2 = false) :
    (groundContact sqrt dt p v true).2.1 = ⟨0, 0, 0⟩ := by
  unfold groundContact at h ⊢
  by_cases h1 : p.y ≤ BALL_RADIUS
  · simp only [h1, if_true] at h ⊢
    by_cases h2 : v.y < -(6 / 10)
    · simp [h2] at h
    · simp only [h2, if_false] at h ⊢
      split_ifs at h ⊢
      rfl
  · simp [h1] at h

lemma updatePhysics_of_noball (sqrt : K → K) (ui : Inputs K) (dt : K) (s : Game K)
    (h : s.ballMesh.isSome = false) : updatePhysics sqrt ui dt s = s := by
  unfold updatePhysics
  cases hb : s.ballMesh with
  | none => simp
  | some b => rw [hb] at h; cases h

/-- One event keeps "not flying implies zero velocity", provided an
outright reset finds the ball not flying. -/
lemma idle_inv_step (sqrt : K → K) (op : Op K) (s : Game K)
    (hJ : s.isFlying = false → s.velocity = ⟨0, 0, 0⟩)
    (hr : op.isReset = true → s.isFlying = false)
    (hidle : (op.apply sqrt s).isFlying = false) :
    (op.apply sqrt s).velocity = ⟨0, 0, 0⟩ := by
  cases op with
  | updateKeeper dt =>
    simp only [Op.apply, updateKeeper_isFlying, updateKeeper_velocity] at hidle ⊢
    exact hJ hidle
  | updatePhysics ui dt =>
    simp only [Op.apply] at hidle ⊢
    cases hf : s.isFlying with
    | false =>
      rw [updatePhysics_of_idle sqrt ui dt s (Or.inl hf)]
      exact hJ hf
    | true =>
      cases he : s.gameEnded with
      | true =>
        rw [updatePhysics_of_idle sqrt ui dt s (Or.inr he)] at hidle
        rw [hf] at hidle
        cases hidle
      | false =>
        cases hb : s.ballMesh.isSome with
        | false =>
          rw [updatePhysics_of_noball sqrt ui dt s hb] at hidle
          rw [hf] at hidle
          cases hidle
        | true =>
          rw [updatePhysics_of_run sqrt ui dt s hf hb he] at hidle ⊢
          simp only at hidle ⊢
          have hg : (groundStage sqrt ui dt s).2.1 = ⟨0, 0, 0⟩ := by
            unfold groundStage at hidle ⊢
            rw [hf] at hidle ⊢
            exact groundContact_stop sqrt dt _ _ hidle
          rw [hg, postPass_zero, keeperPass_zero]
  | updatePredictionPath ui =>
    simp only [Op.apply, updatePredictionPath_isFlying, updatePredictionPath_velocity] at hidle ⊢
    exact hJ hidle
  | shootBall ui =>
    simp only [Op.apply] at hidle ⊢
    cases hf : s.isFlying with
    | false =>
      rw [(shootBall_of_idle sqrt ui s hf).2.2.1] at hidle
      cases hidle
    | true =>
      unfold shootBall at hidle
      rw [if_pos hf, hf] at hidle
      cases hidle
  | resetBall ui =>
    simp only [Op.apply, resetBall_velocity]
    exact hJ (hr rfl)
  | setStartPos ui type =>
    obtain ⟨p, -, heq⟩ := setStartPos_eq sqrt ui type s
    simp only [Op.apply, heq, resetBall_velocity]
    exact hJ (hr rfl)
  | toggleAimAssist ui =>
    simp only [Op.apply, toggleAimAssist] at hidle ⊢
    split_ifs at hidle ⊢
    · simp only [updatePredictionPath_isFlying, updatePredictionPath_velocity] at hidle ⊢
      exact hJ hidle
    · exact hJ hidle
  | selectPlanet ui val =>
    simp only [Op.apply, selectPlanet, updatePredictionPath_isFlying,
      updatePredictionPath_velocity] at hidle ⊢
    exact hJ hidle
  | loadGoal => exact hJ hidle
  | loadKeeper => exact hJ hidle
  | loadBall ui =>
    simp only [Op.apply, loadBall, resetBall_velocity]
    exact hJ (hr rfl)

lemma idle_inv_run (sqrt : K → K) (ops : List (Op K)) (s : Game K)
    (hJ : s.isFlying = false → s.velocity = ⟨0, 0, 0⟩)
    (hr : resetsAtRest sqrt ops s = true)
    (hidle : (run sqrt ops s).isFlying = false) :
    (run sqrt ops s).velocity = ⟨0, 0, 0⟩ := by
  induction ops generalizing s with
  | nil => exact hJ hidle
  | cons op ops ih =>
    simp only [resetsAtRest, Bool.and_eq_true, Bool.or_eq_true, Bool.not_eq_true'] at hr
    have hr1 : op.isReset = true → s.isFlying = false := by
      intro h
      rcases hr.1 with h1 | h1
      · rw [h] at h1; cases h1
      · exact h1
    exact ih (op.apply sqrt s) (idle_inv_step sqrt op s hJ hr1) hr.2 hidle

/-- C13 (amended): in every state reached from the initial state by a
sequence of events in which every outright reset (`resetBall`, `setStartPos`,
the ball load callback) finds the ball not flying, `isFlying == false`
implies that the velocity is `(0,0,0)`, so the horizontal speed
`sqrt(vx^2 + vz^2)` is below 0.1. -/
theorem idle_implies_stopped (sqrt : K → K) (hs : IsSqrt sqrt) (ops : List (Op K))
    (hr : resetsAtRest sqrt ops (init : Game K) = true)
    (hidle : (run sqrt ops (init : Game K)).isFlying = false) :
    (run sqrt ops (init : Game K)).velocity = ⟨0, 0, 0⟩ ∧
      sqrt ((run sqrt ops (init : Game K)).velocity.x * (run sqrt ops (init : Game K)).velocity.x
        + (run sqrt ops (init : Game K)).velocity.z * (run sqrt ops (init : Game K)).velocity.z)
        < 1 / 10 := by
  have hv := idle_inv_run sqrt ops (init : Game K) (fun _ => rfl) hr hidle
  refine ⟨hv, ?_⟩
  rw [hv]
  simp only [mul_zero, add_zero, hs.sqrt_zero]
  norm_num

lemma earth_shot (ui : Inputs ℝ) :
    (shootBall Real.sqrt ui (loadBall Real.sqrt ui (init : Game ℝ))).position
        = ⟨0, BALL_RADIUS, 25⟩ ∧
      (shootBall Real.sqrt ui (loadBall Real.sqrt ui (init : Game ℝ))).velocity
        = launchVelocity Real.sqrt ui ⟨0, BALL_RADIUS, 25⟩ ∧
      (shootBall Real.sqrt ui (loadBall Real.sqrt ui (init : Game ℝ))).angularVelocity
        = launchSpin ui ∧
      (shootBall Real.sqrt ui (loadBall Real.sqrt ui (init : Game ℝ))).currentPlanet
        = planets.earth ∧
      (shootBall Real.sqrt ui (loadBall Real.sqrt ui (init : Game ℝ))).isFlying = true ∧
      (shootBall Real.sqrt ui (loadBall Real.sqrt ui (init : Game ℝ))).ballMesh.isSome = true ∧
      (shootBall Real.sqrt ui (loadBall Real.sqrt ui (init : Game ℝ))).gameEnded = false := by
  have hl : (loadBall Real.sqrt ui (init : Game ℝ)).isFlying = false := by simp [loadBall]
  have hstart : (loadBall Real.sqrt ui (init : Game ℝ)).startPos = ⟨0, BALL_RADIUS, 25⟩ := by
    simp [loadBall, init]
  have hmesh : (loadBall Real.sqrt ui (init : Game ℝ)).ballMesh.isSome = true := by
    unfold loadBall resetBall
    simp
  have hplanet : (loadBall Real.sqrt ui (init : Game ℝ)).currentPlanet = planets.earth := by
    unfold loadBall resetBall
    simp [init]
  obtain ⟨sv, sa, sf, se, sp, sc, sb, -⟩ :=
    shootBall_of_idle Real.sqrt ui (loadBall Real.sqrt ui (init : Game ℝ)) hl
  rw [hmesh, if_pos rfl, hstart] at sp
  rw [hstart] at sv
  rw [hplanet] at sc
  rw [hmesh] at sb
  exact ⟨sp, sv, sa, sc, sf, sb, se⟩

/-- C13 as stated fails: after the ball has loaded, a shot of speed 20 that
is reset at once leaves `isFlying = false` with velocity `(0, 0, -20)`, whose
horizontal speed is not below 0.1. -/
theorem idle_with_velocity :
    (run Real.sqrt [Op.loadBall lowInputs, Op.shootBall lowInputs, Op.resetBall lowInputs]
        (init : Game ℝ)).isFlying = false ∧
      (run Real.sqrt [Op.loadBall lowInputs, Op.shootBall lowInputs, Op.resetBall lowInputs]
        (init : Game ℝ)).velocity = ⟨0, 0, -20⟩ ∧
      ¬ Real.sqrt ((0 : ℝ) * 0 + (-20) * (-20)) < 1 / 10 := by
  refine ⟨?_, ?_, ?_⟩
  · simp [run, Op.apply]
  · simp only [run, List.foldl_cons, List.foldl_nil, Op.apply, resetBall_velocity]
    rw [(earth_shot lowInputs).2.1, low_launchVelocity]
  · rw [Real.sqrt_lt' (by norm_num)]
    norm_num

lemma earth_slow_stop :
    (groundStage Real.sqrt slowInputs predDt
      (shootBall Real.sqrt slowInputs (loadBall Real.sqrt slowInputs (init : Game ℝ)))).2.2
      = false := by
  obtain ⟨hp, hv, ha, hc, hf, -⟩ := earth_shot slowInputs
  have h1 : integrateVelocity (⟨0, 0, -(1 / 10)⟩ : Vec3 ℝ) (launchSpin slowInputs) planets.earth
      (windVec slowInputs) predDt = ⟨0, -(551 / 1125), -(1 / 10)⟩ := by
    norm_num [integrateVelocity, calculateAcceleration, F_gravity, F_magnus, F_wind, mass,
      windVec, slowInputs, launchSpin, planets.earth, Vec3.add, Vec3.multiplyScalar,
      Vec3.divideScalar, Vec3.crossVectors, predDt]
  have h2 : integratePosition (⟨0, BALL_RADIUS, 25⟩ : Vec3 ℝ) ⟨0, -(551 / 1125), -(1 / 10)⟩ predDt
      = ⟨0, 1831 / 5625, 4999 / 200⟩ := by
    norm_num [integratePosition, Vec3.add, Vec3.multiplyScalar, predDt, BALL_RADIUS]
  unfold groundStage tentativePos steppedVelocity
  rw [hp, hv, ha, hc, hf, slow_launchVelocity, h1, h2]
  unfold groundContact
  rw [if_pos (by norm_num [BALL_RADIUS]), if_neg (by norm_num)]
  dsimp only
  rw [if_pos]
  rw [Real.sqrt_lt' (by norm_num)]
  norm_num [predDt]

/-- C13 (amended) on a concrete run: the ball loads, a shot of speed 0.1 is
fired on Earth and the first frame stops it. -/
theorem idle_implies_stopped_witness :
    (run Real.sqrt [Op.loadBall slowInputs, Op.shootBall slowInputs,
        Op.updatePhysics slowInputs predDt] (init : Game ℝ)).isFlying = false ∧
      (run Real.sqrt [Op.loadBall slowInputs, Op.shootBall slowInputs,
        Op.updatePhysics slowInputs predDt] (init : Game ℝ)).velocity = ⟨0, 0, 0⟩ := by
  have hidle : (run Real.sqrt [Op.loadBall slowInputs, Op.shootBall slowInputs,
      Op.updatePhysics slowInputs predDt] (init : Game ℝ)).isFlying = false := by
    obtain ⟨-, -, -, -, hf, hb, he⟩ := earth_shot slowInputs
    simp only [run, List.foldl_cons, List.foldl_nil, Op.apply]
    rw [(updatePhysics_position Real.sqrt slowInputs predDt _ hf hb he).2.1]
    exact earth_slow_stop
  exact ⟨hidle, (idle_implies_stopped Real.sqrt real_isSqrt _
    (by simp [resetsAtRest, Op.isReset, init]) hidle).1⟩

end Idle

/-! ## No lateral curve without spin and wind -/

section Straight

variable {K : Type} [LinearOrderedField K]

lemma postPass_x_zero (cs : List (Box3 K)) (c : Vec3 K) (acc : Vec3 K × Status)
    (h : acc.1.x = 0) : (postPass cs c acc).1.x = 0 := by
  induction cs generalizing acc with
  | nil => exact h
  | cons b cs ih =>
    rw [postPass_cons]
    apply ih
    unfold postHit
    split_ifs
    · simp [h]
    · exact h

lemma keeperPass_x (km : Option (Vec3 K)) (c : Vec3 K) (acc : Vec3 K × Bool × Status) :
    (keeperPass km c acc).1.x = acc.1.x := by
  unfold keeperPass
  cases km with
  | none => rfl
  | some kPos =>
    dsimp only
    split_ifs <;> rfl

lemma accel_x_zero (v a : Vec3 K) (planet : Planet K) (ui : Inputs K)
    (hy : a.y = 0) (hz : a.z = 0) (hw : ui.windSpeed = 0) :
    (calculateAcceleration v a planet (windVec ui)).x = 0 := by
  simp [calculateAcceleration, F_gravity, F_magnus, F_wind, windVec, Vec3.add,
    Vec3.multiplyScalar, Vec3.divideScalar, Vec3.crossVectors, hy, hz, hw]

lemma integrate_x_zero (p v a : Vec3 K) (planet : Planet K) (ui : Inputs K) (dt : K)
    (hp : p.x = 0) (hv : v.x = 0) (hy : a.y = 0) (hz : a.z = 0) (hw : ui.windSpeed = 0) :
    (integrateVelocity v a planet (windVec ui) dt).x = 0 ∧
      (integratePosition p (integrateVelocity v a planet (windVec ui) dt) dt).x = 0 := by
  have h1 : (integrateVelocity v a planet (windVec ui) dt).x = 0 := by
    simp only [integrateVelocity, Vec3.add, Vec3.multiplyScalar,
      accel_x_zero v a planet ui hy hz hw, hv]
    ring
  refine ⟨h1, ?_⟩
  simp only [integratePosition, Vec3.add, Vec3.multiplyScalar, h1, hp]
  ring

lemma groundContact_x_zero (sqrt : K → K) (dt : K) (p v : Vec3 K) (f : Bool)
    (hp : p.x = 0) (hv : v.x = 0) :
    (groundContact sqrt dt p v f).1.x = 0 ∧ (groundContact sqrt dt p v f).2.1.x = 0 := by
  unfold groundContact
  by_cases h1 : p.y ≤ BALL_RADIUS
  · simp only [h1, if_true]
    by_cases h2 : v.y < -(6 / 10)
    · simp [h2, hp, hv]
    · simp only [h2, if_false]
      split_ifs <;> simp [hp, hv]
  · simp [h1, hp, hv]

lemma predGroundContact_x_zero (sqrt : K → K) (p v : Vec3 K) (hp : p.x = 0) (hv : v.x = 0) :
    (predGroundContact sqrt p v).1.x = 0 ∧ (predGroundContact sqrt p v).2.1.x = 0 := by
  unfold predGroundContact
  split_ifs <;> simp [hp, hv]

/-- One event of a flight in still air keeps the ball in the plane `x = 0`. -/
lemma straight_step (sqrt : K → K) (op : Op K) (hop : op.calmTick = true) (s : Game K)
    (h : s.velocity.x = 0 ∧ s.position.x = 0 ∧ s.angularVelocity.y = 0 ∧
      s.angularVelocity.z = 0) :
    (op.apply sqrt s).velocity.x = 0 ∧ (op.apply sqrt s).position.x = 0 ∧
      (op.apply sqrt s).angularVelocity.y = 0 ∧ (op.apply sqrt s).angularVelocity.z = 0 := by
  obtain ⟨hv, hp, hy, hz⟩ := h
  cases op with
  | updateKeeper dt => simpa [Op.apply] using ⟨hv, hp, hy, hz⟩
  | updatePhysics ui dt =>
    have hw : ui.windSpeed = 0 := by simpa [Op.calmTick] using hop
    have hi := integrate_x_zero s.position s.velocity s.angularVelocity s.currentPlanet ui dt
      hp hv hy hz hw
    have hg := groundContact_x_zero sqrt dt (tentativePos ui dt s) (steppedVelocity ui dt s)
      s.isFlying hi.2 hi.1
    simp only [Op.apply]
    unfold updatePhysics
    split
    · exact ⟨hv, hp, hy, hz⟩
    · dsimp only
      refine ⟨?_, hg.1, hy, hz⟩
      rw [keeperPass_x]
      exact postPass_x_zero _ _ _ hg.2
  | updatePredictionPath ui => cases hop
  | shootBall ui => cases hop
  | resetBall ui => cases hop
  | setStartPos ui type => cases hop
  | toggleAimAssist ui => cases hop
  | selectPlanet ui val => simpa [Op.apply, selectPlanet] using ⟨hv, hp, hy, hz⟩
  | loadGoal => cases hop
  | loadKeeper => cases hop
  | loadBall ui => cases hop

lemma straight_run (sqrt : K → K) (ops : List (Op K)) (hops : ∀ op ∈ ops, op.calmTick = true)
    (s : Game K)
    (h : s.velocity.x = 0 ∧ s.position.x = 0 ∧ s.angularVelocity.y = 0 ∧
      s.angularVelocity.z = 0) :
    (run sqrt ops s).velocity.x = 0 ∧ (run sqrt ops s).position.x = 0 ∧
      (run sqrt ops s).angularVelocity.y = 0 ∧ (run sqrt ops s).angularVelocity.z = 0 := by
  induction ops generalizing s with
  | nil => exact h
  | cons op ops ih =>
    exact ih (fun o ho => hops o (List.mem_cons_of_mem _ ho)) _
      (straight_step sqrt op (hops op (List.mem_cons_self _ _)) s h)

lemma predPath_x_zero (sqrt : K → K) (planet : Planet K) (a : Vec3 K) (ui : Inputs K)
    (hy : a.y = 0) (hz : a.z = 0) (hw : ui.windSpeed = 0) (n : Nat) :
    ∀ p v : Vec3 K, p.x = 0 → v.x = 0 →
      ∀ q ∈ (predPath sqrt planet a (windVec ui) n p v).1, q.x = 0 := by
  induction n with
  | zero =>
    intro p v _ _ q hq
    simp [predPath] at hq
  | succ n ih =>
    intro p v hp hv q hq
    have hi := integrate_x_zero p v a planet ui predDt hp hv hy hz hw
    have hg := predGroundContact_x_zero sqrt _ _ hi.2 hi.1
    rw [predPath_succ] at hq
    split_ifs at hq
    · simp only [List.mem_singleton] at hq
      rw [hq]; exact hp
    · simp only [List.mem_cons] at hq
      rcases hq with hq | hq
      · rw [hq]; exact hp
      · exact ih _ _ hg.1 hg.2 q hq

lemma launch_x_zero (sqrt : K → K) (ui : Inputs K) (start : Vec3 K)
    (htx : ui.targetX = 0) (hsx : start.x = 0) : (launchVelocity sqrt ui start).x = 0 := by
  simp [launchVelocity, Vec3.normalize, Vec3.divideScalar, Vec3.multiplyScalar,
    Vec3.subVectors, htx, hsx]

/-- C14: with spin 0, wind speed 0, a start position with `x = 0` and
`targetX = 0`, after `shootBall` and any sequence of keeper moves, physics
steps (any `dt`, any wind direction, wind speed 0) and planet changes, the
live ball has `velocity.x = 0` and `position.x = 0`, the x-component of the
acceleration is 0 on every planet, and every point of the predictor's
polyline has `x = 0`. -/
theorem no_lateral_curve (sqrt : K → K) (ui : Inputs K) (s : Game K) (ops : List (Op K))
    (hidle : s.isFlying = false) (hball : s.ballMesh.isSome = true)
    (hspin : ui.spin = 0) (hwind : ui.windSpeed = 0) (htx : ui.targetX = 0)
    (hsx : s.startPos.x = 0) (hops : ∀ op ∈ ops, op.calmTick = true) :
    (run sqrt ops (shootBall sqrt ui s)).velocity.x = 0 ∧
      (run sqrt ops (shootBall sqrt ui s)).position.x = 0 ∧
      (∀ planet : Planet K,
        (calculateAcceleration (run sqrt ops (shootBall sqrt ui s)).velocity
          (run sqrt ops (shootBall sqrt ui s)).angularVelocity planet (windVec ui)).x = 0) ∧
      (s.aimAssistEnabled = true →
        ∀ k p, pointAt (updatePredictionPath sqrt ui s).predPoints k = some p → p.x = 0) := by
  obtain ⟨sv, sa, -, -, sp, -⟩ := shootBall_of_idle sqrt ui s hidle
  rw [hball, if_pos rfl] at sp
  have hspin0 : (launchSpin ui).y = 0 ∧ (launchSpin ui).z = 0 := by
    simp [launchSpin, hspin]
  have h0 : (shootBall sqrt ui s).velocity.x = 0 ∧ (shootBall sqrt ui s).position.x = 0 ∧
      (shootBall sqrt ui s).angularVelocity.y = 0 ∧
      (shootBall sqrt ui s).angularVelocity.z = 0 := by
    rw [sv, sp, sa]
    exact ⟨launch_x_zero sqrt ui s.startPos htx hsx, hsx, hspin0.1, hspin0.2⟩
  obtain ⟨rv, rp, ry, rz⟩ := straight_run sqrt ops hops _ h0
  refine ⟨rv, rp, fun planet => accel_x_zero _ _ planet ui ry rz hwind, ?_⟩
  intro haim k p hk
  rw [updatePredictionPath_predPoints sqrt ui s haim hidle, pointAt_flatten3] at hk
  exact predPath_x_zero sqrt s.currentPlanet (launchSpin ui) ui hspin0.1 hspin0.2 hwind 50
    s.startPos (launchVelocity sqrt ui s.startPos) hsx (launch_x_zero sqrt ui s.startPos htx hsx)
    p (List.getElem?_mem hk)

/-- C14 on a concrete run: the shot of Scenario A (speed 20, spin 0, target
(0, 2), no wind, Earth) from the centre preset, followed by two frames. -/
theorem no_lateral_curve_witness :
    (run Real.sqrt [Op.updateKeeper (1 / 60), Op.updatePhysics calmInputs (1 / 60),
        Op.updateKeeper (1 / 30), Op.updatePhysics calmInputs (1 / 30)]
        (shootBall Real.sqrt calmInputs
          ({ (readySample : Game ℝ) with currentPlanet := planets.earth }))).position.x = 0 ∧
      ∀ k p, pointAt (updatePredictionPath Real.sqrt calmInputs
          ({ (readySample : Game ℝ) with currentPlanet := planets.earth })).predPoints k
        = some p → p.x = 0 :=
  have h := no_lateral_curve Real.sqrt calmInputs
    ({ (readySample : Game ℝ) with currentPlanet := planets.earth })
    [Op.updateKeeper (1 / 60), Op.updatePhysics calmInputs (1 / 60),
      Op.updateKeeper (1 / 30), Op.updatePhysics calmInputs (1 / 30)]
    rfl rfl rfl rfl rfl rfl (by simp [Op.calmTick, calmInputs])
  ⟨h.2.1, h.2.2.2 rfl⟩

end Straight

/-! ## Keeper patrol and reset -/

section KeeperReset

variable {K : Type} [LinearOrderedField K]

/-- C15: an `updateKeeper(dt)` call that runs (keeper loaded, round not ended)
leaves, for every `dt` and every prior keeper `x`, the keeper's `x` in
`[-5.5, 5.5]` and `keeperDir` equal to +1 or -1 (given it was +1 or -1 before):
-1 when the move was clamped at +5.5, +1 when it was clamped at -5.5; the
keeper's `y` and `z` are unchanged. -/
theorem keeper_bounded (dt : K) (s : Game K) (kPos : Vec3 K)
    (hk : s.keeperMesh = some kPos) (hend : s.gameEnded = false)
    (hdir : s.keeperDir = 1 ∨ s.keeperDir = -1) :
    ∃ kPos2 : Vec3 K, (updateKeeper dt s).keeperMesh = some kPos2 ∧
      -KEEPER_LIMIT ≤ kPos2.x ∧ kPos2.x ≤ KEEPER_LIMIT ∧
      kPos2.y = kPos.y ∧ kPos2.z = kPos.z ∧
      ((updateKeeper dt s).keeperDir = 1 ∨ (updateKeeper dt s).keeperDir = -1) ∧
      (KEEPER_LIMIT < kPos.x + keeperSpeed * s.keeperDir * dt →
        kPos2.x = KEEPER_LIMIT ∧ (updateKeeper dt s).keeperDir = -1) ∧
      (kPos.x + keeperSpeed * s.keeperDir * dt < -KEEPER_LIMIT →
        kPos2.x = -KEEPER_LIMIT ∧ (updateKeeper dt s).keeperDir = 1) := by
  have hlim : (0 : K) < KEEPER_LIMIT := by unfold KEEPER_LIMIT; norm_num
  unfold updateKeeper
  rw [hk]
  simp only [hend, Bool.false_eq_true, if_false]
  by_cases h1 : kPos.x + keeperSpeed * s.keeperDir * dt > KEEPER_LIMIT
  · rw [if_pos h1]
    refine ⟨_, rfl, by simp only; linarith, le_refl _, rfl, rfl, Or.inr rfl,
      fun _ => ⟨rfl, rfl⟩, fun h2 => ?_⟩
    exfalso; linarith
  · rw [if_neg h1]
    by_cases h2 : kPos.x + keeperSpeed * s.keeperDir * dt < -KEEPER_LIMIT
    · rw [if_pos h2]
      exact ⟨_, rfl, le_refl _, by simp only; linarith, rfl, rfl, Or.inl rfl,
        fun h3 => absurd h3 h1, fun _ => ⟨rfl, rfl⟩⟩
    · rw [if_neg h2]
      exact ⟨_, rfl, not_lt.mp h2, not_lt.mp h1, rfl, rfl, hdir,
        fun h3 => absurd h3 h1, fun h3 => absurd h3 h2⟩

/-- C15 on a concrete call: a keeper at `x = 0` moving right, with a frame so
long that the move is clamped at the right limit. -/
theorem keeper_bounded_witness :
    ∃ kPos2 : Vec3 ℝ, (updateKeeper 2 (rollingSample : Game ℝ)).keeperMesh = some kPos2 ∧
      -KEEPER_LIMIT ≤ kPos2.x ∧ kPos2.x ≤ KEEPER_LIMIT ∧
      ((updateKeeper 2 (rollingSample : Game ℝ)).keeperDir = 1 ∨
        (updateKeeper 2 (rollingSample : Game ℝ)).keeperDir = -1) :=
  have h := keeper_bounded 2 (rollingSample : Game ℝ) ⟨0, 0, GOAL_Z + 15 / 10⟩ rfl rfl
    (Or.inl rfl)
  h.elim fun kPos2 hk => ⟨kPos2, hk.1, hk.2.1, hk.2.2.1, hk.2.2.2.2.2.1⟩

lemma resetBall_idem (sqrt : K → K) (ui : Inputs K) (s : Game K) :
    resetBall sqrt ui (resetBall sqrt ui s) = resetBall sqrt ui s := by
  unfold resetBall updatePredictionPath
  cases hb : s.ballMesh <;> cases ha : s.aimAssistEnabled <;> simp [hb, ha]

@[simp] lemma resetBall_angularVelocity (sqrt : K → K) (ui : Inputs K) (s : Game K) :
    (resetBall sqrt ui s).angularVelocity = s.angularVelocity := by
  unfold resetBall; cases s.ballMesh <;> simp

@[simp] lemma resetBall_trailPoints (sqrt : K → K) (ui : Inputs K) (s : Game K) :
    (resetBall sqrt ui s).trailPoints = [] := by
  unfold resetBall; cases s.ballMesh <;> simp

lemma resetBall_ballMesh_isSome (sqrt : K → K) (ui : Inputs K) (s : Game K) :
    (resetBall sqrt ui s).ballMesh.isSome = s.ballMesh.isSome := by
  unfold resetBall; cases s.ballMesh <;> simp

/-- C17: from every state, `resetBall` called twice in a row (with the same
control values) yields the same state as called once, and (also when the
control values changed in between) the same position, velocity, angular
velocity, `isFlying`, `gameEnded`, trail and start position; after a reset
with the ball loaded, `isFlying = false`, `gameEnded = false`,
`position = startPos` and the trail is empty. -/
theorem reset_idempotent (sqrt : K → K) (ui ui2 : Inputs K) (s : Game K) :
    resetBall sqrt ui (resetBall sqrt ui s) = resetBall sqrt ui s ∧
      (resetBall sqrt ui2 (resetBall sqrt ui s)).position = (resetBall sqrt ui s).position ∧
      (resetBall sqrt ui2 (resetBall sqrt ui s)).velocity = (resetBall sqrt ui s).velocity ∧
      (resetBall sqrt ui2 (resetBall sqrt ui s)).angularVelocity
        = (resetBall sqrt ui s).angularVelocity ∧
      (resetBall sqrt ui2 (resetBall sqrt ui s)).isFlying = (resetBall sqrt ui s).isFlying ∧
      (resetBall sqrt ui2 (resetBall sqrt ui s)).gameEnded = (resetBall sqrt ui s).gameEnded ∧
      (resetBall sqrt ui2 (resetBall sqrt ui s)).trailPoints
        = (resetBall sqrt ui s).trailPoints ∧
      (resetBall sqrt ui2 (resetBall sqrt ui s)).startPos = (resetBall sqrt ui s).startPos ∧
      (s.ballMesh.isSome = true →
        (resetBall sqrt ui s).isFlying = false ∧ (resetBall sqrt ui s).gameEnded = false ∧
        (resetBall sqrt ui s).position = (resetBall sqrt ui s).startPos ∧
        (resetBall sqrt ui s).trailPoints = []) := by
  refine ⟨resetBall_idem sqrt ui s, ?_, by simp, by simp, by simp, by simp, by simp, by simp, ?_⟩
  · rw [resetBall_position sqrt ui2, resetBall_ballMesh_isSome, resetBall_startPos,
      resetBall_position sqrt ui]
    split_ifs <;> rfl
  · intro hb
    rw [resetBall_position sqrt ui, hb]
    simp

/-- C17 on a concrete state: resetting the ball in flight in front of the
goal, with the ball loaded. -/
theorem reset_idempotent_witness :
    resetBall Real.sqrt calmInputs (resetBall Real.sqrt calmInputs (goalSample : Game ℝ))
        = resetBall Real.sqrt calmInputs (goalSample : Game ℝ) ∧
      (resetBall Real.sqrt calmInputs (goalSample : Game ℝ)).isFlying = false ∧
      (resetBall Real.sqrt calmInputs (goalSample : Game ℝ)).position
        = (resetBall Real.sqrt calmInputs (goalSample : Game ℝ)).startPos :=
  have h := reset_idempotent Real.sqrt calmInputs calmInputs (goalSample : Game ℝ)
  ⟨h.1, (h.2.2.2.2.2.2.2.2 rfl).1, (h.2.2.2.2.2.2.2.2 rfl).2.2.1⟩

end KeeperReset

/-! ## Trail cap -/

section Trail

lemma lastN_append_lastN {α : Type} (n : Nat) (l r : List α) :
    lastN n (lastN n l ++ r) = lastN n (l ++ r) := by
  unfold lastN
  by_cases h : l.length ≤ n
  · have h0 : l.length - n = 0 := by omega
    rw [h0, List.drop_zero]
  · have hd : l.length - n ≤ l.length := Nat.sub_le _ _
    have hlen : (List.drop (l.length - n) l).length = n := by
      rw [List.length_drop]; omega
    have e1 : (List.drop (l.length - n) l ++ r).length - n = r.length := by
      rw [List.length_append, hlen]; omega
    have e2 : (l ++ r).length - n = (l.length - n) + r.length := by
      rw [List.length_append]; omega
    rw [e1, e2, ← List.drop_drop, List.drop_append_of_le_length hd]

lemma lastN_length_le {α : Type} (n : Nat) (l : List α) : (lastN n l).length ≤ n := by
  unfold lastN
  rw [List.length_drop]
  omega

lemma lastN_length {α : Type} (n : Nat) (l : List α) : (lastN n l).length = min l.length n := by
  unfold lastN
  rw [List.length_drop]
  omega

lemma lastN_of_le {α : Type} (n : Nat) (l : List α) (h : l.length ≤ n) : lastN n l = l := by
  unfold lastN
  have h0 : l.length - n = 0 := by omega
  rw [h0, List.drop_zero]

lemma flatten3_drop {K : Type} (l : List (Vec3 K)) :
    (flatten3 l).drop 3 = flatten3 (l.drop 1) := by
  cases l with
  | nil => rfl
  | cons p ps => rfl

lemma pushTrail_flatten3 {K : Type} (ps : List (Vec3 K)) (q : Vec3 K) (h : ps.length ≤ 200) :
    pushTrail (flatten3 ps) q = flatten3 (lastN 200 (ps ++ [q])) := by
  have hpush : flatten3 ps ++ [q.x, q.y, q.z] = flatten3 (ps ++ [q]) := by
    rw [flatten3_append]; rfl
  unfold pushTrail
  simp only [hpush, length_flatten3, List.length_append, List.length_singleton]
  split_ifs with hc
  · have h200 : ps.length = 200 := by omega
    rw [flatten3_drop]
    unfold lastN
    rw [List.length_append, List.length_singleton, h200]
  · rw [lastN_of_le]
    rw [List.length_append, List.length_singleton]
    omega

variable {K : Type} [LinearOrderedField K]

lemma updatePhysics_trail (sqrt : K → K) (ui : Inputs K) (dt : K) (s : Game K) :
    (updatePhysics sqrt ui dt s).trailPoints
      = if running s then pushTrail s.trailPoints (updatePhysics sqrt ui dt s).position
        else s.trailPoints := by
  unfold updatePhysics running
  cases s.isFlying <;> cases s.ballMesh <;> cases s.gameEnded <;> simp

/-- The trail after a run of frame events, from a trail of at most 200 points. -/
lemma trail_run (sqrt : K → K) (ops : List (Op K)) (hops : ∀ op ∈ ops, op.isTick = true)
    (s : Game K) (ps : List (Vec3 K)) (hps : ps.length ≤ 200)
    (ht : s.trailPoints = flatten3 ps) :
    (run sqrt ops s).trailPoints = flatten3 (lastN 200 (ps ++ committed sqrt ops s)) := by
  induction ops generalizing s ps with
  | nil =>
    simp only [run, List.foldl_nil, committed, List.append_nil]
    rw [lastN_of_le 200 ps hps, ht]
  | cons op ops ih =>
    have hrest : ∀ o ∈ ops, o.isTick = true := fun o ho => hops o (List.mem_cons_of_mem _ ho)
    have hop := hops op (List.mem_cons_self _ _)
    have hrun : run sqrt (op :: ops) s = run sqrt ops (op.apply sqrt s) := rfl
    rw [hrun]
    cases op with
    | updateKeeper dt =>
      have h := ih hrest (Op.apply sqrt (Op.updateKeeper dt) s) ps hps
        (by simp only [Op.apply, updateKeeper_trailPoints]; exact ht)
      simpa [committed] using h
    | updatePhysics ui dt =>
      cases hr : running s with
      | false =>
        have h := ih hrest (Op.apply sqrt (Op.updatePhysics ui dt) s) ps hps
          (by simp only [Op.apply, updatePhysics_trail, hr]; exact ht)
        simpa [committed, hr] using h
      | true =>
        have h := ih hrest (Op.apply sqrt (Op.updatePhysics ui dt) s)
          (lastN 200 (ps ++ [(updatePhysics sqrt ui dt s).position])) (lastN_length_le _ _)
          (by
            simp only [Op.apply, updatePhysics_trail, hr, if_true]
            rw [ht, pushTrail_flatten3 ps _ hps])
        rw [h, lastN_append_lastN]
        simp [committed, hr, Op.apply]
    | updatePredictionPath ui => cases hop
    | shootBall ui => cases hop
    | resetBall ui => cases hop
    | setStartPos ui type => cases hop
    | toggleAimAssist ui => cases hop
    | selectPlanet ui val => cases hop
    | loadGoal => cases hop
    | loadKeeper => cases hop
    | loadBall ui => cases hop

/-- C16: from a state with an empty trail (as `resetBall` leaves it), after a
sequence of frame events in which `n` `updatePhysics` steps were executed,
`trailPoints` is the flat array of the last `min(n, 200)` committed ball
positions in chronological order, so it has `3 * min(n, 200) ≤ 600` scalars:
beyond the cap the oldest points are the ones dropped. -/
theorem trail_cap (sqrt : K → K) (ops : List (Op K)) (s : Game K)
    (hops : ∀ op ∈ ops, op.isTick = true) (ht : s.trailPoints = []) :
    (run sqrt ops s).trailPoints = flatten3 (lastN 200 (committed sqrt ops s)) ∧
      (run sqrt ops s).trailPoints.length = 3 * min (committed sqrt ops s).length 200 ∧
      (run sqrt ops s).trailPoints.length ≤ 600 := by
  have h := trail_run sqrt ops hops s [] (by simp) (by rw [ht]; rfl)
  rw [List.nil_append] at h
  rw [h, length_flatten3, lastN_length]
  exact ⟨rfl, rfl, by omega⟩

/-- C16 on a concrete run: two frames of a ball rolling on Earth, the first
of which stops it, commit one position. -/
theorem trail_cap_witness :
    (run Real.sqrt [Op.updateKeeper (1 / 60), Op.updatePhysics calmInputs (1 / 60),
        Op.updateKeeper (1 / 60), Op.updatePhysics calmInputs (1 / 60)]
        (rollingSample : Game ℝ)).trailPoints
      = flatten3 (lastN 200 (committed Real.sqrt
          [Op.updateKeeper (1 / 60), Op.updatePhysics calmInputs (1 / 60),
            Op.updateKeeper (1 / 60), Op.updatePhysics calmInputs (1 / 60)]
          (rollingSample : Game ℝ))) ∧
      (run Real.sqrt [Op.updateKeeper (1 / 60), Op.updatePhysics calmInputs (1 / 60),
        Op.updateKeeper (1 / 60), Op.updatePhysics calmInputs (1 / 60)]
        (rollingSample : Game ℝ)).trailPoints.length ≤ 600 :=
  have h := trail_cap Real.sqrt [Op.updateKeeper (1 / 60), Op.updatePhysics calmInputs (1 / 60),
    Op.updateKeeper (1 / 60), Op.updatePhysics calmInputs (1 / 60)] (rollingSample : Game ℝ)
    (by simp [Op.isTick]) rfl
  ⟨h.1, h.2.2⟩

end Trail

/-! ## The predictor's ground rule and loop exit -/

section PredictorGround

variable {K : Type} [LinearOrderedField K]

lemma groundContactWith_live (sqrt : K → K) (dt : K) (p v : Vec3 K) (f : Bool) :
    groundContactWith (35 / 100) sqrt dt p v f = groundContact sqrt dt p v f := rfl

/-- C18 (amended): on a simulated state whose integrated position has
`y ≤ BALL_RADIUS`, the predictor's ground block gives the position of the
live ground block at `dt = 0.05` with 0.35 replaced by 2.5; it gives the same
velocity when the vertical velocity is not below -0.6 and the damped
horizontal speed is not below 0.1; when the damped horizontal speed is below
0.1 the predictor leaves its loop where the live block stops the ball. -/
theorem pred_ground_rule (sqrt : K → K) (p v : Vec3 K) (f : Bool)
    (hy : p.y ≤ BALL_RADIUS) :
    (predGroundContact sqrt p v).1 = (groundContactWith (25 / 10) sqrt predDt p v f).1 ∧
      (¬ v.y < -(6 / 10) → (predGroundContact sqrt p v).2.2 = false →
        (predGroundContact sqrt p v).2.1
          = (groundContactWith (25 / 10) sqrt predDt p v f).2.1) ∧
      (¬ v.y < -(6 / 10) → (predGroundContact sqrt p v).2.2 = true →
        (groundContactWith (25 / 10) sqrt predDt p v f).2 = (⟨0, 0, 0⟩, false)) := by
  unfold predGroundContact groundContactWith
  simp only [hy, if_true]
  refine ⟨?_, ?_, ?_⟩
  · split_ifs <;> rfl
  · intro h1 h2
    simp only [decide_eq_false_iff_not] at h2
    simp only [h1, if_false, h2]
  · intro h1 h2
    simp only [decide_eq_true_eq] at h2
    simp only [h1, if_false, h2, if_true]

/-- C18 (amended) on a concrete state: a ball landing softly with horizontal
speed 10. -/
theorem pred_ground_rule_witness :
    (predGroundContact Real.sqrt (⟨0, 3 / 10, 0⟩ : Vec3 ℝ) ⟨0, -(1 / 2), -10⟩).1
      = (groundContactWith (25 / 10) Real.sqrt predDt (⟨0, 3 / 10, 0⟩ : Vec3 ℝ)
          ⟨0, -(1 / 2), -10⟩ true).1 :=
  (pred_ground_rule Real.sqrt (⟨0, 3 / 10, 0⟩ : Vec3 ℝ) ⟨0, -(1 / 2), -10⟩ true
    (by norm_num [BALL_RADIUS])).1

/-- C18 as stated fails on a hard landing: with vertical velocity -5 the
live ground block (friction coefficient 2.5 in place of 0.35) bounces,
giving velocity `(0.9, 3, -9)`, while the predictor's block gives
`(0.875, 0, -8.75)`. -/
theorem pred_ground_rule_bounce :
    (⟨0, 2 / 10, 0⟩ : Vec3 ℝ).y ≤ BALL_RADIUS ∧
      (predGroundContact Real.sqrt (⟨0, 2 / 10, 0⟩ : Vec3 ℝ) ⟨1, -5, -10⟩).2.1
        = ⟨7 / 8, 0, -(35 / 4)⟩ ∧
      (groundContactWith (25 / 10) Real.sqrt predDt (⟨0, 2 / 10, 0⟩ : Vec3 ℝ) ⟨1, -5, -10⟩
        true).2.1 = ⟨9 / 10, 3, -9⟩ ∧
      (predGroundContact Real.sqrt (⟨0, 2 / 10, 0⟩ : Vec3 ℝ) ⟨1, -5, -10⟩).2.1
        ≠ (groundContactWith (25 / 10) Real.sqrt predDt (⟨0, 2 / 10, 0⟩ : Vec3 ℝ) ⟨1, -5, -10⟩
          true).2.1 := by
  have h1 : (predGroundContact Real.sqrt (⟨0, 2 / 10, 0⟩ : Vec3 ℝ) ⟨1, -5, -10⟩).2.1
      = ⟨7 / 8, 0, -(35 / 4)⟩ := by
    unfold predGroundContact
    rw [if_pos (by norm_num [BALL_RADIUS])]
    norm_num [predDt]
  have h2 : (groundContactWith (25 / 10) Real.sqrt predDt (⟨0, 2 / 10, 0⟩ : Vec3 ℝ)
      ⟨1, -5, -10⟩ true).2.1 = ⟨9 / 10, 3, -9⟩ := by
    unfold groundContactWith
    rw [if_pos (by norm_num [BALL_RADIUS]), if_pos (by norm_num)]
    norm_num
  refine ⟨by norm_num [BALL_RADIUS], h1, h2, ?_⟩
  rw [h1, h2]
  intro h
  have hx := congrArg Vec3.y h
  norm_num at hx

/-- C19 (amended): one iteration of the sampling loop records the current
point and then ends the loop exactly when the step carried the simulated
position to or below `BALL_RADIUS` and the horizontal speed after the
predictor's friction is below 0.1; otherwise the loop goes on from the
(clamped) position, so points are recorded after a ground step of a faster
ball.  The test `simPos.y <= 0` never fires. -/
theorem pred_loop_exit (sqrt : K → K) (planetData : Planet K) (a w : Vec3 K) (n : Nat)
    (p v : Vec3 K) (pts : List K) :
    (predLoop sqrt planetData a w (n + 1) p v pts
        = if (predGroundContact sqrt
              (integratePosition p (integrateVelocity v a planetData w predDt) predDt)
              (integrateVelocity v a planetData w predDt)).2.2 = true
          then (pts ++ [p.x, p.y, p.z],
            (predGroundContact sqrt
              (integratePosition p (integrateVelocity v a planetData w predDt) predDt)
              (integrateVelocity v a planetData w predDt)).2.1)
          else predLoop sqrt planetData a w n
            (predGroundContact sqrt
              (integratePosition p (integrateVelocity v a planetData w predDt) predDt)
              (integrateVelocity v a planetData w predDt)).1
            (predGroundContact sqrt
              (integratePosition p (integrateVelocity v a planetData w predDt) predDt)
              (integrateVelocity v a planetData w predDt)).2.1
            (pts ++ [p.x, p.y, p.z])) ∧
      ((predGroundContact sqrt
            (integratePosition p (integrateVelocity v a planetData w predDt) predDt)
            (integrateVelocity v a planetData w predDt)).2.2 = true ↔
        (integratePosition p (integrateVelocity v a planetData w predDt) predDt).y
            ≤ BALL_RADIUS ∧
          sqrt ((predGroundContact sqrt
              (integratePosition p (integrateVelocity v a planetData w predDt) predDt)
              (integrateVelocity v a planetData w predDt)).2.1.x *
            (predGroundContact sqrt
              (integratePosition p (integrateVelocity v a planetData w predDt) predDt)
              (integrateVelocity v a planetData w predDt)).2.1.x +
            (predGroundContact sqrt
              (integratePosition p (integrateVelocity v a planetData w predDt) predDt)
              (integrateVelocity v a planetData w predDt)).2.1.z *
            (predGroundContact sqrt
              (integratePosition p (integrateVelocity v a planetData w predDt) predDt)
              (integrateVelocity v a planetData w predDt)).2.1.z) < 1 / 10) := by
  constructor
  · simp only [predLoop, predGroundContact_fst_pos, if_false]
  · unfold predGroundContact
    split_ifs with h
    · simp [h]
    · simp [h]

lemma low_first_step :
    predGroundContact Real.sqrt
        (integratePosition (⟨0, BALL_RADIUS, 25⟩ : Vec3 ℝ)
          (integrateVelocity ⟨0, 0, -20⟩ (launchSpin lowInputs) planets.moon
            (windVec lowInputs) predDt) predDt)
        (integrateVelocity ⟨0, 0, -20⟩ (launchSpin lowInputs) planets.moon
          (windVec lowInputs) predDt)
      = (⟨0, BALL_RADIUS, 24⟩, ⟨0, 0, -(35 / 2)⟩, false) ∧
      (integratePosition (⟨0, BALL_RADIUS, 25⟩ : Vec3 ℝ)
          (integrateVelocity ⟨0, 0, -20⟩ (launchSpin lowInputs) planets.moon
            (windVec lowInputs) predDt) predDt).y ≤ BALL_RADIUS := by
  have hv : integrateVelocity (⟨0, 0, -20⟩ : Vec3 ℝ) (launchSpin lowInputs) planets.moon
      (windVec lowInputs) predDt = ⟨0, -(2 / 25), -20⟩ := by
    norm_num [integrateVelocity, calculateAcceleration, F_gravity, F_magnus, F_wind, mass,
      windVec, lowInputs, launchSpin, planets.moon, Vec3.add, Vec3.multiplyScalar,
      Vec3.divideScalar, Vec3.crossVectors, predDt]
  have hp : integratePosition (⟨0, BALL_RADIUS, 25⟩ : Vec3 ℝ) ⟨0, -(2 / 25), -20⟩ predDt
      = ⟨0, 173 / 500, 24⟩ := by
    norm_num [integratePosition, Vec3.add, Vec3.multiplyScalar, predDt, BALL_RADIUS]
  rw [hv, hp]
  refine ⟨?_, by norm_num [BALL_RADIUS]⟩
  unfold predGroundContact
  rw [if_pos (by norm_num [BALL_RADIUS])]
  simp only [Prod.mk.injEq, Vec3.mk.injEq, decide_eq_false_iff_not, true_and]
  refine ⟨by norm_num [predDt], ?_⟩
  rw [Real.sqrt_lt' (by norm_num)]
  norm_num [predDt]

lemma dive_step :
    predGroundContact Real.sqrt
        (integratePosition (⟨0, 4 / 10, 0⟩ : Vec3 ℝ)
          (integrateVelocity ⟨0, -10, -10⟩ (launchSpin lowInputs) planets.moon
            (windVec lowInputs) predDt) predDt)
        (integrateVelocity ⟨0, -10, -10⟩ (launchSpin lowInputs) planets.moon
          (windVec lowInputs) predDt)
      = (⟨0, BALL_RADIUS, -(1 / 2)⟩, ⟨0, 0, -(35 / 4)⟩, false) ∧
      (integratePosition (⟨0, 4 / 10, 0⟩ : Vec3 ℝ)
          (integrateVelocity ⟨0, -10, -10⟩ (launchSpin lowInputs) planets.moon
            (windVec lowInputs) predDt) predDt).y ≤ 0 := by
  have hv : integrateVelocity (⟨0, -10, -10⟩ : Vec3 ℝ) (launchSpin lowInputs) planets.moon
      (windVec lowInputs) predDt = ⟨0, -(252 / 25), -10⟩ := by
    norm_num [integrateVelocity, calculateAcceleration, F_gravity, F_magnus, F_wind, mass,
      windVec, lowInputs, launchSpin, planets.moon, Vec3.add, Vec3.multiplyScalar,
      Vec3.divideScalar, Vec3.crossVectors, predDt]
  have hp : integratePosition (⟨0, 4 / 10, 0⟩ : Vec3 ℝ) ⟨0, -(252 / 25), -10⟩ predDt
      = ⟨0, -(13 / 125), -(1 / 2)⟩ := by
    norm_num [integratePosition, Vec3.add, Vec3.multiplyScalar, predDt]
  rw [hv, hp]
  refine ⟨?_, by norm_num⟩
  unfold predGroundContact
  rw [if_pos (by norm_num [BALL_RADIUS])]
  simp only [Prod.mk.injEq, Vec3.mk.injEq, decide_eq_false_iff_not, true_and]
  refine ⟨by norm_num [predDt], ?_⟩
  rw [Real.sqrt_lt' (by norm_num)]
  norm_num [predDt]

/-- C19 as stated fails: on the Moon with speed 20 towards the foot of the
goal, the first simulated step carries the position to the ground
(`y ≤ BALL_RADIUS`), yet the loop goes on and the polyline has a point 1, the
clamped position `(0, 0.35, 24)`.  The same holds when a step carries the
position below `y = 0`: from position `(0, 0.4, 0)` with velocity
`(0, -10, -10)` the step reaches `y = -0.104`, and the loop records the
clamped position `(0, 0.35, -0.5)` as its next point. -/
theorem pred_loop_continues_on_ground :
    (integratePosition (readySample : Game ℝ).startPos
        (integrateVelocity (launchVelocity Real.sqrt lowInputs (readySample : Game ℝ).startPos)
          (launchSpin lowInputs) (readySample : Game ℝ).currentPlanet (windVec lowInputs)
          predDt) predDt).y ≤ BALL_RADIUS ∧
      pointAt (updatePredictionPath Real.sqrt lowInputs (readySample : Game ℝ)).predPoints 1
        = some ⟨0, BALL_RADIUS, 24⟩ ∧
      (integratePosition (⟨0, 4 / 10, 0⟩ : Vec3 ℝ)
        (integrateVelocity ⟨0, -10, -10⟩ (launchSpin lowInputs) planets.moon
          (windVec lowInputs) predDt) predDt).y ≤ 0 ∧
      pointAt (predLoop Real.sqrt planets.moon (launchSpin lowInputs) (windVec lowInputs) 50
          (⟨0, 4 / 10, 0⟩ : Vec3 ℝ) ⟨0, -10, -10⟩ []).1 1
        = some ⟨0, BALL_RADIUS, -(1 / 2)⟩ := by
  have hstart : (readySample : Game ℝ).startPos = ⟨0, BALL_RADIUS, 25⟩ := rfl
  have hplanet : (readySample : Game ℝ).currentPlanet = planets.moon := rfl
  refine ⟨?_, ?_, dive_step.2, ?_⟩
  · rw [hstart, hplanet, low_launchVelocity]
    exact low_first_step.2
  · rw [updatePredictionPath_predPoints Real.sqrt lowInputs readySample rfl rfl, hstart, hplanet,
      low_launchVelocity, pointAt_flatten3, show (50 : ℕ) = 48 + 1 + 1 from rfl,
      predPath_succ, low_first_step.1]
    simp only [Bool.false_eq_true, if_false, List.getElem?_cons_succ]
    exact predPath_head _ _ _ _ _ _ _
  · have h := predLoop_eq Real.sqrt planets.moon (launchSpin lowInputs) (windVec lowInputs) 50
      (⟨0, 4 / 10, 0⟩ : Vec3 ℝ) ⟨0, -10, -10⟩ []
    simp only [flatten3, List.nil_append] at h
    rw [h, pointAt_flatten3, show (50 : ℕ) = 48 + 1 + 1 from rfl, predPath_succ, dive_step.1]
    simp only [Bool.false_eq_true, if_false, List.getElem?_cons_succ]
    exact predPath_head _ _ _ _ _ _ _

end PredictorGround

/-! ## Rolling friction -/

section Friction

variable {K : Type} [LinearOrderedField K]

/-- C20 (amended): for `0 ≤ dt ≤ 20/7` (that is `0.35 * dt ≤ 1`) the rolling
branch of the live ground block leaves the horizontal velocity multiplied by
`1 - 0.35 * dt`, a factor in `[0, 1]`, or zero (when it stops the ball): the
result is a non-negative multiple of the velocity before and its squared
horizontal magnitude is not greater. -/
theorem rolling_friction_reduces (sqrt : K → K) (dt : K) (p v : Vec3 K) (f : Bool)
    (hdt0 : 0 ≤ dt) (hdt1 : dt ≤ 20 / 7)
    (hy : p.y ≤ BALL_RADIUS) (hroll : ¬ v.y < -(6 / 10)) :
    0 ≤ 1 - 35 / 100 * dt ∧ 1 - 35 / 100 * dt ≤ 1 ∧
      ((groundContact sqrt dt p v f).2.1
          = ⟨v.x * (1 - 35 / 100 * dt), 0, v.z * (1 - 35 / 100 * dt)⟩ ∨
        (groundContact sqrt dt p v f).2.1 = ⟨0, 0, 0⟩) ∧
      (∃ c : K, 0 ≤ c ∧ c ≤ 1 ∧ (groundContact sqrt dt p v f).2.1.x = c * v.x ∧
        (groundContact sqrt dt p v f).2.1.z = c * v.z) ∧
      (groundContact sqrt dt p v f).2.1.x * (groundContact sqrt dt p v f).2.1.x +
          (groundContact sqrt dt p v f).2.1.z * (groundContact sqrt dt p v f).2.1.z
        ≤ v.x * v.x + v.z * v.z := by
  have h0 : 0 ≤ 1 - 35 / 100 * dt := by linarith
  have h1 : 1 - 35 / 100 * dt ≤ 1 := by linarith
  have hsq : (1 - 35 / 100 * dt) * (1 - 35 / 100 * dt) ≤ 1 := by nlinarith
  have hx := mul_self_nonneg v.x
  have hz := mul_self_nonneg v.z
  refine ⟨h0, h1, ?_⟩
  unfold groundContact
  simp only [hy, if_true, hroll, if_false]
  split_ifs
  · refine ⟨Or.inr rfl, ⟨0, le_refl _, by norm_num, by simp, by simp⟩, ?_⟩
    simp only [mul_zero, add_zero]
    linarith
  · refine ⟨Or.inl rfl, ⟨1 - 35 / 100 * dt, h0, h1, by ring, by ring⟩, ?_⟩
    have e : v.x * (1 - 35 / 100 * dt) * (v.x * (1 - 35 / 100 * dt)) +
        v.z * (1 - 35 / 100 * dt) * (v.z * (1 - 35 / 100 * dt))
        = (1 - 35 / 100 * dt) * (1 - 35 / 100 * dt) * (v.x * v.x + v.z * v.z) := by ring
    rw [e]
    nlinarith

/-- C20 (amended) on a concrete step: a frame of 1/60 s on a ball rolling
with horizontal velocity `(3, -4)`. -/
theorem rolling_friction_reduces_witness :
    (0 : ℝ) ≤ 1 - 35 / 100 * (1 / 60) ∧ (1 : ℝ) - 35 / 100 * (1 / 60) ≤ 1 ∧
      (groundContact Real.sqrt (1 / 60) (⟨0, 3 / 10, 0⟩ : Vec3 ℝ) ⟨3, 0, -4⟩ true).2.1.x *
          (groundContact Real.sqrt (1 / 60) (⟨0, 3 / 10, 0⟩ : Vec3 ℝ) ⟨3, 0, -4⟩ true).2.1.x +
        (groundContact Real.sqrt (1 / 60) (⟨0, 3 / 10, 0⟩ : Vec3 ℝ) ⟨3, 0, -4⟩ true).2.1.z *
          (groundContact Real.sqrt (1 / 60) (⟨0, 3 / 10, 0⟩ : Vec3 ℝ) ⟨3, 0, -4⟩ true).2.1.z
        ≤ (3 : ℝ) * 3 + (-4) * (-4) :=
  have h := rolling_friction_reduces Real.sqrt (1 / 60) (⟨0, 3 / 10, 0⟩ : Vec3 ℝ) ⟨3, 0, -4⟩ true
    (by norm_num) (by norm_num) (by norm_num [BALL_RADIUS]) (by norm_num)
  ⟨h.1, h.2.1, h.2.2.2.2⟩

/-- C20 as stated fails for a long frame: with `dt = 10` the factor
`1 - 0.35 * dt` is -2.5, and a ball rolling with velocity `(1, 0, 0)` leaves
the rolling branch with velocity `(-2.5, 0, 0)`: reversed and faster. -/
theorem rolling_friction_long_frame :
    (0 : ℝ) ≤ 10 ∧ (1 : ℝ) - 35 / 100 * 10 < 0 ∧
      (groundContact Real.sqrt 10 (⟨0, 3 / 10, 0⟩ : Vec3 ℝ) ⟨1, 0, 0⟩ true).2.1
        = ⟨-(5 / 2), 0, 0⟩ := by
  refine ⟨by norm_num, by norm_num, ?_⟩
  unfold groundContact
  rw [if_pos (by norm_num [BALL_RADIUS]), if_neg (by norm_num)]
  dsimp only
  rw [if_neg]
  · norm_num
  · rw [Real.sqrt_lt' (by norm_num)]
    norm_num

end Friction

end Wadaa
